import Mathlib

/-!
# ADS129x driver: session state machine, command dispatcher and acquisition path

A shallow embedding of `ads129xDriver.h` / `ads129xDriver.cpp`.

* The object fields of `class ADS129xSensor` are the first fields of the structure
  `ADS129xSensor`; the remaining fields are the environment the methods act on: the
  chronological log `trace` of every platform call (pins, SPI, delays, Serial), the byte
  stream `miso` the chip drives on the bus, the number `rxCount` of bytes clocked in so far,
  and the global pointer `_ADS129xSensorPrivateInstance_`.
* `byte` / `uint8_t` values are natural numbers, reduced `% 256` where a value is put on
  or taken from the bus.
* `while (1);` (in `_ADS_ERROR`, and in `_ADS_WARNING` when the verbosity level is above 0)
  never returns; a method that can reach it has result type `Outcome`, whose constructor
  `halted` carries the state in which the program is stuck.
* The preprocessor configuration (`ads129xDriverConfig.h`) is the parameter `cfg`.
-/

namespace ADS129x

/-! ## Build-time configuration (`ads129xDriverConfig.h`) -/

/-- Supported chips: the values admitted for `ADS_CHIP_USED`. -/
inductive AdsChip where
  | ADS_1294 | ADS_1294R | ADS_1296 | ADS_1296R | ADS_1298 | ADS_1298R
  deriving DecidableEq, Repr

/-- Numeric code of each chip selector (`#define ADS_1294 1` ... `#define ADS_1298R 6`). -/
def AdsChip.code : AdsChip → Nat
  | .ADS_1294 => 1
  | .ADS_1294R => 2
  | .ADS_1296 => 3
  | .ADS_1296R => 4
  | .ADS_1298 => 5
  | .ADS_1298R => 6

/-- Values admitted for `ADS_BITS_PER_CHANNEL` ("Could be 16 or 24"). -/
inductive BitsPerChannel where
  | bits16 | bits24
  deriving DecidableEq, Repr

/-- Number of bits denoted by the selector. -/
def BitsPerChannel.toNat : BitsPerChannel → Nat
  | .bits16 => 16
  | .bits24 => 24

/-- The user-editable constants of `ads129xDriverConfig.h`. -/
structure Config where
  ADS_CHIP_USED : AdsChip
  ADS_BITS_PER_CHANNEL : BitsPerChannel
  ADS_LIBRARY_VERBOSE_LEVEL : Nat
  deriving DecidableEq, Repr

/-- Constant `ADS_N_CHANNELS`, selected by the `#if ADS_CHIP_USED == ...` chain. -/
def ADS_N_CHANNELS (cfg : Config) : Nat :=
  match cfg.ADS_CHIP_USED with
  | .ADS_1294 => 4
  | .ADS_1294R => 4
  | .ADS_1296 => 6
  | .ADS_1296R => 6
  | .ADS_1298 => 8
  | .ADS_1298R => 8

/-- Constant `ADS_HAS_RESPIRATION_MODULE`, selected by the same chain. -/
def ADS_HAS_RESPIRATION_MODULE (cfg : Config) : Bool :=
  match cfg.ADS_CHIP_USED with
  | .ADS_1294 => false
  | .ADS_1294R => true
  | .ADS_1296 => false
  | .ADS_1296R => true
  | .ADS_1298 => false
  | .ADS_1298R => true

/-- Constant `_ADS_DATA_PACKAGE_SIZE`: `3 + 2 * ADS_N_CHANNELS` at 16 bits, `3 + 3 * ADS_N_CHANNELS`
at 24 bits. -/
def _ADS_DATA_PACKAGE_SIZE (cfg : Config) : Nat :=
  match cfg.ADS_BITS_PER_CHANNEL with
  | .bits16 => 3 + 2 * ADS_N_CHANNELS cfg
  | .bits24 => 3 + 3 * ADS_N_CHANNELS cfg

/-! ## Constants of `ads129xDriver.h` -/

/-- Constant `_ADS_T_CLK` is 0.514 microseconds, kept as the exact fraction 514 / 1000. -/
def _ADS_T_CLK : Nat × Nat := (514, 1000)

/-- Value of `ceil(k * t)` for a fraction `t = (numerator, denominator)`. -/
def ceilTimes (k : Nat) (t : Nat × Nat) : Nat := (k * t.1 + (t.2 - 1)) / t.2

/-- Constant `_ADS_T_CLK_2` is `ceil(2 * _ADS_T_CLK)`. -/
def _ADS_T_CLK_2 : Nat := ceilTimes 2 _ADS_T_CLK

/-- Constant `_ADS_T_CLK_4` is `ceil(4 * _ADS_T_CLK)`. -/
def _ADS_T_CLK_4 : Nat := ceilTimes 4 _ADS_T_CLK

/-- Constant `_ADS_T_CLK_18` is `ceil(18 * _ADS_T_CLK)`. -/
def _ADS_T_CLK_18 : Nat := ceilTimes 18 _ADS_T_CLK

/-- Constant `_ADS_SPI_MAX_SPEED` is 4e6 (4 MHz). -/
def _ADS_SPI_MAX_SPEED : Nat := 4000000

/-- Bit orders of the SPI library. -/
inductive BitOrder where
  | LSBFIRST | MSBFIRST
  deriving DecidableEq, Repr

/-- Clock modes of the SPI library. -/
inductive SPIMode where
  | SPI_MODE0 | SPI_MODE1 | SPI_MODE2 | SPI_MODE3
  deriving DecidableEq, Repr

/-- Constant `_ADS_SPI_BIT_ORDER` is `MSBFIRST`. -/
def _ADS_SPI_BIT_ORDER : BitOrder := .MSBFIRST

/-- Constant `_ADS_SPI_MODE` is `SPI_MODE1`. -/
def _ADS_SPI_MODE : SPIMode := .SPI_MODE1

/-- Constant `_ADS_POWER_UP_DELAY_MS` is 1000. -/
def _ADS_POWER_UP_DELAY_MS : Nat := 1000

/-- Session mode `SinglePending`. -/
def _ADS_READING_DATA_IN_RDATA_MODE : Nat := 1

/-- Session mode `ContinuousStream`. -/
def _ADS_READING_DATA_IN_RDATAC_MODE : Nat := 2

/-- Session mode `Idle`. -/
def _ADS_NO_READING_NEW_DATA : Nat := 3

/-- Constant `ADS_PIN_NOT_USED` is 255. -/
def ADS_PIN_NOT_USED : Nat := 255

/-! ## Command opcodes (`ads129xDatasheetConstants.h`, `namespace ads::commands`) -/

namespace ads.commands

/-- Opcode `WAKEUP`. -/
def WAKEUP : Nat := 0x02
/-- Opcode `STANDBY`. -/
def STANDBY : Nat := 0x04
/-- Opcode `RESET`. -/
def RESET : Nat := 0x06
/-- Opcode `START`. -/
def START : Nat := 0x08
/-- Opcode `STOP`. -/
def STOP : Nat := 0x0a
/-- Opcode `RDATAC`. -/
def RDATAC : Nat := 0x10
/-- Opcode `SDATAC`. -/
def SDATAC : Nat := 0x11
/-- Opcode `RDATA`. -/
def RDATA : Nat := 0x12
/-- Opcode `RREG` (register address in the low bits). -/
def RREG : Nat := 0x20
/-- Opcode `WREG` (register address in the low bits). -/
def WREG : Nat := 0x40

end ads.commands

/-- Register addresses used by the methods embedded here
(`ads::registers::<name>::REG_ADDR`). -/
def ads.registers.id.REG_ADDR : Nat := 0x00
/-- Address of `CONFIG1`. -/
def ads.registers.config1.REG_ADDR : Nat := 0x01
/-- Address of `RESP`. -/
def ads.registers.resp.REG_ADDR : Nat := 0x16

/-! ## Register map (`ads129xDatasheetConstants.h`, `namespace ads::registers`) -/

/-- Reserved bits of `ID`. -/
def ads.registers.id.RESERVED_BITS : Nat := 0x10
/-- Bit `DEV_ID7` of `ID`. -/
def ads.registers.id.B_DEV_ID7 : Nat := 0x80
/-- Bit `DEV_ID6` of `ID`. -/
def ads.registers.id.B_DEV_ID6 : Nat := 0x40
/-- Bit `DEV_ID1` of `ID`. -/
def ads.registers.id.B_DEV_ID1 : Nat := 0x02
/-- Bit `DEV_ID0` of `ID`. -/
def ads.registers.id.B_DEV_ID0 : Nat := 0x01
/-- Family code of the chips without respiration module. -/
def ads.registers.id._ID_ADS129x : Nat := ads.registers.id.B_DEV_ID7
/-- Family code of the chips with respiration module. -/
def ads.registers.id._ID_ADS129xR : Nat :=
  ads.registers.id.B_DEV_ID7 ||| ads.registers.id.B_DEV_ID6
/-- Channel code of the 4-channel chips. -/
def ads.registers.id._ID_4CHAN : Nat := 0x00
/-- Channel code of the 6-channel chips. -/
def ads.registers.id._ID_6CHAN : Nat := ads.registers.id.B_DEV_ID0
/-- Channel code of the 8-channel chips. -/
def ads.registers.id._ID_8CHAN : Nat := ads.registers.id.B_DEV_ID1
/-- Identity byte `ID_ADS1294`. -/
def ads.registers.id.ID_ADS1294 : Nat :=
  ads.registers.id._ID_ADS129x ||| ads.registers.id._ID_4CHAN ||| ads.registers.id.RESERVED_BITS
/-- Identity byte `ID_ADS1296`. -/
def ads.registers.id.ID_ADS1296 : Nat :=
  ads.registers.id._ID_ADS129x ||| ads.registers.id._ID_6CHAN ||| ads.registers.id.RESERVED_BITS
/-- Identity byte `ID_ADS1298`. -/
def ads.registers.id.ID_ADS1298 : Nat :=
  ads.registers.id._ID_ADS129x ||| ads.registers.id._ID_8CHAN ||| ads.registers.id.RESERVED_BITS
/-- Identity byte `ID_ADS1294R`. -/
def ads.registers.id.ID_ADS1294R : Nat :=
  ads.registers.id._ID_ADS129xR ||| ads.registers.id._ID_4CHAN ||| ads.registers.id.RESERVED_BITS
/-- Identity byte `ID_ADS1296R`. -/
def ads.registers.id.ID_ADS1296R : Nat :=
  ads.registers.id._ID_ADS129xR ||| ads.registers.id._ID_6CHAN ||| ads.registers.id.RESERVED_BITS
/-- Identity byte `ID_ADS1298R`. -/
def ads.registers.id.ID_ADS1298R : Nat :=
  ads.registers.id._ID_ADS129xR ||| ads.registers.id._ID_8CHAN ||| ads.registers.id.RESERVED_BITS

/-- Reserved bits of `config1`. -/
def ads.registers.config1.RESERVED_BITS : Nat := 0x00
/-- Reset value of `config1`. -/
def ads.registers.config1.RESET_VALUE : Nat := 0x06
/-- Address of `config2`. -/
def ads.registers.config2.REG_ADDR : Nat := 0x02
/-- Reserved bits of `config2`. -/
def ads.registers.config2.RESERVED_BITS : Nat := 0x00
/-- Reset value of `config2`. -/
def ads.registers.config2.RESET_VALUE : Nat := 0x00
/-- Address of `config3`. -/
def ads.registers.config3.REG_ADDR : Nat := 0x03
/-- Reserved bits of `config3`. -/
def ads.registers.config3.RESERVED_BITS : Nat := 0x40
/-- Reset value of `config3`. -/
def ads.registers.config3.RESET_VALUE : Nat := 0x40
/-- Address of `loff`. -/
def ads.registers.loff.REG_ADDR : Nat := 0x04
/-- Reserved bits of `loff`. -/
def ads.registers.loff.RESERVED_BITS : Nat := 0x00
/-- Reset value of `loff`. -/
def ads.registers.loff.RESET_VALUE : Nat := 0x00
/-- Address of `rldSensp`. -/
def ads.registers.rldSensp.REG_ADDR : Nat := 0x0D
/-- Reserved bits of `rldSensp`. -/
def ads.registers.rldSensp.RESERVED_BITS : Nat := 0x00
/-- Reset value of `rldSensp`. -/
def ads.registers.rldSensp.RESET_VALUE : Nat := 0x00
/-- Address of `rldSensn`. -/
def ads.registers.rldSensn.REG_ADDR : Nat := 0x0E
/-- Reserved bits of `rldSensn`. -/
def ads.registers.rldSensn.RESERVED_BITS : Nat := 0x00
/-- Reset value of `rldSensn`. -/
def ads.registers.rldSensn.RESET_VALUE : Nat := 0x00
/-- Address of `loffSensp`. -/
def ads.registers.loffSensp.REG_ADDR : Nat := 0x0F
/-- Reserved bits of `loffSensp`. -/
def ads.registers.loffSensp.RESERVED_BITS : Nat := 0x00
/-- Reset value of `loffSensp`. -/
def ads.registers.loffSensp.RESET_VALUE : Nat := 0x00
/-- Address of `loffSensn`. -/
def ads.registers.loffSensn.REG_ADDR : Nat := 0x10
/-- Reserved bits of `loffSensn`. -/
def ads.registers.loffSensn.RESERVED_BITS : Nat := 0x00
/-- Reset value of `loffSensn`. -/
def ads.registers.loffSensn.RESET_VALUE : Nat := 0x00
/-- Address of `loffFlip`. -/
def ads.registers.loffFlip.REG_ADDR : Nat := 0x11
/-- Reserved bits of `loffFlip`. -/
def ads.registers.loffFlip.RESERVED_BITS : Nat := 0x00
/-- Reset value of `loffFlip`. -/
def ads.registers.loffFlip.RESET_VALUE : Nat := 0x00
/-- Address of `gpio`. -/
def ads.registers.gpio.REG_ADDR : Nat := 0x14
/-- Reserved bits of `gpio`. -/
def ads.registers.gpio.RESERVED_BITS : Nat := 0x00
/-- Reset value of `gpio`. -/
def ads.registers.gpio.RESET_VALUE : Nat := 0x0F
/-- Address of `pace`. -/
def ads.registers.pace.REG_ADDR : Nat := 0x15
/-- Reserved bits of `pace`. -/
def ads.registers.pace.RESERVED_BITS : Nat := 0x00
/-- Reset value of `pace`. -/
def ads.registers.pace.RESET_VALUE : Nat := 0x00
/-- Reserved bits of `resp`. -/
def ads.registers.resp.RESERVED_BITS : Nat := 0x20
/-- Reset value of `resp`. -/
def ads.registers.resp.RESET_VALUE : Nat := 0x00
/-- Address of `config4`. -/
def ads.registers.config4.REG_ADDR : Nat := 0x17
/-- Reserved bits of `config4`. -/
def ads.registers.config4.RESERVED_BITS : Nat := 0x00
/-- Reset value of `config4`. -/
def ads.registers.config4.RESET_VALUE : Nat := 0x00
/-- Address of `wct1`. -/
def ads.registers.wct1.REG_ADDR : Nat := 0x18
/-- Reserved bits of `wct1`. -/
def ads.registers.wct1.RESERVED_BITS : Nat := 0x00
/-- Reset value of `wct1`. -/
def ads.registers.wct1.RESET_VALUE : Nat := 0x00
/-- Address of `wct2`. -/
def ads.registers.wct2.REG_ADDR : Nat := 0x19
/-- Reserved bits of `wct2`. -/
def ads.registers.wct2.RESERVED_BITS : Nat := 0x00
/-- Reset value of `wct2`. -/
def ads.registers.wct2.RESET_VALUE : Nat := 0x00
/-- Base address of the channel registers: `CHnSET` is at `_BASE_REG_ADDR + n`. -/
def ads.registers.chnSet._BASE_REG_ADDR : Nat := 0x04
/-- Reserved bits of the channel registers. -/
def ads.registers.chnSet.RESERVED_BITS : Nat := 0x00
/-- Reset value of the channel registers. -/
def ads.registers.chnSet.RESET_VALUE : Nat := 0x00
/-- Power-down bit of a channel register. -/
def ads.registers.chnSet.B_PDn : Nat := 0x80
/-- Gain bit 2 of a channel register. -/
def ads.registers.chnSet.B_GAINn2 : Nat := 0x40
/-- Gain bit 1 of a channel register. -/
def ads.registers.chnSet.B_GAINn1 : Nat := 0x20
/-- Gain bit 0 of a channel register. -/
def ads.registers.chnSet.B_GAINn0 : Nat := 0x10
/-- Input multiplexer bit 2 of a channel register. -/
def ads.registers.chnSet.B_MUXn2 : Nat := 0x04
/-- Input multiplexer bit 1 of a channel register. -/
def ads.registers.chnSet.B_MUXn1 : Nat := 0x02
/-- Input multiplexer bit 0 of a channel register. -/
def ads.registers.chnSet.B_MUXn0 : Nat := 0x01
/-- Channel input `SHORTED`. -/
def ads.registers.chnSet.SHORTED : Nat :=
  ads.registers.chnSet.B_MUXn0 ||| ads.registers.chnSet.RESERVED_BITS
/-- Channel input `ELECTRODE_INPUT`. -/
def ads.registers.chnSet.ELECTRODE_INPUT : Nat := 0x00 ||| ads.registers.chnSet.RESERVED_BITS
/-- Gain constant `GAIN_1X`. -/
def ads.registers.chnSet.GAIN_1X : Nat :=
  ads.registers.chnSet.B_GAINn0 ||| ads.registers.chnSet.RESERVED_BITS
/-- Gain constant `GAIN_12X`. -/
def ads.registers.chnSet.GAIN_12X : Nat :=
  ads.registers.chnSet.B_GAINn2 ||| ads.registers.chnSet.B_GAINn1 |||
    ads.registers.chnSet.RESERVED_BITS
/-- Address of the read-only register `loffStatp`. -/
def ads.registers.loffStatp.REG_ADDR : Nat := 0x12
/-- Address of the read-only register `loffStatn`. -/
def ads.registers.loffStatn.REG_ADDR : Nat := 0x13

/-! ## Platform calls and the session state -/

/-- Pin levels of `digitalWrite`. -/
inductive PinLevel where
  | LOW | HIGH
  deriving DecidableEq, Repr

/-- Pin directions of `pinMode`. -/
inductive PinDirection where
  | INPUT | OUTPUT
  deriving DecidableEq, Repr

/-- One call of the Arduino platform, as it is logged in `trace`. -/
inductive Event where
  /-- Call `SPI.begin()` -/
  | spiBegin
  /-- Call `pinMode(pin, dir)` -/
  | pinMode (pin : Nat) (dir : PinDirection)
  /-- Call `digitalWrite(pin, level)` -/
  | digitalWrite (pin : Nat) (level : PinLevel)
  /-- Call `attachInterrupt(digitalPinToInterrupt(pin), _ISR_ADS_privateReadDataFromChip_, FALLING)` -/
  | attachInterrupt (pin : Nat)
  /-- Call `SPI.usingInterrupt(digitalPinToInterrupt(pin))` -/
  | usingInterrupt (pin : Nat)
  /-- Call `SPI.beginTransaction(SPISettings(clock, order, mode))` -/
  | beginTransaction (clock : Nat) (order : BitOrder) (mode : SPIMode)
  /-- Call `SPI.endTransaction()` -/
  | endTransaction
  /-- Call `SPI.transfer(tx)`, which returned `rx` -/
  | transfer (tx rx : Nat)
  /-- Call `SPI.transfer(buffer, count)`: the bytes sent and the bytes received in their place -/
  | transferBuf (tx rx : List Nat)
  /-- Call `delay(ms)` -/
  | delay (ms : Nat)
  /-- Call `delayMicroseconds(us)` -/
  | delayMicroseconds (us : Nat)
  /-- Call `Serial.print(msg)` -/
  | serialPrint (msg : String)
  /-- Call `Serial.println(msg)` -/
  | serialPrintln (msg : String)
  /-- Call `Serial.println(value, base)`, base 10 when the source gives none -/
  | serialPrintlnNum (value base : Nat)
  deriving DecidableEq, Repr

/-- Diagnostic output on the serial console, which is not bus, pin or timing activity. -/
def Event.isSerial : Event → Bool
  | .serialPrint _ => true
  | .serialPrintln _ => true
  | .serialPrintlnNum _ _ => true
  | _ => false

/-- The bytes an event puts on the bus (MOSI). -/
def Event.txBytes : Event → List Nat
  | .transfer tx _ => [tx]
  | .transferBuf tx _ => tx
  | _ => []

/-- All bytes put on the bus by a log, in order. -/
def txBytes (log : List Event) : List Nat :=
  log.flatMap Event.txBytes

/-- The object `ADS129xSensor` together with the environment its methods act on. -/
structure ADS129xSensor where
  /-- Field `volatile boolean isSpiOpen` -/
  isSpiOpen : Bool
  /-- Field `volatile boolean hasNewData` -/
  hasNewData : Bool
  /-- Field `volatile uint8_t readingStatus` -/
  readingStatus : Nat
  chipSelectPin : Nat
  drdyPin : Nat
  resetPin : Nat
  startPin : Nat
  pwdnPin : Nat
  clkselPin : Nat
  /-- Field `adsData.rawData`, an array of `_ADS_DATA_PACKAGE_SIZE` bytes -/
  adsData : List Nat
  /-- Address of the object (`this`) -/
  this : Nat
  /-- Global `_ADS129xSensorPrivateInstance_`, 0 when null -/
  _ADS129xSensorPrivateInstance_ : Nat
  /-- Every platform call made so far, oldest first -/
  trace : List Event
  /-- Byte the chip drives during the k-th byte exchange -/
  miso : Nat → Nat
  /-- Number of bytes exchanged so far -/
  rxCount : Nat

/-- Result of a method that may reach `while (1);`. -/
inductive Outcome (α : Type) where
  /-- The method returned `value` to its caller -/
  | returned (value : α) (s : ADS129xSensor)
  /-- The method entered `while (1);` and the program is stuck in state `s` -/
  | halted (s : ADS129xSensor)

/-- State in which the method returned or got stuck. -/
def Outcome.state {α : Type} : Outcome α → ADS129xSensor
  | .returned _ s => s
  | .halted s => s

/-- Whether control came back to the caller. -/
def Outcome.didReturn {α : Type} : Outcome α → Bool
  | .returned _ _ => true
  | .halted _ => false

/-- Value handed back to the caller, if control came back. -/
def Outcome.value? {α : Type} : Outcome α → Option α
  | .returned v _ => some v
  | .halted _ => none

/-- Sequencing: the continuation runs only if the first part returned. -/
def Outcome.bind {α β : Type} (o : Outcome α) (f : α → ADS129xSensor → Outcome β) : Outcome β :=
  match o with
  | .returned v s => f v s
  | .halted s => .halted s

/-- Append one platform call to the log. -/
def ADS129xSensor.emit (s : ADS129xSensor) (e : Event) : ADS129xSensor :=
  { s with trace := s.trace ++ [e] }

/-- The constructor: pins stored, `isSpiOpen = false`, `hasNewData = false`,
`readingStatus = _ADS_NO_READING_NEW_DATA`. The constructor does not initialise `adsData`;
its content `rawData` is whatever the memory holds. The environment starts with an empty
log and a null `_ADS129xSensorPrivateInstance_`. -/
def ADS129xSensor.new (chipSelectPin drdyPin resetPin startPin pwdnPin clkselPin : Nat)
    (this : Nat) (rawData : List Nat) (miso : Nat → Nat) : ADS129xSensor where
  isSpiOpen := false
  hasNewData := false
  readingStatus := _ADS_NO_READING_NEW_DATA
  chipSelectPin := chipSelectPin
  drdyPin := drdyPin
  resetPin := resetPin
  startPin := startPin
  pwdnPin := pwdnPin
  clkselPin := clkselPin
  adsData := rawData
  this := this
  _ADS129xSensorPrivateInstance_ := 0
  trace := []
  miso := miso
  rxCount := 0

/-- Call `SPI.transfer(data)`: one full-duplex byte exchange; returns the byte received. -/
def SPI.transfer (s : ADS129xSensor) (data : Nat) : Nat × ADS129xSensor :=
  let rx := s.miso s.rxCount % 256
  (rx, { s with trace := s.trace ++ [.transfer (data % 256) rx], rxCount := s.rxCount + 1 })

/-- Bytes the chip drives during the `count` byte exchanges that start with exchange number
`start`. -/
def incoming (miso : Nat → Nat) (start count : Nat) : List Nat :=
  (List.range count).map fun i => miso (start + i) % 256

/-- Call `SPI.transfer(&adsData.rawData, count)`: the first `count` bytes of the buffer are sent
and each is replaced by the byte received in its place. -/
def SPI.transferBuf (s : ADS129xSensor) (count : Nat) : ADS129xSensor :=
  let tx := s.adsData.take count
  let rx := incoming s.miso s.rxCount count
  { s with
    adsData := rx ++ s.adsData.drop count
    trace := s.trace ++ [.transferBuf tx rx]
    rxCount := s.rxCount + count }

/-- Expansion of `_ADS_WARNING(msg)`: nothing at verbosity 0; otherwise prints and enters `while (1);`. -/
def _ADS_WARNING (cfg : Config) (msg : String) (s : ADS129xSensor) : Outcome Unit :=
  if cfg.ADS_LIBRARY_VERBOSE_LEVEL > 0 then
    .halted (((s.emit (.serialPrint "Warning: ")).emit (.serialPrintln msg)).emit
      (.serialPrintln "Stopping program execution"))
  else
    .returned () s

/-- Expansion of `_ADS_ERROR(msg)`: enters `while (1);`, after printing when the verbosity is above 0. -/
def _ADS_ERROR (cfg : Config) (msg : String) (s : ADS129xSensor) : Outcome Unit :=
  if cfg.ADS_LIBRARY_VERBOSE_LEVEL > 0 then
    .halted (((s.emit (.serialPrint "Error: ")).emit (.serialPrintln msg)).emit
      (.serialPrintln "Stopping program execution"))
  else
    .halted s

/-- The low byte of `~x`: a byte and-ed with `~x` keeps exactly the bits selected by it. -/
def complementByte (x : Nat) : Nat := 0xFF ^^^ x

/-- The low byte of the two's-complement representation of a signed integer. -/
def lowByte (i : Int) : Nat := (i % 256).toNat

/-- Warning text of `readRegister` and `writeRegister`. -/
def msgRdatacRegister : String :=
  "In RDATAC mode, ADS only accept SDATAC SPI command. Others commands (like read/write registers) will be ignored "

/-- Warning text of the `sendSPICommand...` methods. -/
def msgRdatacCommand : String :=
  "In RDATAC mode, ADS only accept SDATAC SPI command. Others commands will be ignored"

namespace ADS129xSensor

/-- Method `beginSpiTransaction()` -/
def beginSpiTransaction (s : ADS129xSensor) : ADS129xSensor :=
  if !s.isSpiOpen then
    let s := s.emit (.beginTransaction _ADS_SPI_MAX_SPEED _ADS_SPI_BIT_ORDER _ADS_SPI_MODE)
    let s := s.emit (.digitalWrite s.chipSelectPin .LOW)
    { s with isSpiOpen := true }
  else
    s

/-- Method `endSpiTransaction()` -/
def endSpiTransaction (s : ADS129xSensor) : ADS129xSensor :=
  if s.isSpiOpen then
    let s := { s with isSpiOpen := false }
    let s := s.emit (.digitalWrite s.chipSelectPin .HIGH)
    s.emit .endTransaction
  else
    s

/-- Method `sendCommand(command, keepSpiOpen)` -/
def sendCommand (cfg : Config) (s : ADS129xSensor) (command : Nat) (keepSpiOpen : Bool) :
    ADS129xSensor :=
  let s := s.beginSpiTransaction
  let s := (SPI.transfer s command).2
  let s :=
    if cfg.ADS_LIBRARY_VERBOSE_LEVEL > 1 then
      (s.emit (.serialPrint "Command sent: ")).emit (.serialPrintlnNum command 2)
    else s
  if !keepSpiOpen then s.endSpiTransaction else s

/-- The loop `for (uint8_t i = 0; i < _ADS_DATA_PACKAGE_SIZE; i++) adsData.rawData[i] = 0x00;` -/
def cleanBuffer (cfg : Config) (s : ADS129xSensor) : ADS129xSensor :=
  { s with adsData :=
      (List.range (_ADS_DATA_PACKAGE_SIZE cfg)).foldl (fun raw i => raw.set i 0x00) s.adsData }

/-- Method `_privateReadDataFromChip_()`: the handler of the data-ready interrupt. -/
def _privateReadDataFromChip_ (cfg : Config) (s : ADS129xSensor) : ADS129xSensor :=
  if s.readingStatus = _ADS_NO_READING_NEW_DATA then
    s
  else
    let s :=
      if s.readingStatus = _ADS_READING_DATA_IN_RDATAC_MODE then
        s.beginSpiTransaction
      else
        let s := s.sendCommand cfg ads.commands.RDATA true
        { s with readingStatus := _ADS_NO_READING_NEW_DATA }
    let s := s.cleanBuffer cfg
    let s := SPI.transferBuf s (_ADS_DATA_PACKAGE_SIZE cfg)
    let s := { s with hasNewData := true }
    s.endSpiTransaction

/-- Method `getData()`: marks the data as read and hands out the buffer. -/
def getData (s : ADS129xSensor) : List Nat × ADS129xSensor :=
  let s := { s with hasNewData := false }
  (s.adsData, s)

/-- Method `hasNewDataAvailable()` -/
def hasNewDataAvailable (s : ADS129xSensor) : Bool :=
  s.hasNewData

/-- Method `doHardwareReset()` -/
def doHardwareReset (cfg : Config) (s : ADS129xSensor) : Outcome Unit :=
  (if s.resetPin = ADS_PIN_NOT_USED then
      _ADS_ERROR cfg "Reset pin is not specified!!!" s
    else .returned () s).bind fun _ s =>
  let s := s.emit (.digitalWrite s.resetPin .LOW)
  let s := s.emit (.delay _ADS_T_CLK_2)
  let s := s.emit (.digitalWrite s.resetPin .HIGH)
  .returned () s

/-- Method `readRegister(registAddr, keepSpiOpen)` -/
def readRegister (cfg : Config) (s : ADS129xSensor) (registAddr : Nat) (keepSpiOpen : Bool) :
    Outcome Nat :=
  if s.readingStatus = _ADS_READING_DATA_IN_RDATAC_MODE then
    (_ADS_WARNING cfg msgRdatacRegister s).bind fun _ s => .returned 0xFF s
  else
    let s := s.beginSpiTransaction
    let s := (SPI.transfer s (ads.commands.RREG ||| registAddr)).2
    let s := (SPI.transfer s 0x00).2
    let (registerValue, s) := SPI.transfer s 0x00
    let s := if !keepSpiOpen then s.endSpiTransaction else s
    .returned registerValue s

/-- Method `writeRegister(registAddr, data, keepSpiOpen)` -/
def writeRegister (cfg : Config) (s : ADS129xSensor) (registAddr data : Nat)
    (keepSpiOpen : Bool) : Outcome Unit :=
  if s.readingStatus = _ADS_READING_DATA_IN_RDATAC_MODE then
    (_ADS_WARNING cfg msgRdatacRegister s).bind fun _ s => .returned () s
  else
    let s := s.beginSpiTransaction
    let s := (SPI.transfer s (ads.commands.WREG ||| registAddr)).2
    let s := (SPI.transfer s 0x00).2
    let s := (SPI.transfer s data).2
    let s :=
      if registAddr = ads.registers.config1.REG_ADDR ∨ registAddr = ads.registers.resp.REG_ADDR
      then s.emit (.delay _ADS_T_CLK_18)
      else s
    let s := if !keepSpiOpen then s.endSpiTransaction else s
    .returned () s

/-- Method `sendSPICommandWAKEUP(keepSpiOpen)` -/
def sendSPICommandWAKEUP (cfg : Config) (s : ADS129xSensor) (keepSpiOpen : Bool) :
    Outcome Unit :=
  if s.readingStatus = _ADS_READING_DATA_IN_RDATAC_MODE then
    (_ADS_WARNING cfg msgRdatacCommand s).bind fun _ s => .returned () s
  else
    let s := s.sendCommand cfg ads.commands.WAKEUP keepSpiOpen
    let s := s.emit (.delayMicroseconds _ADS_T_CLK_4)
    .returned () s

/-- Method `sendSPICommandSTANDBY(keepSpiOpen)` -/
def sendSPICommandSTANDBY (cfg : Config) (s : ADS129xSensor) (keepSpiOpen : Bool) :
    Outcome Unit :=
  if s.readingStatus = _ADS_READING_DATA_IN_RDATAC_MODE then
    (_ADS_WARNING cfg msgRdatacCommand s).bind fun _ s => .returned () s
  else
    let s := s.sendCommand cfg ads.commands.STANDBY keepSpiOpen
    .returned () s

/-- Method `sendSPICommandRESET(keepSpiOpen)` -/
def sendSPICommandRESET (cfg : Config) (s : ADS129xSensor) (keepSpiOpen : Bool) :
    Outcome Unit :=
  (if s.resetPin ≠ ADS_PIN_NOT_USED then
      _ADS_ERROR cfg
        "Reset pin is specified!!!! Reset must be done with the reset pin -> use doHardwareReset() method!!!"
        s
    else .returned () s).bind fun _ s =>
  if s.readingStatus = _ADS_READING_DATA_IN_RDATAC_MODE then
    (_ADS_WARNING cfg msgRdatacCommand s).bind fun _ s => .returned () s
  else
    let s := s.sendCommand cfg ads.commands.RESET keepSpiOpen
    let s := s.emit (.delayMicroseconds _ADS_T_CLK_18)
    .returned () s

/-- Method `sendSPICommandSTART(keepSpiOpen)` -/
def sendSPICommandSTART (cfg : Config) (s : ADS129xSensor) (keepSpiOpen : Bool) :
    Outcome Unit :=
  (if s.startPin ≠ ADS_PIN_NOT_USED then
      _ADS_ERROR cfg "Start pin is specified -> start and stop are not allowed!!!" s
    else .returned () s).bind fun _ s =>
  if s.readingStatus = _ADS_READING_DATA_IN_RDATAC_MODE then
    (_ADS_WARNING cfg msgRdatacCommand s).bind fun _ s => .returned () s
  else
    let s := s.sendCommand cfg ads.commands.START keepSpiOpen
    let s := s.emit (.delayMicroseconds _ADS_T_CLK_4)
    .returned () s

/-- Method `sendSPICommandSTOP(keepSpiOpen)` -/
def sendSPICommandSTOP (cfg : Config) (s : ADS129xSensor) (keepSpiOpen : Bool) :
    Outcome Unit :=
  (if s.startPin ≠ ADS_PIN_NOT_USED then
      _ADS_ERROR cfg "Start pin is specified -> start and stop are not allowed!!!" s
    else .returned () s).bind fun _ s =>
  if s.readingStatus = _ADS_READING_DATA_IN_RDATAC_MODE then
    (_ADS_WARNING cfg msgRdatacCommand s).bind fun _ s => .returned () s
  else
    let s := s.sendCommand cfg ads.commands.STOP keepSpiOpen
    .returned () s

/-- Method `sendSPICommandRDATAC(keepSpiOpen)` -/
def sendSPICommandRDATAC (cfg : Config) (s : ADS129xSensor) (keepSpiOpen : Bool) :
    Outcome Unit :=
  if s.readingStatus = _ADS_READING_DATA_IN_RDATAC_MODE then
    (_ADS_WARNING cfg msgRdatacCommand s).bind fun _ s => .returned () s
  else
    let s := s.sendCommand cfg ads.commands.RDATAC keepSpiOpen
    let s := s.emit (.delayMicroseconds _ADS_T_CLK_4)
    .returned () { s with readingStatus := _ADS_READING_DATA_IN_RDATAC_MODE }

/-- Method `sendSPICommandSDATAC(keepSpiOpen)` -/
def sendSPICommandSDATAC (cfg : Config) (s : ADS129xSensor) (keepSpiOpen : Bool) :
    Outcome Unit :=
  let s := s.sendCommand cfg ads.commands.SDATAC keepSpiOpen
  let s := s.emit (.delayMicroseconds _ADS_T_CLK_4)
  .returned () { s with readingStatus := _ADS_NO_READING_NEW_DATA }

/-- Method `sendSPICommandRDATA(keepSpiOpen)`: the argument is not used by the body. -/
def sendSPICommandRDATA (cfg : Config) (s : ADS129xSensor) (_keepSpiOpen : Bool) :
    Outcome Unit :=
  if s.readingStatus = _ADS_READING_DATA_IN_RDATAC_MODE then
    (_ADS_WARNING cfg msgRdatacCommand s).bind fun _ s => .returned () s
  else
    let s := { s with readingStatus := _ADS_READING_DATA_IN_RDATA_MODE }
    let s :=
      if cfg.ADS_LIBRARY_VERBOSE_LEVEL > 1 then
        (s.emit (.serialPrint "readingStatus: ")).emit (.serialPrintlnNum s.readingStatus 10)
      else s
    .returned () s

/-- Method `enableHardwareStartMode()` -/
def enableHardwareStartMode (cfg : Config) (s : ADS129xSensor) : Outcome Unit :=
  (if s.startPin = ADS_PIN_NOT_USED then
      _ADS_ERROR cfg "Start pin is not specified!!!" s
    else .returned () s).bind fun _ s =>
  let s := s.emit (.digitalWrite s.startPin .HIGH)
  let s := s.emit (.delay _ADS_T_CLK_2)
  .returned () s

/-- Method `disableHardwareStartMode()` -/
def disableHardwareStartMode (cfg : Config) (s : ADS129xSensor) : Outcome Unit :=
  (if s.startPin = ADS_PIN_NOT_USED then
      _ADS_ERROR cfg "Start pin is not specified!!!" s
    else .returned () s).bind fun _ s =>
  let s := s.emit (.digitalWrite s.startPin .LOW)
  let s := s.emit (.delay _ADS_T_CLK_2)
  .returned () s

/-- Method `enableExternalClockSource()` -/
def enableExternalClockSource (cfg : Config) (s : ADS129xSensor) : Outcome Unit :=
  (if s.clkselPin = ADS_PIN_NOT_USED then
      _ADS_ERROR cfg "Clksel pin is not specified!!!" s
    else .returned () s).bind fun _ s =>
  let s := s.emit (.digitalWrite s.clkselPin .LOW)
  .returned () s

/-- Method `disableExternalClockSource()` -/
def disableExternalClockSource (cfg : Config) (s : ADS129xSensor) : Outcome Unit :=
  (if s.clkselPin = ADS_PIN_NOT_USED then
      _ADS_ERROR cfg "Clksel pin is not specified!!!" s
    else .returned () s).bind fun _ s =>
  let s := s.emit (.digitalWrite s.clkselPin .HIGH)
  let s := s.emit (.delayMicroseconds 20)
  .returned () s

/-- Method `enableHardwarePowerDownMode()` -/
def enableHardwarePowerDownMode (cfg : Config) (s : ADS129xSensor) : Outcome Unit :=
  (if s.pwdnPin = ADS_PIN_NOT_USED then
      _ADS_ERROR cfg "PWDN pin is not specified!!!" s
    else .returned () s).bind fun _ s =>
  let s := s.emit (.digitalWrite s.pwdnPin .LOW)
  .returned () s

/-- Method `disableHardwarePowerDownMode()` -/
def disableHardwarePowerDownMode (cfg : Config) (s : ADS129xSensor) : Outcome Unit :=
  (if s.pwdnPin = ADS_PIN_NOT_USED then
      _ADS_ERROR cfg "PWDN pin is not specified!!!" s
    else .returned () s).bind fun _ s =>
  let s := s.emit (.digitalWrite s.pwdnPin .HIGH)
  let s := s.emit (.delayMicroseconds 150)
  .returned () s

/-- Method `resetADS()`: software reset (SDATAC, then RESET) when no reset pin is given,
hardware reset otherwise; then the mode is set to RDATAC. -/
def resetADS (cfg : Config) (s : ADS129xSensor) : Outcome Unit :=
  (if s.resetPin = ADS_PIN_NOT_USED then
      (s.sendSPICommandSDATAC cfg true).bind fun _ s => s.sendSPICommandRESET cfg true
    else
      s.doHardwareReset cfg).bind fun _ s =>
  .returned () { s with readingStatus := _ADS_READING_DATA_IN_RDATAC_MODE }

/-- The loop `for (uint8_t i = 0; i < n; i++) body(i);` with a body that may not return. -/
def forLoop (n : Nat) (body : Nat → ADS129xSensor → Outcome Unit) (s : ADS129xSensor) :
    Outcome Unit :=
  (List.range n).foldl (fun o i => o.bind fun _ s1 => body i s1) (.returned () s)

/-- Method `setAllRegisterToResetValuesWithoutResetCommand(keepSpiOpen)` -/
def setAllRegisterToResetValuesWithoutResetCommand (cfg : Config) (s : ADS129xSensor)
    (keepSpiOpen : Bool) : Outcome Unit :=
  (s.writeRegister cfg ads.registers.config1.REG_ADDR
    (ads.registers.config1.RESET_VALUE ||| ads.registers.config1.RESERVED_BITS) true).bind
  fun _ s =>
  (s.writeRegister cfg ads.registers.config2.REG_ADDR
    (ads.registers.config2.RESET_VALUE ||| ads.registers.config2.RESERVED_BITS) true).bind
  fun _ s =>
  (s.writeRegister cfg ads.registers.config3.REG_ADDR
    (ads.registers.config3.RESET_VALUE ||| ads.registers.config3.RESERVED_BITS) true).bind
  fun _ s =>
  (s.writeRegister cfg ads.registers.loff.REG_ADDR
    (ads.registers.loff.RESET_VALUE ||| ads.registers.loff.RESERVED_BITS) true).bind
  fun _ s =>
  (forLoop (ADS_N_CHANNELS cfg)
    (fun i s => s.writeRegister cfg (ads.registers.chnSet._BASE_REG_ADDR + i)
      (ads.registers.chnSet.RESET_VALUE ||| ads.registers.chnSet.RESERVED_BITS) true) s).bind
  fun _ s =>
  (s.writeRegister cfg ads.registers.rldSensp.REG_ADDR
    (ads.registers.rldSensp.RESET_VALUE ||| ads.registers.rldSensp.RESERVED_BITS) true).bind
  fun _ s =>
  (s.writeRegister cfg ads.registers.rldSensn.REG_ADDR
    (ads.registers.rldSensn.RESET_VALUE ||| ads.registers.rldSensn.RESERVED_BITS) true).bind
  fun _ s =>
  (s.writeRegister cfg ads.registers.loffSensp.REG_ADDR
    (ads.registers.loffSensp.RESET_VALUE ||| ads.registers.loffSensp.RESERVED_BITS) true).bind
  fun _ s =>
  (s.writeRegister cfg ads.registers.loffSensn.REG_ADDR
    (ads.registers.loffSensn.RESET_VALUE ||| ads.registers.loffSensn.RESERVED_BITS) true).bind
  fun _ s =>
  (s.writeRegister cfg ads.registers.loffFlip.REG_ADDR
    (ads.registers.loffFlip.RESET_VALUE ||| ads.registers.loffFlip.RESERVED_BITS) true).bind
  fun _ s =>
  (s.writeRegister cfg ads.registers.gpio.REG_ADDR
    (ads.registers.gpio.RESET_VALUE ||| ads.registers.gpio.RESERVED_BITS) true).bind
  fun _ s =>
  (s.writeRegister cfg ads.registers.pace.REG_ADDR
    (ads.registers.pace.RESET_VALUE ||| ads.registers.pace.RESERVED_BITS) true).bind
  fun _ s =>
  (s.writeRegister cfg ads.registers.resp.REG_ADDR
    (ads.registers.resp.RESET_VALUE ||| ads.registers.resp.RESERVED_BITS) true).bind
  fun _ s =>
  (s.writeRegister cfg ads.registers.config4.REG_ADDR
    (ads.registers.config4.RESET_VALUE ||| ads.registers.config4.RESERVED_BITS) true).bind
  fun _ s =>
  (s.writeRegister cfg ads.registers.wct1.REG_ADDR
    (ads.registers.wct1.RESET_VALUE ||| ads.registers.wct1.RESERVED_BITS) true).bind
  fun _ s =>
  s.writeRegister cfg ads.registers.wct2.REG_ADDR
    (ads.registers.wct2.RESET_VALUE ||| ads.registers.wct2.RESERVED_BITS) keepSpiOpen

/-- Identity byte expected by `begin()`: the `switch (ADS_CHIP_USED)` that sets
`correctIdChip`. -/
def correctIdChip (cfg : Config) : Nat :=
  match cfg.ADS_CHIP_USED with
  | .ADS_1294 => ads.registers.id.ID_ADS1294
  | .ADS_1294R => ads.registers.id.ID_ADS1294R
  | .ADS_1296 => ads.registers.id.ID_ADS1296
  | .ADS_1296R => ads.registers.id.ID_ADS1296R
  | .ADS_1298 => ads.registers.id.ID_ADS1298
  | .ADS_1298R => ads.registers.id.ID_ADS1298R

/-- Error text of `begin()` when an instance is already registered. -/
def msgDuplicate : String :=
  "The library allows only one ADS129xSensor object to be inicialized. You must call end() method in the other ADS129xSensor"

/-- Error text of `begin()` when the identity byte is not the expected one. -/
def msgIdentity : String :=
  "ID reported from ADS chip and the chip model configurated by user are not the same => Theorical y real ADS models are not the same !!!!!"

/-- Method `begin()`. The data-ready interrupt armed by `attachInterrupt` is not taken
during the call: the method is run as straight-line code. -/
def begin (cfg : Config) (s : ADS129xSensor) : Outcome Unit :=
  (if s._ADS129xSensorPrivateInstance_ = 0 then
      .returned () { s with _ADS129xSensorPrivateInstance_ := s.this }
    else
      _ADS_ERROR cfg msgDuplicate s).bind fun _ s =>
  let s := s.emit .spiBegin
  let s := s.emit (.pinMode s.chipSelectPin .OUTPUT)
  let s := s.emit (.digitalWrite s.chipSelectPin .HIGH)
  let s := s.emit (.pinMode s.drdyPin .INPUT)
  let s := s.emit (.attachInterrupt s.drdyPin)
  let s := s.emit (.usingInterrupt s.drdyPin)
  let s :=
    if cfg.ADS_LIBRARY_VERBOSE_LEVEL > 0 then
      s.emit (.serialPrintln "Starting power-up sequency")
    else s
  let s := s.emit (.delay _ADS_POWER_UP_DELAY_MS)
  (if s.clkselPin ≠ ADS_PIN_NOT_USED then
      (s.emit (.pinMode s.clkselPin .OUTPUT)).enableExternalClockSource cfg
    else .returned () s).bind fun _ s =>
  (if s.startPin ≠ ADS_PIN_NOT_USED then
      (s.emit (.pinMode s.startPin .OUTPUT)).disableHardwareStartMode cfg
    else .returned () s).bind fun _ s =>
  (if s.pwdnPin ≠ ADS_PIN_NOT_USED then
      (s.emit (.pinMode s.pwdnPin .OUTPUT)).disableHardwarePowerDownMode cfg
    else .returned () s).bind fun _ s =>
  let s :=
    if s.resetPin ≠ ADS_PIN_NOT_USED then
      (s.emit (.pinMode s.resetPin .OUTPUT)).emit (.digitalWrite s.resetPin .HIGH)
    else s
  (s.resetADS cfg).bind fun _ s =>
  (s.sendSPICommandSDATAC cfg false).bind fun _ s =>
  (s.readRegister cfg ads.registers.id.REG_ADDR false).bind fun idRegister s =>
  (if idRegister ≠ correctIdChip cfg then
      _ADS_ERROR cfg msgIdentity s
    else .returned () s).bind fun _ s =>
  let s :=
    if cfg.ADS_LIBRARY_VERBOSE_LEVEL > 0 then
      s.emit (.serialPrintln "Power-up sequency completed")
    else s
  .returned () s

/-- Method `end()`: `sendSPICommandSDATAC(true)`, `sendSPICommandSTOP(true)`, then the
global instance pointer is set to null. -/
def «end» (cfg : Config) (s : ADS129xSensor) : Outcome Unit :=
  (s.sendSPICommandSDATAC cfg true).bind fun _ s =>
  (s.sendSPICommandSTOP cfg true).bind fun _ s =>
  .returned () { s with _ADS129xSensorPrivateInstance_ := 0 }

/-- Method `disableChannel(nChannel, setInputAsShorted, keepSpiOpen)`: the body does not use
`setInputAsShorted`. -/
def disableChannel (cfg : Config) (s : ADS129xSensor) (nChannel : Nat)
    (_setInputAsShorted : Bool) (keepSpiOpen : Bool) : Outcome Unit :=
  let registerAddress := (ads.registers.chnSet._BASE_REG_ADDR + nChannel) % 256
  (s.readRegister cfg registerAddress true).bind fun registerValue s =>
  s.writeRegister cfg registerAddress (registerValue ||| ads.registers.chnSet.B_PDn)
    keepSpiOpen

/-- Method `enableChannel(nChannel, channelInput, keepSpiOpen)`; `channelInput` is an
`int8_t`, of which `channelInput & mask` keeps bits of the low byte. -/
def enableChannel (cfg : Config) (s : ADS129xSensor) (nChannel : Nat) (channelInput : Int)
    (keepSpiOpen : Bool) : Outcome Unit :=
  (if nChannel = 0 then _ADS_ERROR cfg "nChannel is zero" s
    else .returned () s).bind fun _ s =>
  (if nChannel > ADS_N_CHANNELS cfg then
      _ADS_ERROR cfg "nChannel is bigger than the number of channels that has the chip ADS" s
    else .returned () s).bind fun _ s =>
  let registerAddress := (ads.registers.chnSet._BASE_REG_ADDR + nChannel) % 256
  (s.readRegister cfg registerAddress true).bind fun registerValue s =>
  let registerValue :=
    if channelInput ≠ -1 then
      let mask := ads.registers.chnSet.B_MUXn2 ||| ads.registers.chnSet.B_MUXn1 |||
        ads.registers.chnSet.B_MUXn0
      let registerValue := registerValue &&& complementByte mask
      registerValue ||| (lowByte channelInput &&& mask)
    else registerValue
  s.writeRegister cfg registerAddress
    (registerValue &&& complementByte ads.registers.chnSet.B_PDn) keepSpiOpen

/-- Method `enableChannelAndSetGain(nChannel, channelGainConstant, channelInput,
keepSpiOpen)` -/
def enableChannelAndSetGain (cfg : Config) (s : ADS129xSensor) (nChannel : Nat)
    (channelGainConstant : Nat) (channelInput : Int) (keepSpiOpen : Bool) : Outcome Unit :=
  let registerAddress := (ads.registers.chnSet._BASE_REG_ADDR + nChannel) % 256
  (s.readRegister cfg registerAddress true).bind fun registerValue s =>
  let registerValue := registerValue &&&
    complementByte (ads.registers.chnSet.B_GAINn0 ||| ads.registers.chnSet.B_GAINn1 |||
      ads.registers.chnSet.B_GAINn2)
  let registerValue := registerValue ||| channelGainConstant
  (s.writeRegister cfg registerAddress registerValue true).bind fun _ s =>
  s.enableChannel cfg nChannel channelInput keepSpiOpen

/-- The part of `begin()` from `SPI.begin()` to `delay(_ADS_POWER_UP_DELAY_MS)`: the
mandatory pins, the data-ready interrupt and the power-up wait. -/
def beginPrologue (cfg : Config) (s : ADS129xSensor) : ADS129xSensor :=
  let s := s.emit .spiBegin
  let s := s.emit (.pinMode s.chipSelectPin .OUTPUT)
  let s := s.emit (.digitalWrite s.chipSelectPin .HIGH)
  let s := s.emit (.pinMode s.drdyPin .INPUT)
  let s := s.emit (.attachInterrupt s.drdyPin)
  let s := s.emit (.usingInterrupt s.drdyPin)
  let s :=
    if cfg.ADS_LIBRARY_VERBOSE_LEVEL > 0 then
      s.emit (.serialPrintln "Starting power-up sequency")
    else s
  s.emit (.delay _ADS_POWER_UP_DELAY_MS)

/-- The part of `begin()` that configures the optional pins CLKSEL, START, PWDN and
RESET. -/
def beginOptionalPins (cfg : Config) (s : ADS129xSensor) : Outcome Unit :=
  (if s.clkselPin ≠ ADS_PIN_NOT_USED then
      (s.emit (.pinMode s.clkselPin .OUTPUT)).enableExternalClockSource cfg
    else .returned () s).bind fun _ s =>
  (if s.startPin ≠ ADS_PIN_NOT_USED then
      (s.emit (.pinMode s.startPin .OUTPUT)).disableHardwareStartMode cfg
    else .returned () s).bind fun _ s =>
  (if s.pwdnPin ≠ ADS_PIN_NOT_USED then
      (s.emit (.pinMode s.pwdnPin .OUTPUT)).disableHardwarePowerDownMode cfg
    else .returned () s).bind fun _ s =>
  .returned ()
    (if s.resetPin ≠ ADS_PIN_NOT_USED then
      (s.emit (.pinMode s.resetPin .OUTPUT)).emit (.digitalWrite s.resetPin .HIGH)
    else s)

end ADS129xSensor

/-! ## Sequences of mode-changing calls and data-ready events -/

/-- One step of a session history: a mode command (with its `keepSpiOpen` argument) or a
data-ready event, which runs `_privateReadDataFromChip_`. -/
inductive ModeOp where
  | RDATAC (keepSpiOpen : Bool)
  | SDATAC (keepSpiOpen : Bool)
  | RDATA (keepSpiOpen : Bool)
  | dataReady
  deriving DecidableEq, Repr

/-- Run one step on the session. -/
def ModeOp.apply (cfg : Config) (s : ADS129xSensor) : ModeOp → Outcome Unit
  | .RDATAC k => s.sendSPICommandRDATAC cfg k
  | .SDATAC k => s.sendSPICommandSDATAC cfg k
  | .RDATA k => s.sendSPICommandRDATA cfg k
  | .dataReady => .returned () (s._privateReadDataFromChip_ cfg)

/-- Run a history from left to right; a step that never returns ends the run. -/
def runOps (cfg : Config) (s : ADS129xSensor) : List ModeOp → Outcome Unit
  | [] => .returned () s
  | op :: ops => (op.apply cfg s).bind fun _ s1 => runOps cfg s1 ops

/-- Value of `readingStatus` after one step that returned, as read off the four bodies. -/
def modeStep (mode : Nat) : ModeOp → Nat
  | .RDATAC _ => _ADS_READING_DATA_IN_RDATAC_MODE
  | .SDATAC _ => _ADS_NO_READING_NEW_DATA
  | .RDATA _ =>
    if mode = _ADS_READING_DATA_IN_RDATAC_MODE then mode else _ADS_READING_DATA_IN_RDATA_MODE
  | .dataReady =>
    if mode = _ADS_NO_READING_NEW_DATA then mode
    else if mode = _ADS_READING_DATA_IN_RDATAC_MODE then mode
    else _ADS_NO_READING_NEW_DATA

/-- The history contains a `sendSPICommandRDATAC` with no later `sendSPICommandSDATAC`. -/
def RdatacNotStopped (ops : List ModeOp) : Prop :=
  ∃ pre k post, ops = pre ++ ModeOp.RDATAC k :: post ∧ ∀ k1, ModeOp.SDATAC k1 ∉ post

/-- The history contains a `sendSPICommandRDATA` issued after the last `sendSPICommandSDATAC`
(or after construction, when there is none) with no data-ready event after it. -/
def RdataPending (ops : List ModeOp) : Prop :=
  ∃ pre k post, ops = pre ++ ModeOp.RDATA k :: post ∧
    (∀ k1, ModeOp.SDATAC k1 ∉ post) ∧ ModeOp.dataReady ∉ post

/-- The call returned to its caller with the bus-open flag equal to `busOpen`. -/
def ReturnsWithBus {α : Type} (o : Outcome α) (busOpen : Bool) : Prop :=
  ∃ v s1, o = .returned v s1 ∧ s1.isSpiOpen = busOpen

/-- The call never returned: the program stopped in the state `s` it was called in, the
log having gained diagnostic (Serial) entries only. -/
def FailsFatally {α : Type} (o : Outcome α) (s : ADS129xSensor) : Prop :=
  ∃ log, (∀ e ∈ log, Event.isSerial e = true) ∧ o = .halted { s with trace := s.trace ++ log }

/-- Busy waits: `delay` and `delayMicroseconds`. -/
def Event.isDelay : Event → Bool
  | .delay _ => true
  | .delayMicroseconds _ => true
  | _ => false

/-! ## Reading the log of a batch of register writes -/

/-- Opening or closing of a bus transaction: `SPI.beginTransaction`, `SPI.endTransaction`
and any `digitalWrite` (the chip-select changes). -/
def Event.isFraming : Event → Bool
  | .beginTransaction _ _ _ => true
  | .endTransaction => true
  | .digitalWrite _ _ => true
  | _ => false

/-- Log of one accepted `writeRegister(a, d, true)` on an open bus whose first exchange is
exchange number `rx`: the three exchanges and the settle delay of CONFIG1 and RESP. -/
def writeFrame (miso : Nat → Nat) (rx a d : Nat) : List Event :=
  [.transfer ((ads.commands.WREG ||| a) % 256) (miso rx % 256),
   .transfer 0x00 (miso (rx + 1) % 256),
   .transfer (d % 256) (miso (rx + 2) % 256)] ++
  (if a = ads.registers.config1.REG_ADDR ∨ a = ads.registers.resp.REG_ADDR
   then [.delay _ADS_T_CLK_18] else [])

/-- Log of consecutive accepted register writes `(address, value)` on an open bus. -/
def writeFrames (miso : Nat → Nat) : Nat → List (Nat × Nat) → List Event
  | _, [] => []
  | rx, (a, d) :: rest => writeFrame miso rx a d ++ writeFrames miso (rx + 3) rest

/-- Consecutive calls `writeRegister(a, d, true)` for the pairs `(a, d)` of a list. -/
def writeAll (cfg : Config) (s : ADS129xSensor) : List (Nat × Nat) → Outcome Unit
  | [] => .returned () s
  | (a, d) :: rest => (s.writeRegister cfg a d true).bind fun _ s1 => writeAll cfg s1 rest

/-- The calls of `setAllRegisterToResetValuesWithoutResetCommand` that pass
`keepSpiOpen = true`, in program order, as pairs `(address, value)`: all but the last. -/
def resetWritesKeptOpen (cfg : Config) : List (Nat × Nat) :=
  [(ads.registers.config1.REG_ADDR,
      ads.registers.config1.RESET_VALUE ||| ads.registers.config1.RESERVED_BITS),
   (ads.registers.config2.REG_ADDR,
      ads.registers.config2.RESET_VALUE ||| ads.registers.config2.RESERVED_BITS),
   (ads.registers.config3.REG_ADDR,
      ads.registers.config3.RESET_VALUE ||| ads.registers.config3.RESERVED_BITS),
   (ads.registers.loff.REG_ADDR,
      ads.registers.loff.RESET_VALUE ||| ads.registers.loff.RESERVED_BITS)] ++
  (List.range (ADS_N_CHANNELS cfg)).map (fun i =>
    (ads.registers.chnSet._BASE_REG_ADDR + i,
      ads.registers.chnSet.RESET_VALUE ||| ads.registers.chnSet.RESERVED_BITS)) ++
  [(ads.registers.rldSensp.REG_ADDR,
      ads.registers.rldSensp.RESET_VALUE ||| ads.registers.rldSensp.RESERVED_BITS),
   (ads.registers.rldSensn.REG_ADDR,
      ads.registers.rldSensn.RESET_VALUE ||| ads.registers.rldSensn.RESERVED_BITS),
   (ads.registers.loffSensp.REG_ADDR,
      ads.registers.loffSensp.RESET_VALUE ||| ads.registers.loffSensp.RESERVED_BITS),
   (ads.registers.loffSensn.REG_ADDR,
      ads.registers.loffSensn.RESET_VALUE ||| ads.registers.loffSensn.RESERVED_BITS),
   (ads.registers.loffFlip.REG_ADDR,
      ads.registers.loffFlip.RESET_VALUE ||| ads.registers.loffFlip.RESERVED_BITS),
   (ads.registers.gpio.REG_ADDR,
      ads.registers.gpio.RESET_VALUE ||| ads.registers.gpio.RESERVED_BITS),
   (ads.registers.pace.REG_ADDR,
      ads.registers.pace.RESET_VALUE ||| ads.registers.pace.RESERVED_BITS),
   (ads.registers.resp.REG_ADDR,
      ads.registers.resp.RESET_VALUE ||| ads.registers.resp.RESERVED_BITS),
   (ads.registers.config4.REG_ADDR,
      ads.registers.config4.RESET_VALUE ||| ads.registers.config4.RESERVED_BITS),
   (ads.registers.wct1.REG_ADDR,
      ads.registers.wct1.RESET_VALUE ||| ads.registers.wct1.RESERVED_BITS)]

/-- The register writes found in a stream of bus bytes made of write frames: the frame
`WREG | a, 0x00, d` is the write of `d` to the address `a` held in the five low bits. -/
def writesOf : List Nat → List (Nat × Nat)
  | op :: _ :: d :: rest => (op &&& 0x1F, d) :: writesOf rest
  | _ => []

/-! ## Reading the log of `begin()` -/

/-- Diagnostic echo of `sendCommand` at verbosity above 1. -/
def commandEcho (cfg : Config) (command : Nat) : List Event :=
  if cfg.ADS_LIBRARY_VERBOSE_LEVEL > 1 then
    [.serialPrint "Command sent: ", .serialPrintlnNum command 2]
  else []

/-- Opening of a bus transaction by `beginSpiTransaction` when the bus was closed. -/
def openingLog (s : ADS129xSensor) : List Event :=
  if s.isSpiOpen then []
  else [.beginTransaction _ADS_SPI_MAX_SPEED _ADS_SPI_BIT_ORDER _ADS_SPI_MODE,
        .digitalWrite s.chipSelectPin .LOW]

/-- Release of the bus transaction by `endSpiTransaction` unless `keepSpiOpen`. -/
def closingLog (s : ADS129xSensor) (keepSpiOpen : Bool) : List Event :=
  if keepSpiOpen then []
  else [.digitalWrite s.chipSelectPin .HIGH, .endTransaction]

/-- Log of `sendCommand(command, keepSpiOpen)` on a session `s`. -/
def commandLog (cfg : Config) (s : ADS129xSensor) (command : Nat) (keepSpiOpen : Bool) :
    List Event :=
  openingLog s ++ [.transfer (command % 256) (s.miso s.rxCount % 256)] ++
    commandEcho cfg command ++ closingLog s keepSpiOpen

/-- The call returned, and what it added to the log of `s` is the log of
`sendCommand(command, keepSpiOpen)` followed by the events `wait`. -/
def SendsThenWaits (o : Outcome Unit) (cfg : Config) (s : ADS129xSensor) (command : Nat)
    (keepSpiOpen : Bool) (wait : List Event) : Prop :=
  ∃ s1, o = .returned () s1 ∧ s1.trace = s.trace ++ commandLog cfg s command keepSpiOpen ++ wait

/-- Log of an accepted `readRegister(a, true)` followed by an accepted
`writeRegister(a, d, keepSpiOpen)` on a session `s`: one bus transaction. -/
def readModifyWriteLog (s : ADS129xSensor) (a d : Nat) (keepSpiOpen : Bool) : List Event :=
  openingLog s ++
    [.transfer ((ads.commands.RREG ||| a) % 256) (s.miso s.rxCount % 256),
     .transfer 0x00 (s.miso (s.rxCount + 1) % 256),
     .transfer 0x00 (s.miso (s.rxCount + 2) % 256)] ++
    writeFrame s.miso (s.rxCount + 3) a d ++ closingLog s keepSpiOpen

/-- Platform calls of `begin()` from `SPI.begin()` to the configuration of the optional
pins, on a session `s`. -/
def beginSetupLog (cfg : Config) (s : ADS129xSensor) : List Event :=
  [.spiBegin, .pinMode s.chipSelectPin .OUTPUT, .digitalWrite s.chipSelectPin .HIGH,
   .pinMode s.drdyPin .INPUT, .attachInterrupt s.drdyPin, .usingInterrupt s.drdyPin] ++
  (if cfg.ADS_LIBRARY_VERBOSE_LEVEL > 0 then [.serialPrintln "Starting power-up sequency"]
   else []) ++
  [.delay _ADS_POWER_UP_DELAY_MS] ++
  (if s.clkselPin ≠ ADS_PIN_NOT_USED then
     [.pinMode s.clkselPin .OUTPUT, .digitalWrite s.clkselPin .LOW] else []) ++
  (if s.startPin ≠ ADS_PIN_NOT_USED then
     [.pinMode s.startPin .OUTPUT, .digitalWrite s.startPin .LOW, .delay _ADS_T_CLK_2]
   else []) ++
  (if s.pwdnPin ≠ ADS_PIN_NOT_USED then
     [.pinMode s.pwdnPin .OUTPUT, .digitalWrite s.pwdnPin .HIGH, .delayMicroseconds 150]
   else []) ++
  (if s.resetPin ≠ ADS_PIN_NOT_USED then
     [.pinMode s.resetPin .OUTPUT, .digitalWrite s.resetPin .HIGH] else [])

/-- Platform calls of `resetADS()` followed by `sendSPICommandSDATAC(false)` in `begin()`:
the software path (SDATAC, RESET, then SDATAC) when no reset pin is given, the hardware
path (pin pulse, then SDATAC) otherwise. -/
def beginResetLog (cfg : Config) (s : ADS129xSensor) : List Event :=
  if s.resetPin = ADS_PIN_NOT_USED then
    openingLog s ++
    [.transfer 0x11 (s.miso s.rxCount % 256)] ++ commandEcho cfg 0x11 ++
    [.delayMicroseconds _ADS_T_CLK_4] ++
    [.transfer 0x06 (s.miso (s.rxCount + 1) % 256)] ++ commandEcho cfg 0x06 ++
    [.delayMicroseconds _ADS_T_CLK_18] ++
    [.transfer 0x11 (s.miso (s.rxCount + 2) % 256)] ++ commandEcho cfg 0x11 ++
    [.digitalWrite s.chipSelectPin .HIGH, .endTransaction,
     .delayMicroseconds _ADS_T_CLK_4]
  else
    [.digitalWrite s.resetPin .LOW, .delay _ADS_T_CLK_2, .digitalWrite s.resetPin .HIGH] ++
    openingLog s ++
    [.transfer 0x11 (s.miso s.rxCount % 256)] ++ commandEcho cfg 0x11 ++
    [.digitalWrite s.chipSelectPin .HIGH, .endTransaction,
     .delayMicroseconds _ADS_T_CLK_4]

/-- Number of byte exchanges of `begin()` before the identity read: three on the software
reset path, one on the hardware reset path. -/
def exchangesBeforeIdentity (s : ADS129xSensor) : Nat :=
  if s.resetPin = ADS_PIN_NOT_USED then 3 else 1

/-- The byte received in the third exchange of the identity read of `begin()`: the value
`readRegister(id::REG_ADDR)` returns there. -/
def identityByte (s : ADS129xSensor) : Nat :=
  s.miso (s.rxCount + exchangesBeforeIdentity s + 2) % 256

/-- The frame of the identity read of `begin()`, in a bus transaction of its own. -/
def identityReadLog (s : ADS129xSensor) : List Event :=
  [.beginTransaction _ADS_SPI_MAX_SPEED _ADS_SPI_BIT_ORDER _ADS_SPI_MODE,
   .digitalWrite s.chipSelectPin .LOW,
   .transfer 0x20 (s.miso (s.rxCount + exchangesBeforeIdentity s) % 256),
   .transfer 0x00 (s.miso (s.rxCount + exchangesBeforeIdentity s + 1) % 256),
   .transfer 0x00 (identityByte s),
   .digitalWrite s.chipSelectPin .HIGH, .endTransaction]

/-- The session when `begin()` reaches its identity check, having started from `s` with no
instance registered. -/
def afterIdentityRead (cfg : Config) (s : ADS129xSensor) : ADS129xSensor :=
  { s with
    isSpiOpen := false
    readingStatus := _ADS_NO_READING_NEW_DATA
    _ADS129xSensorPrivateInstance_ := s.this
    rxCount := s.rxCount + exchangesBeforeIdentity s + 3
    trace := s.trace ++ beginSetupLog cfg s ++ beginResetLog cfg s ++ identityReadLog s }

/-! ## The first byte of a bus frame -/

/-- The opcodes of the system and read commands of `ads::commands`. -/
def ads.commands.systemAndReadCommands : List Nat :=
  [ads.commands.WAKEUP, ads.commands.STANDBY, ads.commands.RESET, ads.commands.START,
   ads.commands.STOP, ads.commands.RDATAC, ads.commands.SDATAC, ads.commands.RDATA]

/-- The register addresses declared in `ads::registers`: ID, CONFIG1..CONFIG3, LOFF,
CH1SET..CH8SET, RLD_SENSP .. LOFF_FLIP, LOFF_STATP, LOFF_STATN, GPIO, PACE, RESP, CONFIG4,
WCT1, WCT2. -/
def ads.registers.addresses : List Nat :=
  [ads.registers.id.REG_ADDR, ads.registers.config1.REG_ADDR, ads.registers.config2.REG_ADDR,
   ads.registers.config3.REG_ADDR, ads.registers.loff.REG_ADDR] ++
  (List.range 8).map (fun i => ads.registers.chnSet._BASE_REG_ADDR + (i + 1)) ++
  [ads.registers.rldSensp.REG_ADDR, ads.registers.rldSensn.REG_ADDR,
   ads.registers.loffSensp.REG_ADDR, ads.registers.loffSensn.REG_ADDR,
   ads.registers.loffFlip.REG_ADDR, ads.registers.loffStatp.REG_ADDR,
   ads.registers.loffStatn.REG_ADDR, ads.registers.gpio.REG_ADDR,
   ads.registers.pace.REG_ADDR, ads.registers.resp.REG_ADDR, ads.registers.config4.REG_ADDR,
   ads.registers.wct1.REG_ADDR, ads.registers.wct2.REG_ADDR]

/-! ## The public operations and the steps they are built from -/

/-- The public methods of `class ADS129xSensor` with their arguments, and the data-ready
event that runs `_privateReadDataFromChip_()`. -/
inductive PublicOp where
  | begin
  | «end»
  | getData
  | hasNewDataAvailable
  | doHardwareReset
  | enableHardwareStartMode
  | disableHardwareStartMode
  | enableExternalClockSource
  | disableExternalClockSource
  | enableHardwarePowerDownMode
  | disableHardwarePowerDownMode
  | readRegister (registAddr : Nat) (keepSpiOpen : Bool)
  | writeRegister (registAddr value : Nat) (keepSpiOpen : Bool)
  | setAllRegisterToResetValuesWithoutResetCommand (keepSpiOpen : Bool)
  | sendSPICommandWAKEUP (keepSpiOpen : Bool)
  | sendSPICommandSTANDBY (keepSpiOpen : Bool)
  | sendSPICommandRESET (keepSpiOpen : Bool)
  | sendSPICommandSTART (keepSpiOpen : Bool)
  | sendSPICommandSTOP (keepSpiOpen : Bool)
  | sendSPICommandRDATAC (keepSpiOpen : Bool)
  | sendSPICommandSDATAC (keepSpiOpen : Bool)
  | sendSPICommandRDATA (keepSpiOpen : Bool)
  | disableChannel (nChannel : Nat) (setInputAsShorted keepSpiOpen : Bool)
  | enableChannel (nChannel : Nat) (channelInput : Int) (keepSpiOpen : Bool)
  | enableChannelAndSetGain (nChannel channelGainConstant : Nat) (channelInput : Int)
      (keepSpiOpen : Bool)
  | dataReady

/-- Run one public operation on the session; the value a method returns is dropped. -/
def PublicOp.apply (cfg : Config) (s : ADS129xSensor) : PublicOp → Outcome Unit
  | .begin => s.begin cfg
  | .«end» => s.«end» cfg
  | .getData => .returned () s.getData.2
  | .hasNewDataAvailable => .returned () s
  | .doHardwareReset => s.doHardwareReset cfg
  | .enableHardwareStartMode => s.enableHardwareStartMode cfg
  | .disableHardwareStartMode => s.disableHardwareStartMode cfg
  | .enableExternalClockSource => s.enableExternalClockSource cfg
  | .disableExternalClockSource => s.disableExternalClockSource cfg
  | .enableHardwarePowerDownMode => s.enableHardwarePowerDownMode cfg
  | .disableHardwarePowerDownMode => s.disableHardwarePowerDownMode cfg
  | .readRegister a k => (s.readRegister cfg a k).bind fun _ s1 => .returned () s1
  | .writeRegister a d k => s.writeRegister cfg a d k
  | .setAllRegisterToResetValuesWithoutResetCommand k =>
    s.setAllRegisterToResetValuesWithoutResetCommand cfg k
  | .sendSPICommandWAKEUP k => s.sendSPICommandWAKEUP cfg k
  | .sendSPICommandSTANDBY k => s.sendSPICommandSTANDBY cfg k
  | .sendSPICommandRESET k => s.sendSPICommandRESET cfg k
  | .sendSPICommandSTART k => s.sendSPICommandSTART cfg k
  | .sendSPICommandSTOP k => s.sendSPICommandSTOP cfg k
  | .sendSPICommandRDATAC k => s.sendSPICommandRDATAC cfg k
  | .sendSPICommandSDATAC k => s.sendSPICommandSDATAC cfg k
  | .sendSPICommandRDATA k => s.sendSPICommandRDATA cfg k
  | .disableChannel n sh k => s.disableChannel cfg n sh k
  | .enableChannel n c k => s.enableChannel cfg n c k
  | .enableChannelAndSetGain n g c k => s.enableChannelAndSetGain cfg n g c k
  | .dataReady => .returned () (s._privateReadDataFromChip_ cfg)

/-- Run a sequence of public operations from left to right; an operation that never
returns ends the run. -/
def runPublic (cfg : Config) (s : ADS129xSensor) : List PublicOp → Outcome Unit
  | [] => .returned () s
  | op :: ops => (op.apply cfg s).bind fun _ s1 => runPublic cfg s1 ops

/-- Platform calls that touch neither a pin level nor the bus: `SPI.begin`, `pinMode`,
the interrupt set-up, the delays and the Serial output. -/
def Event.isPlain : Event → Bool
  | .spiBegin => true
  | .pinMode _ _ => true
  | .attachInterrupt _ => true
  | .usingInterrupt _ => true
  | .delay _ => true
  | .delayMicroseconds _ => true
  | .serialPrint _ => true
  | .serialPrintln _ => true
  | .serialPrintlnNum _ _ => true
  | _ => false

/-- A property of sessions kept by each step the foreground methods are built from: a
plain platform call, a write to one of the optional pins that are given, the opening and
the release of the bus transaction, a byte exchange, an assignment to `readingStatus` and an
assignment to the global instance pointer. -/
structure KeptBySteps (I : ADS129xSensor → Prop) : Prop where
  plain : ∀ s e, I s → Event.isPlain e = true → I (s.emit e)
  resetPin : ∀ s l, I s → s.resetPin ≠ ADS_PIN_NOT_USED → I (s.emit (.digitalWrite s.resetPin l))
  startPin : ∀ s l, I s → s.startPin ≠ ADS_PIN_NOT_USED → I (s.emit (.digitalWrite s.startPin l))
  pwdnPin : ∀ s l, I s → s.pwdnPin ≠ ADS_PIN_NOT_USED → I (s.emit (.digitalWrite s.pwdnPin l))
  clkselPin : ∀ s l, I s → s.clkselPin ≠ ADS_PIN_NOT_USED →
    I (s.emit (.digitalWrite s.clkselPin l))
  beginSpi : ∀ s, I s → I s.beginSpiTransaction
  endSpi : ∀ s, I s → I s.endSpiTransaction
  transfer : ∀ s d, I s → I (SPI.transfer s d).2
  mode : ∀ s m, I s → I { s with readingStatus := m }
  registered : ∀ s p, I s → I { s with _ADS129xSensorPrivateInstance_ := p }

/-- The operation is a foreground method other than `begin()` and `getData()`. -/
def PublicOp.isForeground : PublicOp → Bool
  | .begin => false
  | .getData => false
  | .dataReady => false
  | _ => true

/-! ## Chip-select and the bus transactions, read off the log -/

/-- Level of `pin` after one more platform call: a `digitalWrite` to the pin sets it. -/
def pinStep (pin : Nat) (level : Option PinLevel) : Event → Option PinLevel
  | .digitalWrite p l => if p = pin then some l else level
  | _ => level

/-- Level last written to `pin` by `digitalWrite` in a log; `none` when the log holds no
write to the pin. -/
def pinLevel (pin : Nat) (log : List Event) : Option PinLevel :=
  log.foldl (pinStep pin) none

/-- Scan of the `SPI.beginTransaction` and `SPI.endTransaction` calls: `some true` while a
transaction is open, `some false` while none is, `none` once a begin came while one was
open or an end came while none was. -/
def transactionStep : Option Bool → Event → Option Bool
  | some false, .beginTransaction _ _ _ => some true
  | some true, .beginTransaction _ _ _ => none
  | some true, .endTransaction => some false
  | some false, .endTransaction => none
  | scan, _ => scan

/-- Result of the scan over a log that starts with no transaction open: `some b` when the
begin and end calls alternate strictly, starting with a begin, `b` telling whether a
transaction is open at the end of the log. -/
def transactionOpen (log : List Event) : Option Bool :=
  log.foldl transactionStep (some false)

/-- The optional control pins that are given are other pins than chip-select. -/
def ControlPinsApart (s : ADS129xSensor) : Prop :=
  (s.resetPin ≠ ADS_PIN_NOT_USED → s.resetPin ≠ s.chipSelectPin) ∧
  (s.startPin ≠ ADS_PIN_NOT_USED → s.startPin ≠ s.chipSelectPin) ∧
  (s.pwdnPin ≠ ADS_PIN_NOT_USED → s.pwdnPin ≠ s.chipSelectPin) ∧
  (s.clkselPin ≠ ADS_PIN_NOT_USED → s.clkselPin ≠ s.chipSelectPin)

/-- The invariant: the begin and end calls of the log alternate and a transaction is open
exactly when the bus-open flag is true, and the level last written to chip-select is LOW
exactly when the flag is true. -/
def ChipSelectTracksBus (s : ADS129xSensor) : Prop :=
  ControlPinsApart s ∧
  transactionOpen s.trace = some s.isSpiOpen ∧
  (pinLevel s.chipSelectPin s.trace = some .LOW ↔ s.isSpiOpen = true)

/-- The part of the invariant that holds at every step of `begin()`, also when it is called
with the bus open: the transaction scan agrees with the flag, and chip-select is not LOW
while the flag is false. -/
def ChipSelectHighWhenReleased (s : ADS129xSensor) : Prop :=
  ControlPinsApart s ∧
  transactionOpen s.trace = some s.isSpiOpen ∧
  (s.isSpiOpen = false → pinLevel s.chipSelectPin s.trace ≠ some .LOW)

/-! ## A simulated chip for the register round trip -/

/-- Modelled from the spec: the register map as external data ("address, reserved-bit mask,
reset value, read-only flag per register"), of which the simulated chip uses, per address,
the mask of the reserved bits, their documented values and the read-only flag. -/
structure RegisterMap where
  reservedMask : Nat → Nat
  reservedValue : Nat → Nat
  readOnly : Nat → Bool

/-- Modelled from the spec: the reserved-bit policy value of a byte `d` written to register
`a`: `d` with the reserved bits of the register replaced by their documented values. -/
def RegisterMap.policy (m : RegisterMap) (a d : Nat) : Nat :=
  (d &&& complementByte (m.reservedMask a)) ||| (m.reservedValue a &&& m.reservedMask a)

/-- Modelled from the spec: what the frame decoder of the simulated chip expects next: an
opcode, the register count of a read or write frame, or the `n + 1` data bytes of a frame
that started at register `a`. -/
inductive ChipPhase where
  | opcode
  | readCount (a : Nat)
  | readData (a n : Nat)
  | writeCount (a : Nat)
  | writeData (a n : Nat)

/-- Modelled from the spec: the simulated chip "that stores written register bytes and forces
reserved bits to their documented values": its register bytes and its frame decoder. -/
structure SimulatedChip where
  registers : Nat → Nat
  phase : ChipPhase

/-- Modelled from the spec: one byte exchange with the simulated chip; the result is the byte
the chip drives and the chip after the exchange. The frames are those the driver's comments
describe: the opcode `RREG | a` or `WREG | a` with the address in the five low bits, then
the number of registers minus one, then one data byte per register. A write stores the
policy value of the byte unless the register is read-only. -/
def SimulatedChip.exchange (m : RegisterMap) (chip : SimulatedChip) (mosi : Nat) :
    Nat × SimulatedChip :=
  match chip.phase with
  | .opcode =>
    if mosi &&& 0xE0 = ads.commands.RREG then
      (0x00, { chip with phase := .readCount (mosi &&& 0x1F) })
    else if mosi &&& 0xE0 = ads.commands.WREG then
      (0x00, { chip with phase := .writeCount (mosi &&& 0x1F) })
    else (0x00, chip)
  | .readCount a => (0x00, { chip with phase := .readData a (mosi &&& 0x1F) })
  | .readData a n =>
    (chip.registers a,
      { chip with phase := if n = 0 then .opcode else .readData (a + 1) (n - 1) })
  | .writeCount a => (0x00, { chip with phase := .writeData a (mosi &&& 0x1F) })
  | .writeData a n =>
    (0x00,
      { registers := fun x =>
          if x = a ∧ m.readOnly a = false then m.policy a mosi else chip.registers x
        phase := if n = 0 then .opcode else .writeData (a + 1) (n - 1) })

/-- Modelled from the spec: the bytes the simulated chip drives during the exchanges of the
bytes `mosi`, in order. -/
def SimulatedChip.answers (m : RegisterMap) : SimulatedChip → List Nat → List Nat
  | _, [] => []
  | chip, b :: rest => (chip.exchange m b).1 :: answers m (chip.exchange m b).2 rest

/-! ## Example configurations and sessions -/

/-- The configuration shipped in `ads129xDriverConfig.h`: ADS1294, 24 bits, verbosity 1. -/
def shippedConfig : Config :=
  { ADS_CHIP_USED := .ADS_1294, ADS_BITS_PER_CHANNEL := .bits24, ADS_LIBRARY_VERBOSE_LEVEL := 1 }

/-- The shipped configuration with the diagnostics switched off (verbosity 0). -/
def quietConfig : Config :=
  { shippedConfig with ADS_LIBRARY_VERBOSE_LEVEL := 0 }

/-- The shipped configuration with the diagnostics at their highest level (verbosity 2). -/
def verboseConfig : Config :=
  { shippedConfig with ADS_LIBRARY_VERBOSE_LEVEL := 2 }

/-- A chip that drives the bytes 0, 1, 2, ... on the bus. -/
def countingChip : Nat → Nat := fun k => k

/-- A freshly constructed session with chip-select on pin 10, data-ready on pin 2, no
optional pin, and a 15-byte buffer holding 0xAA in every byte. -/
def freshSession : ADS129xSensor :=
  ADS129xSensor.new 10 2 ADS_PIN_NOT_USED ADS_PIN_NOT_USED ADS_PIN_NOT_USED ADS_PIN_NOT_USED
    1 (List.replicate 15 0xAA) countingChip

/-- The session `freshSession` in mode `ContinuousStream`. -/
def streamingSession : ADS129xSensor :=
  { freshSession with readingStatus := _ADS_READING_DATA_IN_RDATAC_MODE }

/-- The session `freshSession` in mode `SinglePending`. -/
def pendingSession : ADS129xSensor :=
  { freshSession with readingStatus := _ADS_READING_DATA_IN_RDATA_MODE }

/-- A freshly constructed session (mode `Idle`) whose reset line is wired to pin 9. -/
def resetWiredSession : ADS129xSensor :=
  ADS129xSensor.new 10 2 9 ADS_PIN_NOT_USED ADS_PIN_NOT_USED ADS_PIN_NOT_USED
    1 (List.replicate 15 0xAA) countingChip

/-- The shipped configuration for the 6-channel chip ADS1296. -/
def config1296 : Config :=
  { shippedConfig with ADS_CHIP_USED := .ADS_1296 }

/-- The shipped configuration for the 8-channel chip ADS1298. -/
def config1298 : Config :=
  { shippedConfig with ADS_CHIP_USED := .ADS_1298 }

/-- A chip that answers 0x90, the identity of the ADS1294, to every byte exchange. -/
def chip1294 : Nat → Nat := fun _ => 0x90

/-- A freshly constructed session on `chip1294` with no optional pin. -/
def plainSession : ADS129xSensor :=
  ADS129xSensor.new 10 2 ADS_PIN_NOT_USED ADS_PIN_NOT_USED ADS_PIN_NOT_USED ADS_PIN_NOT_USED
    1 (List.replicate 15 0xAA) chip1294

/-- A freshly constructed session on `chip1294` whose start line is wired to pin 7. -/
def startWiredSession : ADS129xSensor :=
  ADS129xSensor.new 10 2 ADS_PIN_NOT_USED 7 ADS_PIN_NOT_USED ADS_PIN_NOT_USED
    1 (List.replicate 15 0xAA) chip1294

/-- A freshly constructed session at address 2, in a program where the session at address
1 is registered as the active instance. -/
def secondSession : ADS129xSensor :=
  { ADS129xSensor.new 11 3 ADS_PIN_NOT_USED ADS_PIN_NOT_USED ADS_PIN_NOT_USED ADS_PIN_NOT_USED
      2 (List.replicate 15 0xAA) chip1294 with _ADS129xSensorPrivateInstance_ := 1 }

/-- A chip whose register CH1SET holds 0x81 (powered down, input shorted) and takes the
value 0xE1 written to it: it answers 0x81 to the third byte exchange (a first register read)
and 0xE1 to the ninth (the register read that follows the write). -/
def storedChip : Nat → Nat := fun k => if k = 2 then 0x81 else if k = 8 then 0xE1 else 0x00

/-- A freshly constructed session on `storedChip` with no optional pin. -/
def storedSession : ADS129xSensor :=
  ADS129xSensor.new 10 2 ADS_PIN_NOT_USED ADS_PIN_NOT_USED ADS_PIN_NOT_USED ADS_PIN_NOT_USED
    1 (List.replicate 15 0xAA) storedChip

/-- A history: start streaming, one data-ready event, stop streaming, request one sample. -/
def sampleHistory : List ModeOp :=
  [.RDATAC false, .dataReady, .SDATAC false, .RDATA false]

/-- A history: start streaming, request one sample while streaming, stop streaming. -/
def rejectedHistory : List ModeOp :=
  [.RDATAC false, .RDATA false, .SDATAC false]

/-- Modelled from the spec: a register map that takes as reserved the bits the header
documents as always 1 (`RESERVED_BITS`: 0x10 in ID, 0x40 in CONFIG3, 0x20 in RESP, none
elsewhere) and as read-only the registers the header flags so (ID, LOFF_STATP,
LOFF_STATN). -/
def headerRegisterMap : RegisterMap where
  reservedMask := fun a =>
    if a = ads.registers.id.REG_ADDR then 0x10
    else if a = ads.registers.config3.REG_ADDR then ads.registers.config3.RESERVED_BITS
    else if a = ads.registers.resp.REG_ADDR then ads.registers.resp.RESERVED_BITS
    else 0x00
  reservedValue := fun a =>
    if a = ads.registers.id.REG_ADDR then 0x10
    else if a = ads.registers.config3.REG_ADDR then ads.registers.config3.RESERVED_BITS
    else if a = ads.registers.resp.REG_ADDR then ads.registers.resp.RESERVED_BITS
    else 0x00
  readOnly := fun a =>
    a = ads.registers.id.REG_ADDR ∨ a = ads.registers.loffStatp.REG_ADDR ∨
      a = ads.registers.loffStatn.REG_ADDR

/-- A simulated chip with every register at 0x00, waiting for an opcode. -/
def simulatedChipAtRest : SimulatedChip :=
  { registers := fun _ => 0x00, phase := .opcode }

/-- The bytes `simulatedChipAtRest` drives when 0x0C is written to CONFIG3 (0x03) and
CONFIG3 is read back; 0x00 in every later exchange. -/
def roundTripChip : Nat → Nat := fun k =>
  (simulatedChipAtRest.answers headerRegisterMap [0x43, 0x00, 0x0C, 0x23, 0x00, 0x00]).getD k 0x00

/-- A freshly constructed session on `roundTripChip` with no optional pin. -/
def roundTripSession : ADS129xSensor :=
  ADS129xSensor.new 10 2 ADS_PIN_NOT_USED ADS_PIN_NOT_USED ADS_PIN_NOT_USED ADS_PIN_NOT_USED
    1 (List.replicate 15 0xAA) roundTripChip

/-! ## Theorems -/

/-! ### The primitive operations in normal form -/

/-- Normal form of `beginSpiTransaction`: the flag is set, and the transaction is opened
and chip-select pulled LOW only if the bus was closed. -/
theorem beginSpiTransaction_eq (s : ADS129xSensor) :
    s.beginSpiTransaction =
      { s with
        isSpiOpen := true
        trace := s.trace ++
          (if s.isSpiOpen then []
           else [.beginTransaction _ADS_SPI_MAX_SPEED _ADS_SPI_BIT_ORDER _ADS_SPI_MODE,
                 .digitalWrite s.chipSelectPin .LOW]) } := by
  cases s with
  | mk o n r c d rs st pw ck buf th gi tr mi rx =>
    cases o <;> simp [ADS129xSensor.beginSpiTransaction, ADS129xSensor.emit]

/-- Normal form of `endSpiTransaction`: the flag is cleared, and chip-select is released and
the transaction closed only if the bus was open. -/
theorem endSpiTransaction_eq (s : ADS129xSensor) :
    s.endSpiTransaction =
      { s with
        isSpiOpen := false
        trace := s.trace ++
          (if s.isSpiOpen then [.digitalWrite s.chipSelectPin .HIGH, .endTransaction]
           else []) } := by
  cases s with
  | mk o n r c d rs st pw ck buf th gi tr mi rx =>
    cases o <;> simp [ADS129xSensor.endSpiTransaction, ADS129xSensor.emit]

/-- Normal form of `sendCommand`. -/
theorem sendCommand_eq (cfg : Config) (s : ADS129xSensor) (command : Nat) (keepSpiOpen : Bool) :
    s.sendCommand cfg command keepSpiOpen =
      { s with
        isSpiOpen := keepSpiOpen
        rxCount := s.rxCount + 1
        trace := s.trace ++
          (if s.isSpiOpen then []
           else [.beginTransaction _ADS_SPI_MAX_SPEED _ADS_SPI_BIT_ORDER _ADS_SPI_MODE,
                 .digitalWrite s.chipSelectPin .LOW]) ++
          [.transfer (command % 256) (s.miso s.rxCount % 256)] ++
          (if cfg.ADS_LIBRARY_VERBOSE_LEVEL > 1 then
             [.serialPrint "Command sent: ", .serialPrintlnNum command 2]
           else []) ++
          (if keepSpiOpen then []
           else [.digitalWrite s.chipSelectPin .HIGH, .endTransaction]) } := by
  unfold ADS129xSensor.sendCommand
  by_cases hv : cfg.ADS_LIBRARY_VERBOSE_LEVEL > 1 <;> cases keepSpiOpen <;>
    simp [beginSpiTransaction_eq, endSpiTransaction_eq, SPI.transfer, ADS129xSensor.emit, hv]

/-- The bytes sent by a log followed by another. -/
theorem txBytes_append (l1 l2 : List Event) : txBytes (l1 ++ l2) = txBytes l1 ++ txBytes l2 := by
  simp [txBytes]

/-- An accepted `readRegister` returns the byte received in the third exchange, after
sending `RREG | registAddr`, 0x00, 0x00. -/
theorem readRegister_accepted (cfg : Config) (s : ADS129xSensor) (registAddr : Nat)
    (keepSpiOpen : Bool) (hmode : s.readingStatus ≠ _ADS_READING_DATA_IN_RDATAC_MODE) :
    s.readRegister cfg registAddr keepSpiOpen =
      .returned (s.miso (s.rxCount + 2) % 256)
        { s with
          isSpiOpen := keepSpiOpen
          rxCount := s.rxCount + 3
          trace := s.trace ++
            (if s.isSpiOpen then []
             else [.beginTransaction _ADS_SPI_MAX_SPEED _ADS_SPI_BIT_ORDER _ADS_SPI_MODE,
                   .digitalWrite s.chipSelectPin .LOW]) ++
            [.transfer ((ads.commands.RREG ||| registAddr) % 256) (s.miso s.rxCount % 256),
             .transfer 0x00 (s.miso (s.rxCount + 1) % 256),
             .transfer 0x00 (s.miso (s.rxCount + 2) % 256)] ++
            (if keepSpiOpen then []
             else [.digitalWrite s.chipSelectPin .HIGH, .endTransaction]) } := by
  unfold ADS129xSensor.readRegister
  rw [if_neg hmode]
  cases keepSpiOpen <;>
    simp [beginSpiTransaction_eq, endSpiTransaction_eq, SPI.transfer]

/-- An accepted `writeRegister` sends `WREG | registAddr`, 0x00, `data`, then waits
`_ADS_T_CLK_18` when the register is CONFIG1 or RESP. -/
theorem writeRegister_accepted (cfg : Config) (s : ADS129xSensor) (registAddr data : Nat)
    (keepSpiOpen : Bool) (hmode : s.readingStatus ≠ _ADS_READING_DATA_IN_RDATAC_MODE) :
    s.writeRegister cfg registAddr data keepSpiOpen =
      .returned ()
        { s with
          isSpiOpen := keepSpiOpen
          rxCount := s.rxCount + 3
          trace := s.trace ++
            (if s.isSpiOpen then []
             else [.beginTransaction _ADS_SPI_MAX_SPEED _ADS_SPI_BIT_ORDER _ADS_SPI_MODE,
                   .digitalWrite s.chipSelectPin .LOW]) ++
            [.transfer ((ads.commands.WREG ||| registAddr) % 256) (s.miso s.rxCount % 256),
             .transfer 0x00 (s.miso (s.rxCount + 1) % 256),
             .transfer (data % 256) (s.miso (s.rxCount + 2) % 256)] ++
            (if registAddr = ads.registers.config1.REG_ADDR ∨
                registAddr = ads.registers.resp.REG_ADDR
             then [.delay _ADS_T_CLK_18] else []) ++
            (if keepSpiOpen then []
             else [.digitalWrite s.chipSelectPin .HIGH, .endTransaction]) } := by
  unfold ADS129xSensor.writeRegister
  rw [if_neg hmode]
  by_cases hreg : registAddr = ads.registers.config1.REG_ADDR ∨
      registAddr = ads.registers.resp.REG_ADDR <;> cases keepSpiOpen <;>
    simp [beginSpiTransaction_eq, endSpiTransaction_eq, SPI.transfer, ADS129xSensor.emit, hreg]

/-- Value of `_ADS_T_CLK_2`: `ceil(1.028) = 2`. -/
theorem _ADS_T_CLK_2_eq : _ADS_T_CLK_2 = 2 := by decide

/-- Value of `_ADS_T_CLK_4`: `ceil(2.056) = 3`. -/
theorem _ADS_T_CLK_4_eq : _ADS_T_CLK_4 = 3 := by decide

/-- Value of `_ADS_T_CLK_18`: `ceil(9.252) = 10`. -/
theorem _ADS_T_CLK_18_eq : _ADS_T_CLK_18 = 10 := by decide

/-- Normal form of `sendSPICommandSDATAC`: it always returns, after the opcode 0x11 and a
delay of 3 microseconds, in mode Idle. -/
theorem sendSPICommandSDATAC_eq (cfg : Config) (s : ADS129xSensor) (keepSpiOpen : Bool) :
    s.sendSPICommandSDATAC cfg keepSpiOpen =
      .returned ()
        { s with
          isSpiOpen := keepSpiOpen
          readingStatus := _ADS_NO_READING_NEW_DATA
          rxCount := s.rxCount + 1
          trace := s.trace ++
            (if s.isSpiOpen then []
             else [.beginTransaction _ADS_SPI_MAX_SPEED _ADS_SPI_BIT_ORDER _ADS_SPI_MODE,
                   .digitalWrite s.chipSelectPin .LOW]) ++
            [.transfer 0x11 (s.miso s.rxCount % 256)] ++
            (if cfg.ADS_LIBRARY_VERBOSE_LEVEL > 1 then
               [.serialPrint "Command sent: ", .serialPrintlnNum 0x11 2]
             else []) ++
            (if keepSpiOpen then []
             else [.digitalWrite s.chipSelectPin .HIGH, .endTransaction]) ++
            [.delayMicroseconds 3] } := by
  unfold ADS129xSensor.sendSPICommandSDATAC
  simp [sendCommand_eq, ADS129xSensor.emit, _ADS_T_CLK_4_eq, ads.commands.SDATAC]

/-- The clearing loop of the handler: after `k` rounds the first `k` bytes are 0x00 and the
rest of the buffer is untouched. -/
theorem cleanLoop_eq (k : Nat) (raw : List Nat) (hk : k ≤ raw.length) :
    (List.range k).foldl (fun r i => r.set i 0x00) raw = List.replicate k 0 ++ raw.drop k := by
  induction k with
  | zero => simp
  | succ k ih =>
    have hlt : k < raw.length := hk
    rw [List.range_succ, List.foldl_append, ih (Nat.le_of_lt hlt)]
    simp only [List.foldl_cons, List.foldl_nil]
    rw [List.set_append]
    simp only [List.length_replicate, lt_self_iff_false, if_false, Nat.sub_self]
    rw [List.drop_eq_getElem_cons hlt, List.set_cons_zero, List.replicate_succ',
      List.append_assoc]
    rfl

/-- On a buffer of `_ADS_DATA_PACKAGE_SIZE` bytes the clearing loop leaves all bytes 0x00. -/
theorem cleanBuffer_eq (cfg : Config) (s : ADS129xSensor)
    (hlen : s.adsData.length = _ADS_DATA_PACKAGE_SIZE cfg) :
    s.cleanBuffer cfg = { s with adsData := List.replicate (_ADS_DATA_PACKAGE_SIZE cfg) 0 } := by
  unfold ADS129xSensor.cleanBuffer
  rw [cleanLoop_eq _ _ (Nat.le_of_eq hlen.symm), ← hlen, List.drop_length, List.append_nil]

/-- Number of bytes delivered by `incoming`. -/
theorem incoming_length (miso : Nat → Nat) (start count : Nat) :
    (incoming miso start count).length = count := by
  simp [incoming]

/-- Normal form of the handler in ContinuousStream on a buffer of the declared size. -/
theorem handler_streaming_eq (cfg : Config) (s : ADS129xSensor)
    (hmode : s.readingStatus = _ADS_READING_DATA_IN_RDATAC_MODE)
    (hlen : s.adsData.length = _ADS_DATA_PACKAGE_SIZE cfg) :
    s._privateReadDataFromChip_ cfg =
      { s with
        isSpiOpen := false
        hasNewData := true
        adsData := incoming s.miso s.rxCount (_ADS_DATA_PACKAGE_SIZE cfg)
        rxCount := s.rxCount + _ADS_DATA_PACKAGE_SIZE cfg
        trace := s.trace ++
          (if s.isSpiOpen then []
           else [.beginTransaction _ADS_SPI_MAX_SPEED _ADS_SPI_BIT_ORDER _ADS_SPI_MODE,
                 .digitalWrite s.chipSelectPin .LOW]) ++
          [.transferBuf (List.replicate (_ADS_DATA_PACKAGE_SIZE cfg) 0)
              (incoming s.miso s.rxCount (_ADS_DATA_PACKAGE_SIZE cfg)),
           .digitalWrite s.chipSelectPin .HIGH, .endTransaction] } := by
  have hne : s.readingStatus ≠ _ADS_NO_READING_NEW_DATA := by rw [hmode]; decide
  unfold ADS129xSensor._privateReadDataFromChip_
  rw [if_neg hne]
  simp only [if_pos hmode]
  rw [cleanBuffer_eq cfg _ (by rw [beginSpiTransaction_eq]; exact hlen)]
  simp [beginSpiTransaction_eq, endSpiTransaction_eq, SPI.transferBuf]

/-- Normal form of the handler in SinglePending on a buffer of the declared size. -/
theorem handler_pending_eq (cfg : Config) (s : ADS129xSensor)
    (hmode : s.readingStatus = _ADS_READING_DATA_IN_RDATA_MODE)
    (hlen : s.adsData.length = _ADS_DATA_PACKAGE_SIZE cfg) :
    s._privateReadDataFromChip_ cfg =
      { s with
        isSpiOpen := false
        hasNewData := true
        readingStatus := _ADS_NO_READING_NEW_DATA
        adsData := incoming s.miso (s.rxCount + 1) (_ADS_DATA_PACKAGE_SIZE cfg)
        rxCount := s.rxCount + 1 + _ADS_DATA_PACKAGE_SIZE cfg
        trace := s.trace ++
          (if s.isSpiOpen then []
           else [.beginTransaction _ADS_SPI_MAX_SPEED _ADS_SPI_BIT_ORDER _ADS_SPI_MODE,
                 .digitalWrite s.chipSelectPin .LOW]) ++
          [.transfer 0x12 (s.miso s.rxCount % 256)] ++
          (if cfg.ADS_LIBRARY_VERBOSE_LEVEL > 1 then
             [.serialPrint "Command sent: ", .serialPrintlnNum 0x12 2]
           else []) ++
          [.transferBuf (List.replicate (_ADS_DATA_PACKAGE_SIZE cfg) 0)
              (incoming s.miso (s.rxCount + 1) (_ADS_DATA_PACKAGE_SIZE cfg)),
           .digitalWrite s.chipSelectPin .HIGH, .endTransaction] } := by
  have hne : s.readingStatus ≠ _ADS_NO_READING_NEW_DATA := by rw [hmode]; decide
  have hne2 : s.readingStatus ≠ _ADS_READING_DATA_IN_RDATAC_MODE := by rw [hmode]; decide
  unfold ADS129xSensor._privateReadDataFromChip_
  rw [if_neg hne]
  simp only [if_neg hne2]
  rw [cleanBuffer_eq cfg _ (by rw [sendCommand_eq]; exact hlen)]
  simp [sendCommand_eq, endSpiTransaction_eq, SPI.transferBuf, ads.commands.RDATA]

/-! ### Rejection in ContinuousStream -/

/-- Events appended by a warning are diagnostics only. -/
theorem warning_state (cfg : Config) (msg : String) (s : ADS129xSensor) :
    ∃ log, (∀ e ∈ log, Event.isSerial e = true) ∧
      (_ADS_WARNING cfg msg s).state = { s with trace := s.trace ++ log } := by
  unfold _ADS_WARNING
  split
  · refine ⟨[.serialPrint "Warning: ", .serialPrintln msg,
      .serialPrintln "Stopping program execution"], ?_, ?_⟩
    · intro e he
      simp at he
      rcases he with h | h | h <;> subst h <;> rfl
    · simp [Outcome.state, ADS129xSensor.emit]
  · exact ⟨[], by simp, by simp [Outcome.state]⟩

/-- A rejected call (warning, then `return`) ends in the state the warning left. -/
theorem warning_bind_state {α : Type} (cfg : Config) (msg : String) (s : ADS129xSensor)
    (v : α) :
    ((_ADS_WARNING cfg msg s).bind fun _ s1 => Outcome.returned v s1).state =
      (_ADS_WARNING cfg msg s).state := by
  unfold _ADS_WARNING
  split <;> rfl

/-- C1: in mode ContinuousStream (`readingStatus = _ADS_READING_DATA_IN_RDATAC_MODE`), for
every register address, data byte and `keepSpiOpen`, `readRegister` and `writeRegister`
end in the state they started in, except that the log may have gained diagnostic (Serial)
entries: there is no chip-select change, no byte exchange and no delay, and the mode, the
freshness flag, the sample buffer and the bus-open flag are unchanged. -/
theorem C1_register_access_in_streaming_mode_no_bus (cfg : Config) (s : ADS129xSensor)
    (registAddr data : Nat) (keepSpiOpen : Bool)
    (hmode : s.readingStatus = _ADS_READING_DATA_IN_RDATAC_MODE) :
    (∃ log, (∀ e ∈ log, Event.isSerial e = true) ∧
      (s.readRegister cfg registAddr keepSpiOpen).state = { s with trace := s.trace ++ log }) ∧
    (∃ log, (∀ e ∈ log, Event.isSerial e = true) ∧
      (s.writeRegister cfg registAddr data keepSpiOpen).state =
        { s with trace := s.trace ++ log }) := by
  constructor
  · unfold ADS129xSensor.readRegister
    rw [if_pos hmode, warning_bind_state]
    exact warning_state cfg _ s
  · unfold ADS129xSensor.writeRegister
    rw [if_pos hmode, warning_bind_state]
    exact warning_state cfg _ s

/-- Witness of C1 on `streamingSession` with the shipped configuration. -/
theorem C1_register_access_in_streaming_mode_no_bus_witness :
    streamingSession.readingStatus = _ADS_READING_DATA_IN_RDATAC_MODE ∧
    ((∃ log, (∀ e ∈ log, Event.isSerial e = true) ∧
      (streamingSession.readRegister shippedConfig 0x01 false).state =
        { streamingSession with trace := streamingSession.trace ++ log }) ∧
    (∃ log, (∀ e ∈ log, Event.isSerial e = true) ∧
      (streamingSession.writeRegister shippedConfig 0x01 0x86 false).state =
        { streamingSession with trace := streamingSession.trace ++ log })) :=
  ⟨rfl, C1_register_access_in_streaming_mode_no_bus shippedConfig streamingSession 0x01 0x86
    false rfl⟩

/-- C2 (the code at the failing input): with the shipped configuration (verbosity 1), and
likewise at verbosity 2, `readRegister(0x01)` and `writeRegister(0x01, 0x86)` issued in
ContinuousStream never return control to the caller: the read hands back no value (so not
the sentinel 0xFF), nothing is put on the bus, and the program is stuck inside
`_ADS_WARNING` after printing "Stopping program execution". Only at verbosity 0 do the
same two calls return, the read with 0xFF, leaving the session as it was. -/
theorem C2_rejected_register_access_never_returns :
    streamingSession.readingStatus = _ADS_READING_DATA_IN_RDATAC_MODE ∧
    shippedConfig.ADS_LIBRARY_VERBOSE_LEVEL = 1 ∧
    (streamingSession.readRegister shippedConfig 0x01 false).didReturn = false ∧
    (streamingSession.readRegister shippedConfig 0x01 false).value? = none ∧
    (streamingSession.readRegister shippedConfig 0x01 false).state.trace =
      [.serialPrint "Warning: ", .serialPrintln msgRdatacRegister,
        .serialPrintln "Stopping program execution"] ∧
    (streamingSession.writeRegister shippedConfig 0x01 0x86 false).didReturn = false ∧
    (streamingSession.writeRegister shippedConfig 0x01 0x86 false).state.trace =
      [.serialPrint "Warning: ", .serialPrintln msgRdatacRegister,
        .serialPrintln "Stopping program execution"] ∧
    verboseConfig.ADS_LIBRARY_VERBOSE_LEVEL = 2 ∧
    (streamingSession.readRegister verboseConfig 0x01 false).didReturn = false ∧
    (streamingSession.readRegister verboseConfig 0x01 false).value? = none ∧
    (streamingSession.writeRegister verboseConfig 0x01 0x86 false).didReturn = false ∧
    quietConfig.ADS_LIBRARY_VERBOSE_LEVEL = 0 ∧
    streamingSession.readRegister quietConfig 0x01 false = .returned 0xFF streamingSession ∧
    streamingSession.writeRegister quietConfig 0x01 0x86 false =
      .returned () streamingSession := by
  refine ⟨rfl, rfl, rfl, rfl, rfl, rfl, rfl, rfl, rfl, rfl, rfl, rfl, rfl, rfl⟩

/-- Register access rejected in ContinuousStream, by verbosity: at verbosity 0
`readRegister` returns the sentinel 0xFF and `writeRegister` returns, both leaving the
session exactly as it was, and after `sendSPICommandSDATAC` (which returns) the same read
or write is accepted: it returns and puts its three-byte frame on the bus. At every
verbosity above 0 the rejected read or write does not return: the program is stuck inside
`_ADS_WARNING`. -/
theorem streaming_rejection_by_verbosity (cfg : Config) (s : ADS129xSensor)
    (registAddr data : Nat) (keepSpiOpen stopKeepOpen : Bool)
    (hmode : s.readingStatus = _ADS_READING_DATA_IN_RDATAC_MODE) :
    (cfg.ADS_LIBRARY_VERBOSE_LEVEL = 0 →
      s.readRegister cfg registAddr keepSpiOpen = .returned 0xFF s ∧
      s.writeRegister cfg registAddr data keepSpiOpen = .returned () s ∧
      ∃ s1, s.sendSPICommandSDATAC cfg stopKeepOpen = .returned () s1 ∧
        (∃ s2, s1.readRegister cfg registAddr keepSpiOpen =
            .returned (s1.miso (s1.rxCount + 2) % 256) s2 ∧
          txBytes s2.trace =
            txBytes s1.trace ++ [(ads.commands.RREG ||| registAddr) % 256, 0x00, 0x00]) ∧
        (∃ s2, s1.writeRegister cfg registAddr data keepSpiOpen = .returned () s2 ∧
          txBytes s2.trace =
            txBytes s1.trace ++ [(ads.commands.WREG ||| registAddr) % 256, 0x00, data % 256])) ∧
    (0 < cfg.ADS_LIBRARY_VERBOSE_LEVEL →
      (s.readRegister cfg registAddr keepSpiOpen).didReturn = false ∧
      (s.writeRegister cfg registAddr data keepSpiOpen).didReturn = false) := by
  constructor
  · intro hv
    refine ⟨?_, ?_, ?_⟩
    · simp [ADS129xSensor.readRegister, hmode, _ADS_WARNING, hv, Outcome.bind]
    · simp [ADS129xSensor.writeRegister, hmode, _ADS_WARNING, hv, Outcome.bind]
    · have hidle : _ADS_NO_READING_NEW_DATA ≠ _ADS_READING_DATA_IN_RDATAC_MODE := by decide
      refine ⟨_, sendSPICommandSDATAC_eq cfg s stopKeepOpen, ?_, ?_⟩
      · refine ⟨_, readRegister_accepted cfg _ registAddr keepSpiOpen hidle, ?_⟩
        cases stopKeepOpen <;> cases keepSpiOpen <;>
          simp [txBytes_append] <;> simp [txBytes, Event.txBytes]
      · refine ⟨_, writeRegister_accepted cfg _ registAddr data keepSpiOpen hidle, ?_⟩
        cases stopKeepOpen <;> cases keepSpiOpen <;>
          by_cases hreg : registAddr = ads.registers.config1.REG_ADDR ∨
            registAddr = ads.registers.resp.REG_ADDR <;>
          simp [txBytes_append, hreg] <;> simp [txBytes, Event.txBytes]
  · intro hv
    constructor
    · simp [ADS129xSensor.readRegister, hmode, _ADS_WARNING, hv, Outcome.bind,
        Outcome.didReturn]
    · simp [ADS129xSensor.writeRegister, hmode, _ADS_WARNING, hv, Outcome.bind,
        Outcome.didReturn]

/-- Example of `streaming_rejection_by_verbosity` on `streamingSession`: at verbosity 0 the
rejected calls return and the retry after `sendSPICommandSDATAC` is accepted; with the
shipped verbosity 1 they do not return. -/
theorem streaming_rejection_by_verbosity_example :
    streamingSession.readingStatus = _ADS_READING_DATA_IN_RDATAC_MODE ∧
    quietConfig.ADS_LIBRARY_VERBOSE_LEVEL = 0 ∧
    (streamingSession.readRegister quietConfig 0x01 false = .returned 0xFF streamingSession ∧
      streamingSession.writeRegister quietConfig 0x01 0x86 false =
        .returned () streamingSession ∧
      ∃ s1, streamingSession.sendSPICommandSDATAC quietConfig false = .returned () s1 ∧
        (∃ s2, s1.readRegister quietConfig 0x01 false =
            .returned (s1.miso (s1.rxCount + 2) % 256) s2 ∧
          txBytes s2.trace =
            txBytes s1.trace ++ [(ads.commands.RREG ||| 0x01) % 256, 0x00, 0x00]) ∧
        (∃ s2, s1.writeRegister quietConfig 0x01 0x86 false = .returned () s2 ∧
          txBytes s2.trace =
            txBytes s1.trace ++ [(ads.commands.WREG ||| 0x01) % 256, 0x00, 0x86 % 256])) ∧
    0 < shippedConfig.ADS_LIBRARY_VERBOSE_LEVEL ∧
    ((streamingSession.readRegister shippedConfig 0x01 false).didReturn = false ∧
      (streamingSession.writeRegister shippedConfig 0x01 0x86 false).didReturn = false) :=
  ⟨rfl, rfl,
    (streaming_rejection_by_verbosity quietConfig streamingSession 0x01 0x86 false false rfl).1
      rfl,
    by decide,
    (streaming_rejection_by_verbosity shippedConfig streamingSession 0x01 0x86 false false rfl).2
      (by decide)⟩

/-- A command rejected in ContinuousStream leaves the session as it was, up to diagnostics. -/
theorem rejected_command_state (cfg : Config) (s : ADS129xSensor) :
    ∃ log, (∀ e ∈ log, Event.isSerial e = true) ∧
      ((_ADS_WARNING cfg msgRdatacCommand s).bind fun _ s1 => Outcome.returned () s1).state =
        { s with trace := s.trace ++ log } := by
  rw [warning_bind_state]
  exact warning_state cfg _ s

/-- C3: with the reset and start pins declared unused, each of `sendSPICommandWAKEUP`,
`sendSPICommandSTANDBY`, `sendSPICommandRESET`, `sendSPICommandSTART`, `sendSPICommandSTOP`,
`sendSPICommandRDATAC` and `sendSPICommandRDATA` issued in ContinuousStream ends, for either
value of `keepSpiOpen`, in the state it started in except for diagnostic (Serial) log
entries: no byte is sent, no delay is performed, and the mode, the freshness flag, the
sample buffer and the bus-open flag are unchanged. -/
theorem C3_commands_in_streaming_mode_no_bus (cfg : Config) (s : ADS129xSensor)
    (keepSpiOpen : Bool)
    (hreset : s.resetPin = ADS_PIN_NOT_USED) (hstart : s.startPin = ADS_PIN_NOT_USED)
    (hmode : s.readingStatus = _ADS_READING_DATA_IN_RDATAC_MODE) :
    ∀ o ∈ [s.sendSPICommandWAKEUP cfg keepSpiOpen, s.sendSPICommandSTANDBY cfg keepSpiOpen,
        s.sendSPICommandRESET cfg keepSpiOpen, s.sendSPICommandSTART cfg keepSpiOpen,
        s.sendSPICommandSTOP cfg keepSpiOpen, s.sendSPICommandRDATAC cfg keepSpiOpen,
        s.sendSPICommandRDATA cfg keepSpiOpen],
      ∃ log, (∀ e ∈ log, Event.isSerial e = true) ∧
        Outcome.state o = { s with trace := s.trace ++ log } := by
  intro o ho
  simp only [List.mem_cons, List.mem_singleton, List.not_mem_nil, or_false] at ho
  rcases ho with h | h | h | h | h | h | h <;> subst h
  · unfold ADS129xSensor.sendSPICommandWAKEUP
    rw [if_pos hmode]
    exact rejected_command_state cfg s
  · unfold ADS129xSensor.sendSPICommandSTANDBY
    rw [if_pos hmode]
    exact rejected_command_state cfg s
  · unfold ADS129xSensor.sendSPICommandRESET
    rw [if_neg (by simp [hreset]), Outcome.bind]
    simp only [if_pos hmode]
    exact rejected_command_state cfg s
  · unfold ADS129xSensor.sendSPICommandSTART
    rw [if_neg (by simp [hstart]), Outcome.bind]
    simp only [if_pos hmode]
    exact rejected_command_state cfg s
  · unfold ADS129xSensor.sendSPICommandSTOP
    rw [if_neg (by simp [hstart]), Outcome.bind]
    simp only [if_pos hmode]
    exact rejected_command_state cfg s
  · unfold ADS129xSensor.sendSPICommandRDATAC
    rw [if_pos hmode]
    exact rejected_command_state cfg s
  · unfold ADS129xSensor.sendSPICommandRDATA
    rw [if_pos hmode]
    exact rejected_command_state cfg s

/-- Witness of C3 on `streamingSession` (no optional pin wired) with the shipped
configuration. -/
theorem C3_commands_in_streaming_mode_no_bus_witness :
    streamingSession.resetPin = ADS_PIN_NOT_USED ∧
    streamingSession.startPin = ADS_PIN_NOT_USED ∧
    streamingSession.readingStatus = _ADS_READING_DATA_IN_RDATAC_MODE ∧
    ∀ o ∈ [streamingSession.sendSPICommandWAKEUP shippedConfig true,
        streamingSession.sendSPICommandSTANDBY shippedConfig true,
        streamingSession.sendSPICommandRESET shippedConfig true,
        streamingSession.sendSPICommandSTART shippedConfig true,
        streamingSession.sendSPICommandSTOP shippedConfig true,
        streamingSession.sendSPICommandRDATAC shippedConfig true,
        streamingSession.sendSPICommandRDATA shippedConfig true],
      ∃ log, (∀ e ∈ log, Event.isSerial e = true) ∧
        Outcome.state o = { streamingSession with trace := streamingSession.trace ++ log } :=
  ⟨rfl, rfl, rfl,
    C3_commands_in_streaming_mode_no_bus shippedConfig streamingSession true rfl rfl rfl⟩

/-- C4: `sendSPICommandSDATAC` is accepted in every session state. For every mode, bus open
or closed, every pin assignment and either `keepSpiOpen`, it returns; the log gains the
opening of the bus transaction (only if the bus was closed), one byte exchange sending
0x11, the release of the transaction (unless `keepSpiOpen`) and last the settle delay of
`_ADS_T_CLK_4` microseconds, besides diagnostics at verbosity above 1; so exactly one byte,
0x11, is sent, and the mode on return is Idle. -/
theorem C4_SDATAC_accepted_in_every_state (cfg : Config) (s : ADS129xSensor)
    (keepSpiOpen : Bool) :
    ∃ s1, s.sendSPICommandSDATAC cfg keepSpiOpen = .returned () s1 ∧
      s1.trace = s.trace ++
        (if s.isSpiOpen then []
         else [.beginTransaction _ADS_SPI_MAX_SPEED _ADS_SPI_BIT_ORDER _ADS_SPI_MODE,
               .digitalWrite s.chipSelectPin .LOW]) ++
        [.transfer 0x11 (s.miso s.rxCount % 256)] ++
        (if cfg.ADS_LIBRARY_VERBOSE_LEVEL > 1 then
           [.serialPrint "Command sent: ", .serialPrintlnNum 0x11 2]
         else []) ++
        (if keepSpiOpen then []
         else [.digitalWrite s.chipSelectPin .HIGH, .endTransaction]) ++
        [.delayMicroseconds _ADS_T_CLK_4] ∧
      txBytes s1.trace = txBytes s.trace ++ [0x11] ∧
      _ADS_T_CLK_4 = ceilTimes 4 _ADS_T_CLK ∧
      s1.readingStatus = _ADS_NO_READING_NEW_DATA := by
  refine ⟨_, sendSPICommandSDATAC_eq cfg s keepSpiOpen, ?_, ?_, rfl, rfl⟩
  · simp [_ADS_T_CLK_4_eq]
  · by_cases hv : cfg.ADS_LIBRARY_VERBOSE_LEVEL > 1 <;> cases keepSpiOpen <;>
      cases s.isSpiOpen <;> simp [txBytes_append, hv] <;> simp [txBytes, Event.txBytes]

/-- C6 (the code at the failing inputs): `doHardwareReset()` on an Idle session with the
reset line wired pulses the pin and returns with the mode still Idle, and an accepted
`sendSPICommandRESET()` on an Idle session without reset pin sends 0x06 and returns with
the mode still Idle; neither leaves the mode ContinuousStream. -/
theorem C6_public_reset_keeps_mode :
    resetWiredSession.readingStatus = _ADS_NO_READING_NEW_DATA ∧
    (resetWiredSession.doHardwareReset shippedConfig).didReturn = true ∧
    (resetWiredSession.doHardwareReset shippedConfig).state.trace =
      [.digitalWrite 9 .LOW, .delay 2, .digitalWrite 9 .HIGH] ∧
    (resetWiredSession.doHardwareReset shippedConfig).state.readingStatus =
      _ADS_NO_READING_NEW_DATA ∧
    freshSession.readingStatus = _ADS_NO_READING_NEW_DATA ∧
    (freshSession.sendSPICommandRESET shippedConfig false).didReturn = true ∧
    txBytes (freshSession.sendSPICommandRESET shippedConfig false).state.trace = [0x06] ∧
    (freshSession.sendSPICommandRESET shippedConfig false).state.readingStatus =
      _ADS_NO_READING_NEW_DATA ∧
    _ADS_NO_READING_NEW_DATA ≠ _ADS_READING_DATA_IN_RDATAC_MODE := by
  refine ⟨rfl, rfl, rfl, rfl, rfl, rfl, rfl, rfl, by decide⟩

/-- C7: a data-ready event (`_privateReadDataFromChip_`) while the mode is Idle returns the
session unchanged: no bus activity (the log is the same), and the freshness flag, the
sample buffer, the mode and the bus-open flag are as before. -/
theorem C7_data_ready_in_idle_is_ignored (cfg : Config) (s : ADS129xSensor)
    (hmode : s.readingStatus = _ADS_NO_READING_NEW_DATA) :
    s._privateReadDataFromChip_ cfg = s := by
  unfold ADS129xSensor._privateReadDataFromChip_
  rw [if_pos hmode]

/-- Witness of C7 on the freshly constructed session. -/
theorem C7_data_ready_in_idle_is_ignored_witness :
    freshSession.readingStatus = _ADS_NO_READING_NEW_DATA ∧
    freshSession._privateReadDataFromChip_ shippedConfig = freshSession :=
  ⟨rfl, C7_data_ready_in_idle_is_ignored shippedConfig freshSession rfl⟩

/-! ### The acquisition path -/

/-- C8: starting with the bus closed and mode SinglePending (buffer of the declared size),
a data-ready event opens one bus transaction (chip-select LOW), sends the opcode 0x12,
performs one buffer transfer of `_ADS_DATA_PACKAGE_SIZE` bytes before chip-select is
released, then releases the transaction; the frame received is in the buffer, the
freshness flag is set, the bus is closed and the mode is Idle. A second data-ready event
right after it changes nothing, so it performs no bus transfer. -/
theorem C8_data_ready_in_single_pending (cfg : Config) (s : ADS129xSensor)
    (hopen : s.isSpiOpen = false)
    (hmode : s.readingStatus = _ADS_READING_DATA_IN_RDATA_MODE)
    (hlen : s.adsData.length = _ADS_DATA_PACKAGE_SIZE cfg) :
    (s._privateReadDataFromChip_ cfg).trace = s.trace ++
      [.beginTransaction _ADS_SPI_MAX_SPEED _ADS_SPI_BIT_ORDER _ADS_SPI_MODE,
       .digitalWrite s.chipSelectPin .LOW,
       .transfer 0x12 (s.miso s.rxCount % 256)] ++
      (if cfg.ADS_LIBRARY_VERBOSE_LEVEL > 1 then
         [.serialPrint "Command sent: ", .serialPrintlnNum 0x12 2]
       else []) ++
      [.transferBuf (List.replicate (_ADS_DATA_PACKAGE_SIZE cfg) 0)
          (incoming s.miso (s.rxCount + 1) (_ADS_DATA_PACKAGE_SIZE cfg)),
       .digitalWrite s.chipSelectPin .HIGH, .endTransaction] ∧
    (incoming s.miso (s.rxCount + 1) (_ADS_DATA_PACKAGE_SIZE cfg)).length =
      _ADS_DATA_PACKAGE_SIZE cfg ∧
    (s._privateReadDataFromChip_ cfg).adsData =
      incoming s.miso (s.rxCount + 1) (_ADS_DATA_PACKAGE_SIZE cfg) ∧
    (s._privateReadDataFromChip_ cfg).hasNewData = true ∧
    (s._privateReadDataFromChip_ cfg).isSpiOpen = false ∧
    (s._privateReadDataFromChip_ cfg).readingStatus = _ADS_NO_READING_NEW_DATA ∧
    (s._privateReadDataFromChip_ cfg)._privateReadDataFromChip_ cfg =
      s._privateReadDataFromChip_ cfg := by
  have hidle : (s._privateReadDataFromChip_ cfg).readingStatus = _ADS_NO_READING_NEW_DATA := by
    rw [handler_pending_eq cfg s hmode hlen]
  refine ⟨?_, incoming_length _ _ _, ?_, ?_, ?_, hidle, ?_⟩
  · rw [handler_pending_eq cfg s hmode hlen]
    simp [hopen]
  · rw [handler_pending_eq cfg s hmode hlen]
  · rw [handler_pending_eq cfg s hmode hlen]
  · rw [handler_pending_eq cfg s hmode hlen]
  · generalize s._privateReadDataFromChip_ cfg = s1 at hidle ⊢
    unfold ADS129xSensor._privateReadDataFromChip_
    rw [if_pos hidle]

/-- Witness of C8 on `pendingSession` with the shipped configuration (15-byte frames). -/
theorem C8_data_ready_in_single_pending_witness :
    pendingSession.isSpiOpen = false ∧
    pendingSession.readingStatus = _ADS_READING_DATA_IN_RDATA_MODE ∧
    pendingSession.adsData.length = _ADS_DATA_PACKAGE_SIZE shippedConfig ∧
    (pendingSession._privateReadDataFromChip_ shippedConfig).adsData =
      incoming pendingSession.miso (pendingSession.rxCount + 1)
        (_ADS_DATA_PACKAGE_SIZE shippedConfig) ∧
    (pendingSession._privateReadDataFromChip_ shippedConfig).readingStatus =
      _ADS_NO_READING_NEW_DATA :=
  have h := C8_data_ready_in_single_pending shippedConfig pendingSession rfl rfl rfl
  ⟨rfl, rfl, rfl, h.2.2.1, h.2.2.2.2.2.1⟩

/-- C9: starting with the bus closed and mode ContinuousStream (buffer of the declared
size), a data-ready event opens the bus transaction and, without any opcode byte, performs
one buffer transfer of `_ADS_DATA_PACKAGE_SIZE` bytes in which every byte sent is 0x00 (the
buffer was zero-filled), then releases the transaction; the frame received is in the
buffer, the freshness flag is set, the bus is closed and the mode is still
ContinuousStream. -/
theorem C9_data_ready_in_continuous_stream (cfg : Config) (s : ADS129xSensor)
    (hopen : s.isSpiOpen = false)
    (hmode : s.readingStatus = _ADS_READING_DATA_IN_RDATAC_MODE)
    (hlen : s.adsData.length = _ADS_DATA_PACKAGE_SIZE cfg) :
    (s._privateReadDataFromChip_ cfg).trace = s.trace ++
      [.beginTransaction _ADS_SPI_MAX_SPEED _ADS_SPI_BIT_ORDER _ADS_SPI_MODE,
       .digitalWrite s.chipSelectPin .LOW,
       .transferBuf (List.replicate (_ADS_DATA_PACKAGE_SIZE cfg) 0)
          (incoming s.miso s.rxCount (_ADS_DATA_PACKAGE_SIZE cfg)),
       .digitalWrite s.chipSelectPin .HIGH, .endTransaction] ∧
    txBytes (s._privateReadDataFromChip_ cfg).trace =
      txBytes s.trace ++ List.replicate (_ADS_DATA_PACKAGE_SIZE cfg) 0x00 ∧
    (incoming s.miso s.rxCount (_ADS_DATA_PACKAGE_SIZE cfg)).length =
      _ADS_DATA_PACKAGE_SIZE cfg ∧
    (s._privateReadDataFromChip_ cfg).adsData =
      incoming s.miso s.rxCount (_ADS_DATA_PACKAGE_SIZE cfg) ∧
    (s._privateReadDataFromChip_ cfg).hasNewData = true ∧
    (s._privateReadDataFromChip_ cfg).isSpiOpen = false ∧
    (s._privateReadDataFromChip_ cfg).readingStatus = _ADS_READING_DATA_IN_RDATAC_MODE := by
  rw [handler_streaming_eq cfg s hmode hlen]
  refine ⟨?_, ?_, incoming_length _ _ _, rfl, rfl, rfl, hmode⟩
  · simp [hopen]
  · simp [hopen, txBytes_append]
    simp [txBytes, Event.txBytes]

/-- Witness of C9 on `streamingSession` with the shipped configuration (15-byte frames). -/
theorem C9_data_ready_in_continuous_stream_witness :
    streamingSession.isSpiOpen = false ∧
    streamingSession.readingStatus = _ADS_READING_DATA_IN_RDATAC_MODE ∧
    streamingSession.adsData.length = _ADS_DATA_PACKAGE_SIZE shippedConfig ∧
    txBytes (streamingSession._privateReadDataFromChip_ shippedConfig).trace =
      txBytes streamingSession.trace ++
        List.replicate (_ADS_DATA_PACKAGE_SIZE shippedConfig) 0x00 ∧
    (streamingSession._privateReadDataFromChip_ shippedConfig).readingStatus =
      _ADS_READING_DATA_IN_RDATAC_MODE :=
  have h := C9_data_ready_in_continuous_stream shippedConfig streamingSession rfl rfl rfl
  ⟨rfl, rfl, rfl, h.2.1, h.2.2.2.2.2.2⟩

/-- C10: let two consecutive data-ready events happen in ContinuousStream with no
`getData()` between them, the chip delivering frame `A` during the first and frame `B`
during the second, on a buffer of the declared size with any prior content. After the first
event the buffer is `A`; after the second it is `B`, all `_ADS_DATA_PACKAGE_SIZE` bytes of
it, with the freshness flag set; `getData()` then returns exactly `B`, and
`hasNewDataAvailable()` is false right after that `getData()`. -/
theorem C10_second_frame_overwrites_first (cfg : Config) (s : ADS129xSensor) (A B : List Nat)
    (hmode : s.readingStatus = _ADS_READING_DATA_IN_RDATAC_MODE)
    (hlen : s.adsData.length = _ADS_DATA_PACKAGE_SIZE cfg)
    (hA : incoming s.miso s.rxCount (_ADS_DATA_PACKAGE_SIZE cfg) = A)
    (hB : incoming s.miso (s.rxCount + _ADS_DATA_PACKAGE_SIZE cfg)
      (_ADS_DATA_PACKAGE_SIZE cfg) = B) :
    (s._privateReadDataFromChip_ cfg).adsData = A ∧
    ((s._privateReadDataFromChip_ cfg)._privateReadDataFromChip_ cfg).adsData = B ∧
    B.length = _ADS_DATA_PACKAGE_SIZE cfg ∧
    ((s._privateReadDataFromChip_ cfg)._privateReadDataFromChip_ cfg).hasNewData = true ∧
    ((s._privateReadDataFromChip_ cfg)._privateReadDataFromChip_ cfg).getData.1 = B ∧
    ((s._privateReadDataFromChip_ cfg)._privateReadDataFromChip_ cfg).getData.2.hasNewDataAvailable
      = false := by
  have h1 := handler_streaming_eq cfg s hmode hlen
  have hmode1 : (s._privateReadDataFromChip_ cfg).readingStatus =
      _ADS_READING_DATA_IN_RDATAC_MODE := by rw [h1]; exact hmode
  have hlen1 : (s._privateReadDataFromChip_ cfg).adsData.length =
      _ADS_DATA_PACKAGE_SIZE cfg := by rw [h1]; exact incoming_length _ _ _
  have h2 := handler_streaming_eq cfg _ hmode1 hlen1
  have hrx : (s._privateReadDataFromChip_ cfg).rxCount =
      s.rxCount + _ADS_DATA_PACKAGE_SIZE cfg := by rw [h1]
  have hmiso : (s._privateReadDataFromChip_ cfg).miso = s.miso := by rw [h1]
  have hbuf : ((s._privateReadDataFromChip_ cfg)._privateReadDataFromChip_ cfg).adsData = B := by
    rw [h2]
    simp only [hrx, hmiso]
    exact hB
  refine ⟨?_, hbuf, ?_, ?_, ?_, ?_⟩
  · rw [h1]; exact hA
  · rw [← hB]; exact incoming_length _ _ _
  · rw [h2]
  · simpa [ADS129xSensor.getData] using hbuf
  · simp [ADS129xSensor.getData, ADS129xSensor.hasNewDataAvailable]

/-- Witness of C10 on `streamingSession` (buffer 0xAA ... 0xAA) with a chip that delivers
the frames 0..14 and 15..29. -/
theorem C10_second_frame_overwrites_first_witness :
    streamingSession.readingStatus = _ADS_READING_DATA_IN_RDATAC_MODE ∧
    streamingSession.adsData.length = _ADS_DATA_PACKAGE_SIZE shippedConfig ∧
    incoming streamingSession.miso streamingSession.rxCount
      (_ADS_DATA_PACKAGE_SIZE shippedConfig) = List.range 15 ∧
    incoming streamingSession.miso
      (streamingSession.rxCount + _ADS_DATA_PACKAGE_SIZE shippedConfig)
      (_ADS_DATA_PACKAGE_SIZE shippedConfig) = (List.range 15).map (fun i => 15 + i) ∧
    ((streamingSession._privateReadDataFromChip_ shippedConfig)._privateReadDataFromChip_
      shippedConfig).getData.1 = (List.range 15).map (fun i => 15 + i) :=
  ⟨rfl, rfl, by decide, by decide,
    (C10_second_frame_overwrites_first shippedConfig streamingSession (List.range 15)
      ((List.range 15).map (fun i => 15 + i)) rfl rfl (by decide) (by decide)).2.2.2.2.1⟩

/-! ### The mode after a history of mode commands and data-ready events -/

/-- The handler changes the mode only from SinglePending (or an undefined value) to Idle. -/
theorem handler_readingStatus (cfg : Config) (s : ADS129xSensor) :
    (s._privateReadDataFromChip_ cfg).readingStatus = modeStep s.readingStatus .dataReady := by
  unfold ADS129xSensor._privateReadDataFromChip_ modeStep
  by_cases h3 : s.readingStatus = _ADS_NO_READING_NEW_DATA
  · simp [h3]
  · by_cases h2 : s.readingStatus = _ADS_READING_DATA_IN_RDATAC_MODE
    · have h23 : _ADS_READING_DATA_IN_RDATAC_MODE ≠ _ADS_NO_READING_NEW_DATA := by decide
      simp [h2, h23, beginSpiTransaction_eq, endSpiTransaction_eq, SPI.transferBuf,
        ADS129xSensor.cleanBuffer]
    · simp [h3, h2, sendCommand_eq, endSpiTransaction_eq, SPI.transferBuf,
        ADS129xSensor.cleanBuffer]

/-- A step that returns leaves the mode given by `modeStep`. -/
theorem apply_returned_mode (cfg : Config) (s s1 : ADS129xSensor) (op : ModeOp)
    (h : op.apply cfg s = .returned () s1) :
    s1.readingStatus = modeStep s.readingStatus op := by
  cases op with
  | RDATAC k =>
    simp only [ModeOp.apply, ADS129xSensor.sendSPICommandRDATAC, _ADS_WARNING] at h
    split at h
    · next hm =>
      split at h
      · simp [Outcome.bind] at h
      · simp only [Outcome.bind, Outcome.returned.injEq, true_and] at h
        subst h
        simpa [modeStep] using hm
    · simp only [Outcome.returned.injEq, true_and] at h
      subst h
      rfl
  | SDATAC k =>
    simp only [ModeOp.apply, ADS129xSensor.sendSPICommandSDATAC, Outcome.returned.injEq,
      true_and] at h
    subst h
    rfl
  | RDATA k =>
    simp only [ModeOp.apply, ADS129xSensor.sendSPICommandRDATA, _ADS_WARNING] at h
    split at h
    · next hm =>
      split at h
      · simp [Outcome.bind] at h
      · simp only [Outcome.bind, Outcome.returned.injEq, true_and] at h
        subst h
        simp [modeStep, hm]
    · next hm =>
      simp only [Outcome.returned.injEq, true_and] at h
      subst h
      split <;> simp [modeStep, hm, ADS129xSensor.emit]
  | dataReady =>
    simp only [ModeOp.apply, Outcome.returned.injEq, true_and] at h
    subst h
    exact handler_readingStatus cfg s

/-- A step that does not return was rejected in ContinuousStream by a verbose build, and
the program is stuck in that mode. -/
theorem apply_halted (cfg : Config) (s : ADS129xSensor) (op : ModeOp)
    (h : (op.apply cfg s).didReturn = false) :
    0 < cfg.ADS_LIBRARY_VERBOSE_LEVEL ∧
      (op.apply cfg s).state.readingStatus = _ADS_READING_DATA_IN_RDATAC_MODE := by
  cases op with
  | RDATAC k =>
    simp only [ModeOp.apply, ADS129xSensor.sendSPICommandRDATAC, _ADS_WARNING] at h ⊢
    split at h
    · next hm =>
      split at h
      · next hv => simp [hm, hv, Outcome.bind, Outcome.state, ADS129xSensor.emit]
      · simp [Outcome.bind, Outcome.didReturn] at h
    · simp [Outcome.didReturn] at h
  | SDATAC k => simp [ModeOp.apply, ADS129xSensor.sendSPICommandSDATAC, Outcome.didReturn] at h
  | RDATA k =>
    simp only [ModeOp.apply, ADS129xSensor.sendSPICommandRDATA, _ADS_WARNING] at h ⊢
    split at h
    · next hm =>
      split at h
      · next hv => simp [hm, hv, Outcome.bind, Outcome.state, ADS129xSensor.emit]
      · simp [Outcome.bind, Outcome.didReturn] at h
    · simp [Outcome.didReturn] at h
  | dataReady => simp [ModeOp.apply, Outcome.didReturn] at h

/-- A history that ran to its end leaves the mode computed by folding `modeStep`. -/
theorem runOps_returned_mode (cfg : Config) (ops : List ModeOp) :
    ∀ s s1 : ADS129xSensor, runOps cfg s ops = .returned () s1 →
      s1.readingStatus = ops.foldl modeStep s.readingStatus := by
  induction ops with
  | nil =>
    intro s s1 h
    simp only [runOps, Outcome.returned.injEq, true_and] at h
    subst h
    rfl
  | cons op ops ih =>
    intro s s1 h
    simp only [runOps] at h
    cases hop : op.apply cfg s with
    | returned v s2 =>
      rw [hop] at h
      simp only [Outcome.bind] at h
      rw [List.foldl_cons, ← apply_returned_mode cfg s s2 op hop]
      exact ih s2 s1 h
    | halted s2 =>
      rw [hop] at h
      simp [Outcome.bind] at h

/-- A history that did not run to its end stopped in a call rejected in ContinuousStream,
which happens in verbose builds only. -/
theorem runOps_halted (cfg : Config) (ops : List ModeOp) :
    ∀ s : ADS129xSensor, (runOps cfg s ops).didReturn = false →
      0 < cfg.ADS_LIBRARY_VERBOSE_LEVEL ∧
        (runOps cfg s ops).state.readingStatus = _ADS_READING_DATA_IN_RDATAC_MODE := by
  induction ops with
  | nil =>
    intro s h
    simp [runOps, Outcome.didReturn] at h
  | cons op ops ih =>
    intro s h
    simp only [runOps] at h ⊢
    cases hop : op.apply cfg s with
    | returned v s2 =>
      rw [hop] at h
      exact ih s2 h
    | halted s2 =>
      have := apply_halted cfg s op (by rw [hop]; rfl)
      rw [hop] at this
      exact this

/-- Splitting a list that ends in `o` around one of its elements. -/
theorem snoc_eq_split {α : Type} (ops pre post : List α) (o x : α) :
    ops ++ [o] = pre ++ x :: post ↔
      (post = [] ∧ pre = ops ∧ x = o) ∨ ∃ post1, post = post1 ++ [o] ∧ ops = pre ++ x :: post1 := by
  constructor
  · intro h
    rcases List.eq_nil_or_concat post with hp | ⟨post1, b, hp⟩
    · subst hp
      have h2 := List.append_inj' h rfl
      exact Or.inl ⟨rfl, h2.1.symm, by simpa using h2.2.symm⟩
    · rw [List.concat_eq_append] at hp
      subst hp
      have h1 : ops ++ [o] = (pre ++ x :: post1) ++ [b] := by simpa using h
      have h2 := List.append_inj' h1 rfl
      have hb : o = b := by simpa using h2.2
      subst hb
      exact Or.inr ⟨post1, rfl, h2.1⟩
  · rintro (⟨hp, hpre, hx⟩ | ⟨post1, hp, hops⟩)
    · subst hp hpre hx
      rfl
    · subst hp hops
      simp

/-- How `RdatacNotStopped` evolves when one step is appended to the history. -/
theorem rdatacNotStopped_snoc (ops : List ModeOp) (o : ModeOp) :
    RdatacNotStopped (ops ++ [o]) ↔
      (∃ k, o = .RDATAC k) ∨ (RdatacNotStopped ops ∧ ∀ k, o ≠ .SDATAC k) := by
  unfold RdatacNotStopped
  constructor
  · rintro ⟨pre, k, post, h, hpost⟩
    rcases (snoc_eq_split ops pre post o _).1 h with ⟨_, _, hx⟩ | ⟨post1, hp, hops⟩
    · exact Or.inl ⟨k, hx.symm⟩
    · subst hp
      refine Or.inr ⟨⟨pre, k, post1, hops, fun k1 hk => hpost k1 (by simp [hk])⟩, ?_⟩
      intro k1 hk
      exact hpost k1 (by simp [hk])
  · rintro (⟨k, hk⟩ | ⟨⟨pre, k, post, h, hpost⟩, ho⟩)
    · subst hk
      exact ⟨ops, k, [], rfl, by simp⟩
    · subst h
      refine ⟨pre, k, post ++ [o], by simp, ?_⟩
      intro k1 hk
      rcases List.mem_append.1 hk with h1 | h1
      · exact hpost k1 h1
      · exact ho k1 (List.mem_singleton.1 h1).symm

/-- How `RdataPending` evolves when one step is appended to the history. -/
theorem rdataPending_snoc (ops : List ModeOp) (o : ModeOp) :
    RdataPending (ops ++ [o]) ↔
      (∃ k, o = .RDATA k) ∨ (RdataPending ops ∧ (∀ k, o ≠ .SDATAC k) ∧ o ≠ .dataReady) := by
  unfold RdataPending
  constructor
  · rintro ⟨pre, k, post, h, hpost, hdr⟩
    rcases (snoc_eq_split ops pre post o _).1 h with ⟨_, _, hx⟩ | ⟨post1, hp, hops⟩
    · exact Or.inl ⟨k, hx.symm⟩
    · subst hp
      refine Or.inr ⟨⟨pre, k, post1, hops, fun k1 hk => hpost k1 (by simp [hk]),
        fun hk => hdr (by simp [hk])⟩, ?_, ?_⟩
      · intro k1 hk
        exact hpost k1 (by simp [hk])
      · intro hk
        exact hdr (by simp [hk])
  · rintro (⟨k, hk⟩ | ⟨⟨pre, k, post, h, hpost, hdr⟩, ho, ho2⟩)
    · subst hk
      exact ⟨ops, k, [], rfl, by simp, by simp⟩
    · subst h
      refine ⟨pre, k, post ++ [o], by simp, ?_, ?_⟩
      · intro k1 hk
        rcases List.mem_append.1 hk with h1 | h1
        · exact hpost k1 h1
        · exact ho k1 (List.mem_singleton.1 h1).symm
      · intro hk
        rcases List.mem_append.1 hk with h1 | h1
        · exact hdr h1
        · exact ho2 (List.mem_singleton.1 h1).symm

/-- The folded mode of a history started in Idle, against the two history predicates. -/
theorem foldl_modeStep_spec (ops : List ModeOp) :
    (ops.foldl modeStep _ADS_NO_READING_NEW_DATA = _ADS_READING_DATA_IN_RDATAC_MODE ↔
        RdatacNotStopped ops) ∧
    (ops.foldl modeStep _ADS_NO_READING_NEW_DATA = _ADS_READING_DATA_IN_RDATA_MODE →
        RdataPending ops) ∧
    (RdataPending ops →
        ops.foldl modeStep _ADS_NO_READING_NEW_DATA = _ADS_READING_DATA_IN_RDATA_MODE ∨
        ops.foldl modeStep _ADS_NO_READING_NEW_DATA = _ADS_READING_DATA_IN_RDATAC_MODE) ∧
    (ops.foldl modeStep _ADS_NO_READING_NEW_DATA = _ADS_READING_DATA_IN_RDATA_MODE ∨
      ops.foldl modeStep _ADS_NO_READING_NEW_DATA = _ADS_READING_DATA_IN_RDATAC_MODE ∨
      ops.foldl modeStep _ADS_NO_READING_NEW_DATA = _ADS_NO_READING_NEW_DATA) := by
  induction ops using List.reverseRecOn with
  | nil =>
    refine ⟨?_, ?_, ?_, Or.inr (Or.inr rfl)⟩
    · simp [RdatacNotStopped, _ADS_NO_READING_NEW_DATA, _ADS_READING_DATA_IN_RDATAC_MODE]
    · simp [_ADS_NO_READING_NEW_DATA, _ADS_READING_DATA_IN_RDATA_MODE]
    · simp [RdataPending]
  | append_singleton ops o ih =>
    obtain ⟨ih1, ih2, ih3, ih4⟩ := ih
    rw [List.foldl_append, rdatacNotStopped_snoc, rdataPending_snoc]
    simp only [List.foldl_cons, List.foldl_nil]
    generalize ops.foldl modeStep _ADS_NO_READING_NEW_DATA = m at ih1 ih2 ih3 ih4 ⊢
    rw [← ih1]
    have h12 : _ADS_READING_DATA_IN_RDATA_MODE ≠ _ADS_READING_DATA_IN_RDATAC_MODE := by decide
    have h32 : _ADS_NO_READING_NEW_DATA ≠ _ADS_READING_DATA_IN_RDATAC_MODE := by decide
    have h31 : _ADS_NO_READING_NEW_DATA ≠ _ADS_READING_DATA_IN_RDATA_MODE := by decide
    cases o with
    | RDATAC k => simp [modeStep, h12.symm]
    | SDATAC k => simp [modeStep, h32, h31]
    | RDATA k =>
      by_cases hm : m = _ADS_READING_DATA_IN_RDATAC_MODE
      · simp [modeStep, hm, h12.symm]
      · simp [modeStep, hm, h12]
    | dataReady =>
      by_cases hm3 : m = _ADS_NO_READING_NEW_DATA
      · simp [modeStep, hm3, h32, h31]
      · by_cases hm : m = _ADS_READING_DATA_IN_RDATAC_MODE
        · simp [modeStep, hm, h32.symm, h12.symm]
        · simp [modeStep, hm, hm3, h32, h31]

/-- Mode after a history: take any finite history of `sendSPICommandRDATAC`,
`sendSPICommandSDATAC`, `sendSPICommandRDATA` calls (with any `keepSpiOpen`) and data-ready
events, run on a freshly constructed session (mode Idle). At verbosity 0 the history always
runs to its end. Whenever it runs to its end, the mode is ContinuousStream if and only if the history
contains a `sendSPICommandRDATAC` with no later `sendSPICommandSDATAC`; otherwise it is
SinglePending exactly when a `sendSPICommandRDATA` was issued after the last
`sendSPICommandSDATAC` (or construction) with no data-ready event after it, and Idle in
all remaining cases. A history can fail to run to its end only in a verbose build, inside
a call rejected in ContinuousStream, and the session is then stuck in that mode. -/
theorem mode_after_history (cfg : Config)
    (chipSelectPin drdyPin resetPin startPin pwdnPin clkselPin this : Nat)
    (rawData : List Nat) (miso : Nat → Nat) (ops : List ModeOp) :
    (cfg.ADS_LIBRARY_VERBOSE_LEVEL = 0 →
      (runOps cfg (ADS129xSensor.new chipSelectPin drdyPin resetPin startPin pwdnPin clkselPin
        this rawData miso) ops).didReturn = true) ∧
    (∀ s1, runOps cfg (ADS129xSensor.new chipSelectPin drdyPin resetPin startPin pwdnPin
        clkselPin this rawData miso) ops = .returned () s1 →
      (s1.readingStatus = _ADS_READING_DATA_IN_RDATAC_MODE ↔ RdatacNotStopped ops) ∧
      (¬ RdatacNotStopped ops →
        (s1.readingStatus = _ADS_READING_DATA_IN_RDATA_MODE ↔ RdataPending ops)) ∧
      (¬ RdatacNotStopped ops → ¬ RdataPending ops →
        s1.readingStatus = _ADS_NO_READING_NEW_DATA)) ∧
    ((runOps cfg (ADS129xSensor.new chipSelectPin drdyPin resetPin startPin pwdnPin clkselPin
        this rawData miso) ops).didReturn = false →
      0 < cfg.ADS_LIBRARY_VERBOSE_LEVEL ∧
      (runOps cfg (ADS129xSensor.new chipSelectPin drdyPin resetPin startPin pwdnPin clkselPin
        this rawData miso) ops).state.readingStatus = _ADS_READING_DATA_IN_RDATAC_MODE) := by
  refine ⟨?_, ?_, runOps_halted cfg ops _⟩
  · intro hv
    by_contra hret
    have := (runOps_halted cfg ops _ (by simpa using hret)).1
    omega
  · intro s1 h
    have hm := runOps_returned_mode cfg ops _ s1 h
    have hnew : (ADS129xSensor.new chipSelectPin drdyPin resetPin startPin pwdnPin clkselPin
        this rawData miso).readingStatus = _ADS_NO_READING_NEW_DATA := rfl
    rw [hnew] at hm
    obtain ⟨h1, h2, h3, h4⟩ := foldl_modeStep_spec ops
    rw [hm]
    refine ⟨h1, ?_, ?_⟩
    · intro hn
      refine ⟨h2, fun hp => ?_⟩
      rcases h3 hp with h | h
      · exact h
      · exact absurd (h1.1 h) hn
    · intro hn hp
      rcases h4 with h | h | h
      · exact absurd (h2 h) hp
      · exact absurd (h1.1 h) hn
      · exact h

/-- Example of `mode_after_history` on `freshSession` with the shipped configuration and
`sampleHistory`: the history runs to its end and leaves the mode SinglePending. -/
theorem mode_after_history_example :
    runOps shippedConfig freshSession sampleHistory =
      .returned () (runOps shippedConfig freshSession sampleHistory).state ∧
    (runOps shippedConfig freshSession sampleHistory).state.readingStatus =
      _ADS_READING_DATA_IN_RDATA_MODE ∧
    (((runOps shippedConfig freshSession sampleHistory).state.readingStatus =
        _ADS_READING_DATA_IN_RDATAC_MODE ↔ RdatacNotStopped sampleHistory) ∧
      (¬ RdatacNotStopped sampleHistory →
        ((runOps shippedConfig freshSession sampleHistory).state.readingStatus =
          _ADS_READING_DATA_IN_RDATA_MODE ↔ RdataPending sampleHistory)) ∧
      (¬ RdatacNotStopped sampleHistory → ¬ RdataPending sampleHistory →
        (runOps shippedConfig freshSession sampleHistory).state.readingStatus =
          _ADS_NO_READING_NEW_DATA)) :=
  ⟨rfl, rfl,
    (mode_after_history shippedConfig 10 2 ADS_PIN_NOT_USED ADS_PIN_NOT_USED ADS_PIN_NOT_USED
      ADS_PIN_NOT_USED 1 (List.replicate 15 0xAA) countingChip sampleHistory).2.1 _ rfl⟩

/-- C5 (the code at the failing input): on the freshly constructed session (mode Idle)
with the shipped configuration (verbosity 1), and likewise at verbosity 2, the history
`sendSPICommandRDATAC`, `sendSPICommandRDATA`, `sendSPICommandSDATAC` does not run to its
end: the rejected `sendSPICommandRDATA` never returns, only the byte 0x10 of RDATAC reaches
the bus (the 0x11 of SDATAC is never sent) and the mode stays ContinuousStream, although
the history has no `sendSPICommandRDATAC` without a later `sendSPICommandSDATAC` and no
pending `sendSPICommandRDATA`, for which the mode should be Idle. At verbosity 0 the same
history runs to its end, puts 0x10 and 0x11 on the bus and leaves the mode Idle. -/
theorem C5_rejected_command_stops_history :
    freshSession.readingStatus = _ADS_NO_READING_NEW_DATA ∧
    shippedConfig.ADS_LIBRARY_VERBOSE_LEVEL = 1 ∧
    (runOps shippedConfig freshSession rejectedHistory).didReturn = false ∧
    (runOps shippedConfig freshSession rejectedHistory).state.readingStatus =
      _ADS_READING_DATA_IN_RDATAC_MODE ∧
    txBytes (runOps shippedConfig freshSession rejectedHistory).state.trace = [0x10] ∧
    ¬ RdatacNotStopped rejectedHistory ∧
    ¬ RdataPending rejectedHistory ∧
    _ADS_READING_DATA_IN_RDATAC_MODE ≠ _ADS_NO_READING_NEW_DATA ∧
    verboseConfig.ADS_LIBRARY_VERBOSE_LEVEL = 2 ∧
    (runOps verboseConfig freshSession rejectedHistory).didReturn = false ∧
    (runOps verboseConfig freshSession rejectedHistory).state.readingStatus =
      _ADS_READING_DATA_IN_RDATAC_MODE ∧
    quietConfig.ADS_LIBRARY_VERBOSE_LEVEL = 0 ∧
    (runOps quietConfig freshSession rejectedHistory).didReturn = true ∧
    txBytes (runOps quietConfig freshSession rejectedHistory).state.trace = [0x10, 0x11] ∧
    (runOps quietConfig freshSession rejectedHistory).state.readingStatus =
      _ADS_NO_READING_NEW_DATA := by
  have hfold : rejectedHistory.foldl modeStep _ADS_NO_READING_NEW_DATA =
      _ADS_NO_READING_NEW_DATA := by decide
  obtain ⟨h1, _, h3, _⟩ := foldl_modeStep_spec rejectedHistory
  have hc : ¬ RdatacNotStopped rejectedHistory := by
    intro h
    have := h1.2 h
    rw [hfold] at this
    exact absurd this (by decide)
  have hp : ¬ RdataPending rejectedHistory := by
    intro h
    rcases h3 h with h | h <;> rw [hfold] at h <;> exact absurd h (by decide)
  refine ⟨rfl, rfl, rfl, rfl, ?_, hc, hp, by decide, rfl, rfl, rfl, rfl, rfl, ?_, rfl⟩
  · decide
  · decide

/-! ### The consumer side and the register frames -/

/-- C11: `getData()` returns the buffer as it is and leaves the session unchanged except
for the freshness flag, which becomes false (no buffer byte, mode or bus-open flag is
altered); `hasNewDataAvailable()` is a read of the flag, so it has no effect on the state
and asking twice in the same state gives the same answer; after `getData()` it answers
false. -/
theorem C11_getData_clears_flag_only (s : ADS129xSensor) :
    s.getData.1 = s.adsData ∧
    s.getData.2 = { s with hasNewData := false } ∧
    s.getData.2.adsData = s.adsData ∧
    s.getData.2.readingStatus = s.readingStatus ∧
    s.getData.2.isSpiOpen = s.isSpiOpen ∧
    s.hasNewDataAvailable = s.hasNewData ∧
    s.getData.2.hasNewDataAvailable = false := by
  refine ⟨rfl, rfl, rfl, rfl, rfl, rfl, rfl⟩

/-- An opcode with a byte-sized address in its low bits is still a byte. -/
theorem or_byte_lt (op a : Nat) (hop : op < 256) (ha : a < 256) : (op ||| a) % 256 = op ||| a :=
  Nat.mod_eq_of_lt (Nat.or_lt_two_pow (n := 8) hop ha)

/-- C12: in every mode other than ContinuousStream, for every address byte `a` and data
byte `d`: `readRegister(a)` performs exactly three byte exchanges, sending `0x20 | a`,
0x00, 0x00, and returns the byte received during the third; `writeRegister(a, d)` performs
exactly three byte exchanges, sending `0x40 | a`, 0x00 and `d` itself. Around them the log
only shows the opening of the bus transaction (if the bus was closed), the settle delay of
a write to CONFIG1 or RESP, and the release of the transaction (unless `keepSpiOpen`). -/
theorem C12_register_frames (cfg : Config) (s : ADS129xSensor) (a d : Nat)
    (keepSpiOpen : Bool)
    (hmode : s.readingStatus ≠ _ADS_READING_DATA_IN_RDATAC_MODE)
    (ha : a < 256) (hd : d < 256) :
    (∃ s1, s.readRegister cfg a keepSpiOpen = .returned (s.miso (s.rxCount + 2) % 256) s1 ∧
      s1.trace = s.trace ++
        (if s.isSpiOpen then []
         else [.beginTransaction _ADS_SPI_MAX_SPEED _ADS_SPI_BIT_ORDER _ADS_SPI_MODE,
               .digitalWrite s.chipSelectPin .LOW]) ++
        [.transfer (0x20 ||| a) (s.miso s.rxCount % 256),
         .transfer 0x00 (s.miso (s.rxCount + 1) % 256),
         .transfer 0x00 (s.miso (s.rxCount + 2) % 256)] ++
        (if keepSpiOpen then []
         else [.digitalWrite s.chipSelectPin .HIGH, .endTransaction]) ∧
      txBytes s1.trace = txBytes s.trace ++ [0x20 ||| a, 0x00, 0x00]) ∧
    (∃ s1, s.writeRegister cfg a d keepSpiOpen = .returned () s1 ∧
      s1.trace = s.trace ++
        (if s.isSpiOpen then []
         else [.beginTransaction _ADS_SPI_MAX_SPEED _ADS_SPI_BIT_ORDER _ADS_SPI_MODE,
               .digitalWrite s.chipSelectPin .LOW]) ++
        [.transfer (0x40 ||| a) (s.miso s.rxCount % 256),
         .transfer 0x00 (s.miso (s.rxCount + 1) % 256),
         .transfer d (s.miso (s.rxCount + 2) % 256)] ++
        (if a = ads.registers.config1.REG_ADDR ∨ a = ads.registers.resp.REG_ADDR
         then [.delay _ADS_T_CLK_18] else []) ++
        (if keepSpiOpen then []
         else [.digitalWrite s.chipSelectPin .HIGH, .endTransaction]) ∧
      txBytes s1.trace = txBytes s.trace ++ [0x40 ||| a, 0x00, d]) := by
  have hr : (ads.commands.RREG ||| a) % 256 = 0x20 ||| a :=
    or_byte_lt ads.commands.RREG a (by decide) ha
  have hw : (ads.commands.WREG ||| a) % 256 = 0x40 ||| a :=
    or_byte_lt ads.commands.WREG a (by decide) ha
  have hdm : d % 256 = d := Nat.mod_eq_of_lt hd
  constructor
  · refine ⟨_, readRegister_accepted cfg s a keepSpiOpen hmode, ?_, ?_⟩
    · simp only [hr]
    · simp only [hr]
      cases s.isSpiOpen <;> cases keepSpiOpen <;>
        simp [txBytes_append] <;> simp [txBytes, Event.txBytes]
  · refine ⟨_, writeRegister_accepted cfg s a d keepSpiOpen hmode, ?_, ?_⟩
    · simp only [hw, hdm]
    · simp only [hw, hdm]
      by_cases hreg : a = ads.registers.config1.REG_ADDR ∨ a = ads.registers.resp.REG_ADDR <;>
        cases s.isSpiOpen <;> cases keepSpiOpen <;>
        simp [txBytes_append, hreg] <;> simp [txBytes, Event.txBytes]

/-- Witness of C12 on the freshly constructed session: reading CONFIG1 and writing 0x86 to
it. -/
theorem C12_register_frames_witness :
    freshSession.readingStatus ≠ _ADS_READING_DATA_IN_RDATAC_MODE ∧
    (∃ s1, freshSession.readRegister shippedConfig 0x01 false =
        .returned (freshSession.miso (freshSession.rxCount + 2) % 256) s1 ∧
      txBytes s1.trace = txBytes freshSession.trace ++ [0x20 ||| 0x01, 0x00, 0x00]) ∧
    (∃ s1, freshSession.writeRegister shippedConfig 0x01 0x86 false = .returned () s1 ∧
      txBytes s1.trace = txBytes freshSession.trace ++ [0x40 ||| 0x01, 0x00, 0x86]) :=
  have h := C12_register_frames shippedConfig freshSession 0x01 0x86 false (by decide)
    (by decide) (by decide)
  ⟨by decide, h.1.elim fun s1 h1 => ⟨s1, h1.1, h1.2.2⟩,
    h.2.elim fun s1 h1 => ⟨s1, h1.1, h1.2.2⟩⟩

/-! ### The bus-open flag on return -/

/-- An accepted system command: the pin check passed and the mode is not ContinuousStream,
so the opcode is sent by `sendCommand` and the optional settle delay follows. -/
theorem accepted_commands (cfg : Config) (s : ADS129xSensor) (keepSpiOpen : Bool)
    (hmode : s.readingStatus ≠ _ADS_READING_DATA_IN_RDATAC_MODE) :
    s.sendSPICommandWAKEUP cfg keepSpiOpen =
      .returned () ((s.sendCommand cfg ads.commands.WAKEUP keepSpiOpen).emit
        (.delayMicroseconds _ADS_T_CLK_4)) ∧
    s.sendSPICommandSTANDBY cfg keepSpiOpen =
      .returned () (s.sendCommand cfg ads.commands.STANDBY keepSpiOpen) ∧
    s.sendSPICommandRDATAC cfg keepSpiOpen =
      .returned () { (s.sendCommand cfg ads.commands.RDATAC keepSpiOpen).emit
        (.delayMicroseconds _ADS_T_CLK_4) with
        readingStatus := _ADS_READING_DATA_IN_RDATAC_MODE } ∧
    (s.resetPin = ADS_PIN_NOT_USED →
      s.sendSPICommandRESET cfg keepSpiOpen =
        .returned () ((s.sendCommand cfg ads.commands.RESET keepSpiOpen).emit
          (.delayMicroseconds _ADS_T_CLK_18))) ∧
    (s.startPin = ADS_PIN_NOT_USED →
      s.sendSPICommandSTART cfg keepSpiOpen =
        .returned () ((s.sendCommand cfg ads.commands.START keepSpiOpen).emit
          (.delayMicroseconds _ADS_T_CLK_4)) ∧
      s.sendSPICommandSTOP cfg keepSpiOpen =
        .returned () (s.sendCommand cfg ads.commands.STOP keepSpiOpen)) := by
  refine ⟨?_, ?_, ?_, ?_, ?_⟩
  · simp [ADS129xSensor.sendSPICommandWAKEUP, hmode]
  · simp [ADS129xSensor.sendSPICommandSTANDBY, hmode]
  · simp [ADS129xSensor.sendSPICommandRDATAC, hmode]
  · intro hpin
    simp [ADS129xSensor.sendSPICommandRESET, hmode, hpin, Outcome.bind]
  · intro hpin
    constructor
    · simp [ADS129xSensor.sendSPICommandSTART, hmode, hpin, Outcome.bind]
    · simp [ADS129xSensor.sendSPICommandSTOP, hmode, hpin, Outcome.bind]

/-- After `sendCommand` the bus-open flag is the `keepSpiOpen` argument. -/
theorem sendCommand_isSpiOpen (cfg : Config) (s : ADS129xSensor) (command : Nat)
    (keepSpiOpen : Bool) : (s.sendCommand cfg command keepSpiOpen).isSpiOpen = keepSpiOpen := by
  rw [sendCommand_eq]

/-- C13: every accepted bus operation returns with the bus-open flag equal to its
`keepSpiOpen` argument, whether the bus was open or closed before: `readRegister`,
`writeRegister`, `sendSPICommandWAKEUP`, `sendSPICommandSTANDBY`, `sendSPICommandRDATAC`
when the mode is not ContinuousStream, `sendSPICommandRESET` when moreover no reset pin is
given, `sendSPICommandSTART` and `sendSPICommandSTOP` when moreover no start pin is given,
and `sendSPICommandSDATAC` in any mode. -/
theorem C13_bus_flag_equals_keepSpiOpen (cfg : Config) (s : ADS129xSensor) (a d : Nat)
    (keepSpiOpen : Bool) :
    (s.readingStatus ≠ _ADS_READING_DATA_IN_RDATAC_MODE →
      ReturnsWithBus (s.readRegister cfg a keepSpiOpen) keepSpiOpen ∧
      ReturnsWithBus (s.writeRegister cfg a d keepSpiOpen) keepSpiOpen ∧
      ReturnsWithBus (s.sendSPICommandWAKEUP cfg keepSpiOpen) keepSpiOpen ∧
      ReturnsWithBus (s.sendSPICommandSTANDBY cfg keepSpiOpen) keepSpiOpen ∧
      ReturnsWithBus (s.sendSPICommandRDATAC cfg keepSpiOpen) keepSpiOpen ∧
      (s.resetPin = ADS_PIN_NOT_USED →
        ReturnsWithBus (s.sendSPICommandRESET cfg keepSpiOpen) keepSpiOpen) ∧
      (s.startPin = ADS_PIN_NOT_USED →
        ReturnsWithBus (s.sendSPICommandSTART cfg keepSpiOpen) keepSpiOpen ∧
        ReturnsWithBus (s.sendSPICommandSTOP cfg keepSpiOpen) keepSpiOpen)) ∧
    ReturnsWithBus (s.sendSPICommandSDATAC cfg keepSpiOpen) keepSpiOpen := by
  constructor
  · intro hmode
    obtain ⟨hw, hs, hc, hr, hst⟩ := accepted_commands cfg s keepSpiOpen hmode
    refine ⟨⟨_, _, readRegister_accepted cfg s a keepSpiOpen hmode, rfl⟩,
      ⟨_, _, writeRegister_accepted cfg s a d keepSpiOpen hmode, rfl⟩,
      ⟨_, _, hw, ?_⟩, ⟨_, _, hs, ?_⟩, ⟨_, _, hc, ?_⟩, ?_, ?_⟩
    · simp [ADS129xSensor.emit, sendCommand_isSpiOpen]
    · simp [sendCommand_isSpiOpen]
    · simp [ADS129xSensor.emit, sendCommand_isSpiOpen]
    · intro hpin
      exact ⟨_, _, hr hpin, by simp [ADS129xSensor.emit, sendCommand_isSpiOpen]⟩
    · intro hpin
      exact ⟨⟨_, _, (hst hpin).1, by simp [ADS129xSensor.emit, sendCommand_isSpiOpen]⟩,
        ⟨_, _, (hst hpin).2, by simp [sendCommand_isSpiOpen]⟩⟩
  · exact ⟨_, _, sendSPICommandSDATAC_eq cfg s keepSpiOpen, rfl⟩

/-- Witness of C13 on the freshly constructed session (Idle, no optional pin), with
`keepSpiOpen = true`. -/
theorem C13_bus_flag_equals_keepSpiOpen_witness :
    freshSession.readingStatus ≠ _ADS_READING_DATA_IN_RDATAC_MODE ∧
    freshSession.resetPin = ADS_PIN_NOT_USED ∧
    freshSession.startPin = ADS_PIN_NOT_USED ∧
    ReturnsWithBus (freshSession.writeRegister shippedConfig 0x01 0x86 true) true ∧
    ReturnsWithBus (freshSession.sendSPICommandRESET shippedConfig true) true ∧
    ReturnsWithBus (freshSession.sendSPICommandSTOP shippedConfig true) true :=
  have h := (C13_bus_flag_equals_keepSpiOpen shippedConfig freshSession 0x01 0x86 true).1
    (by decide)
  ⟨by decide, rfl, rfl, h.2.1, h.2.2.2.2.2.1 rfl, (h.2.2.2.2.2.2 rfl).2⟩

/-- A call rejected in ContinuousStream leaves the bus-open flag as it was, and at
verbosity 0 it returns the session unchanged. -/
theorem rejected_bus_flag {α : Type} (cfg : Config) (msg : String) (s : ADS129xSensor)
    (v : α) :
    ((_ADS_WARNING cfg msg s).bind fun _ s1 => Outcome.returned v s1).state.isSpiOpen =
      s.isSpiOpen ∧
    (cfg.ADS_LIBRARY_VERBOSE_LEVEL = 0 →
      ReturnsWithBus ((_ADS_WARNING cfg msg s).bind fun _ s1 => Outcome.returned v s1)
        s.isSpiOpen) := by
  unfold _ADS_WARNING
  split
  · next hv =>
    exact ⟨rfl, fun h0 => by omega⟩
  · exact ⟨rfl, fun _ => ⟨v, s, rfl, rfl⟩⟩

/-- C14 (counterexample): at verbosity 0, `writeRegister(0x01, 0x86, false)` issued right
after `sendSPICommandRDATAC(true)` on a fresh session returns with the bus transaction
still open. -/
theorem C14_counterexample_rejected_write_keeps_bus_open :
    (freshSession.sendSPICommandRDATAC quietConfig true).didReturn = true ∧
    ((freshSession.sendSPICommandRDATAC quietConfig true).state.writeRegister quietConfig
      0x01 0x86 false).didReturn = true ∧
    ((freshSession.sendSPICommandRDATAC quietConfig true).state.writeRegister quietConfig
      0x01 0x86 false).state.isSpiOpen = true := by
  refine ⟨rfl, rfl, rfl⟩

/-- C14 (amended): called with `keepSpiOpen = false`, every accepted bus operation returns
with the bus transaction released: `readRegister`, `writeRegister`,
`sendSPICommandWAKEUP`, `sendSPICommandSTANDBY`, `sendSPICommandRDATAC` in a mode other than
ContinuousStream (`sendSPICommandRESET`, `sendSPICommandSTART`, `sendSPICommandSTOP` when
moreover their pin is unused), and `sendSPICommandSDATAC` in any mode. A call rejected
because the mode is ContinuousStream does not release anything: it leaves the bus-open
flag as it was, and at verbosity 0 it returns with that flag. `sendSPICommandRDATA`, which
never uses the bus, also leaves the flag as it was. -/
theorem C14_release_when_accepted (cfg : Config) (s : ADS129xSensor) (a d : Nat) :
    (s.readingStatus ≠ _ADS_READING_DATA_IN_RDATAC_MODE →
      ReturnsWithBus (s.readRegister cfg a false) false ∧
      ReturnsWithBus (s.writeRegister cfg a d false) false ∧
      ReturnsWithBus (s.sendSPICommandWAKEUP cfg false) false ∧
      ReturnsWithBus (s.sendSPICommandSTANDBY cfg false) false ∧
      ReturnsWithBus (s.sendSPICommandRDATAC cfg false) false ∧
      (s.resetPin = ADS_PIN_NOT_USED →
        ReturnsWithBus (s.sendSPICommandRESET cfg false) false) ∧
      (s.startPin = ADS_PIN_NOT_USED →
        ReturnsWithBus (s.sendSPICommandSTART cfg false) false ∧
        ReturnsWithBus (s.sendSPICommandSTOP cfg false) false) ∧
      ReturnsWithBus (s.sendSPICommandRDATA cfg false) s.isSpiOpen) ∧
    ReturnsWithBus (s.sendSPICommandSDATAC cfg false) false ∧
    (s.readingStatus = _ADS_READING_DATA_IN_RDATAC_MODE →
      ∀ o ∈ [(s.readRegister cfg a false).state, (s.writeRegister cfg a d false).state,
          (s.sendSPICommandWAKEUP cfg false).state, (s.sendSPICommandSTANDBY cfg false).state,
          (s.sendSPICommandRDATAC cfg false).state, (s.sendSPICommandRDATA cfg false).state],
        o.isSpiOpen = s.isSpiOpen) ∧
    (s.readingStatus = _ADS_READING_DATA_IN_RDATAC_MODE →
      cfg.ADS_LIBRARY_VERBOSE_LEVEL = 0 →
      ReturnsWithBus (s.readRegister cfg a false) s.isSpiOpen ∧
      ReturnsWithBus (s.writeRegister cfg a d false) s.isSpiOpen) := by
  refine ⟨?_, ⟨_, _, sendSPICommandSDATAC_eq cfg s false, rfl⟩, ?_, ?_⟩
  · intro hmode
    obtain ⟨hw, hs, hc, hr, hst⟩ := accepted_commands cfg s false hmode
    refine ⟨⟨_, _, readRegister_accepted cfg s a false hmode, rfl⟩,
      ⟨_, _, writeRegister_accepted cfg s a d false hmode, rfl⟩,
      ⟨_, _, hw, ?_⟩, ⟨_, _, hs, ?_⟩, ⟨_, _, hc, ?_⟩, ?_, ?_, ?_⟩
    · simp [ADS129xSensor.emit, sendCommand_isSpiOpen]
    · simp [sendCommand_isSpiOpen]
    · simp [ADS129xSensor.emit, sendCommand_isSpiOpen]
    · intro hpin
      exact ⟨_, _, hr hpin, by simp [ADS129xSensor.emit, sendCommand_isSpiOpen]⟩
    · intro hpin
      exact ⟨⟨_, _, (hst hpin).1, by simp [ADS129xSensor.emit, sendCommand_isSpiOpen]⟩,
        ⟨_, _, (hst hpin).2, by simp [sendCommand_isSpiOpen]⟩⟩
    · unfold ADS129xSensor.sendSPICommandRDATA
      rw [if_neg hmode]
      refine ⟨_, _, rfl, ?_⟩
      split <;> rfl
  · intro hmode o ho
    simp only [List.mem_cons, List.mem_singleton, List.not_mem_nil, or_false] at ho
    rcases ho with h | h | h | h | h | h <;> subst h
    · unfold ADS129xSensor.readRegister
      rw [if_pos hmode]
      exact (rejected_bus_flag cfg _ s _).1
    · unfold ADS129xSensor.writeRegister
      rw [if_pos hmode]
      exact (rejected_bus_flag cfg _ s _).1
    · unfold ADS129xSensor.sendSPICommandWAKEUP
      rw [if_pos hmode]
      exact (rejected_bus_flag cfg _ s _).1
    · unfold ADS129xSensor.sendSPICommandSTANDBY
      rw [if_pos hmode]
      exact (rejected_bus_flag cfg _ s _).1
    · unfold ADS129xSensor.sendSPICommandRDATAC
      rw [if_pos hmode]
      exact (rejected_bus_flag cfg _ s _).1
    · unfold ADS129xSensor.sendSPICommandRDATA
      rw [if_pos hmode]
      exact (rejected_bus_flag cfg _ s _).1
  · intro hmode hv
    constructor
    · unfold ADS129xSensor.readRegister
      rw [if_pos hmode]
      exact (rejected_bus_flag cfg _ s _).2 hv
    · unfold ADS129xSensor.writeRegister
      rw [if_pos hmode]
      exact (rejected_bus_flag cfg _ s _).2 hv

/-- Witness of C14: on the fresh session an accepted write with `keepSpiOpen = false`
returns with the bus released; on the session left by `sendSPICommandRDATAC(true)` (bus
open, ContinuousStream) the rejected write returns, at verbosity 0, with the bus still
open. -/
theorem C14_release_when_accepted_witness :
    freshSession.readingStatus ≠ _ADS_READING_DATA_IN_RDATAC_MODE ∧
    ReturnsWithBus (freshSession.writeRegister quietConfig 0x01 0x86 false) false ∧
    (freshSession.sendSPICommandRDATAC quietConfig true).state.readingStatus =
      _ADS_READING_DATA_IN_RDATAC_MODE ∧
    quietConfig.ADS_LIBRARY_VERBOSE_LEVEL = 0 ∧
    ReturnsWithBus ((freshSession.sendSPICommandRDATAC quietConfig true).state.writeRegister
      quietConfig 0x01 0x86 false)
      (freshSession.sendSPICommandRDATAC quietConfig true).state.isSpiOpen :=
  ⟨by decide,
    ((C14_release_when_accepted quietConfig freshSession 0x01 0x86).1 (by decide)).2.1,
    rfl, rfl,
    ((C14_release_when_accepted quietConfig
      (freshSession.sendSPICommandRDATAC quietConfig true).state 0x01 0x86).2.2.2 rfl rfl).2⟩

/-! ### The batch reset of the registers -/

/-- Sequencing is associative. -/
theorem Outcome.bind_assoc {α β γ : Type} (o : Outcome α)
    (f : α → ADS129xSensor → Outcome β) (g : β → ADS129xSensor → Outcome γ) :
    (o.bind f).bind g = o.bind fun v s => (f v s).bind g := by
  cases o <;> rfl

/-- Returning right after a call adds nothing to it. -/
theorem Outcome.bind_returned (o : Outcome Unit) :
    (o.bind fun _ s => Outcome.returned () s) = o := by
  cases o <;> rfl

/-- Sequencing after a call that returned runs the continuation. -/
theorem Outcome.returned_bind {α β : Type} (v : α) (s : ADS129xSensor)
    (f : α → ADS129xSensor → Outcome β) : (Outcome.returned v s).bind f = f v s := rfl

/-- A batch of writes split in two. -/
theorem writeAll_append (cfg : Config) (l1 l2 : List (Nat × Nat)) :
    ∀ s : ADS129xSensor,
      writeAll cfg s (l1 ++ l2) = (writeAll cfg s l1).bind fun _ s1 => writeAll cfg s1 l2 := by
  induction l1 with
  | nil => intro s; rfl
  | cons p l1 ih =>
    intro s
    obtain ⟨a, d⟩ := p
    simp only [List.cons_append, writeAll, Outcome.bind_assoc]
    congr 1
    funext _ s1
    exact ih s1

/-- The channel loop is the batch of writes to `f 0`, ..., `f (n - 1)`. -/
theorem forLoop_writes (cfg : Config) (f : Nat → Nat) (v : Nat) (n : Nat)
    (s : ADS129xSensor) :
    ADS129xSensor.forLoop n (fun i s1 => s1.writeRegister cfg (f i) v true) s =
      writeAll cfg s ((List.range n).map fun i => (f i, v)) := by
  induction n with
  | zero => rfl
  | succ n ih =>
    unfold ADS129xSensor.forLoop at ih ⊢
    rw [List.range_succ, List.foldl_append, ih, List.map_append, writeAll_append]
    simp only [List.foldl_cons, List.foldl_nil, List.map_cons, List.map_nil, writeAll,
      Outcome.bind_returned]

/-- The method is the batch of the writes that keep the bus open, followed by the write of
WCT2 with the caller's `keepSpiOpen`. -/
theorem setAll_eq_writeAll (cfg : Config) (s : ADS129xSensor) (keepSpiOpen : Bool) :
    s.setAllRegisterToResetValuesWithoutResetCommand cfg keepSpiOpen =
      (writeAll cfg s (resetWritesKeptOpen cfg)).bind fun _ s1 =>
        s1.writeRegister cfg ads.registers.wct2.REG_ADDR
          (ads.registers.wct2.RESET_VALUE ||| ads.registers.wct2.RESERVED_BITS)
          keepSpiOpen := by
  unfold ADS129xSensor.setAllRegisterToResetValuesWithoutResetCommand resetWritesKeptOpen
  rw [writeAll_append, writeAll_append]
  simp only [forLoop_writes, writeAll, Outcome.bind_assoc, Outcome.bind_returned,
    Outcome.returned_bind]

/-- No event of a write frame opens or closes a bus transaction. -/
theorem writeFrame_not_framing (miso : Nat → Nat) (rx a d : Nat) :
    ∀ e ∈ writeFrame miso rx a d, Event.isFraming e = false := by
  intro e he
  unfold writeFrame at he
  split at he
  · simp at he
    rcases he with h | h | h | h <;> subst h <;> rfl
  · simp at he
    rcases he with h | h | h <;> subst h <;> rfl

/-- No event of a batch of write frames opens or closes a bus transaction. -/
theorem writeFrames_not_framing (miso : Nat → Nat) (l : List (Nat × Nat)) :
    ∀ rx, ∀ e ∈ writeFrames miso rx l, Event.isFraming e = false := by
  induction l with
  | nil => intro rx e he; simp [writeFrames] at he
  | cons p l ih =>
    intro rx e he
    obtain ⟨a, d⟩ := p
    simp only [writeFrames, List.mem_append] at he
    rcases he with h | h
    · exact writeFrame_not_framing miso rx a d e h
    · exact ih (rx + 3) e h

/-- Normal form of a batch of writes that starts with the bus open. -/
theorem writeAll_open (cfg : Config) (l : List (Nat × Nat)) :
    ∀ s : ADS129xSensor, s.readingStatus ≠ _ADS_READING_DATA_IN_RDATAC_MODE →
      s.isSpiOpen = true →
      writeAll cfg s l =
        .returned ()
          { s with
            rxCount := s.rxCount + 3 * l.length
            trace := s.trace ++ writeFrames s.miso s.rxCount l } := by
  induction l with
  | nil =>
    intro s _ _
    simp [writeAll, writeFrames]
  | cons p l ih =>
    intro s hmode hopen
    obtain ⟨a, d⟩ := p
    rw [writeAll, writeRegister_accepted cfg s a d true hmode, Outcome.returned_bind, ih]
    · cases s with
      | mk o n r c dr rs st pw ck buf th gi tr mi rx =>
        simp only at hopen
        subst hopen
        simp [writeFrames, writeFrame]
        omega
    · exact hmode
    · rfl

/-- Normal form of a non-empty batch of writes, whatever the state of the bus before. -/
theorem writeAll_cons (cfg : Config) (s : ADS129xSensor) (a d : Nat) (l : List (Nat × Nat))
    (hmode : s.readingStatus ≠ _ADS_READING_DATA_IN_RDATAC_MODE) :
    writeAll cfg s ((a, d) :: l) =
      .returned ()
        { s with
          isSpiOpen := true
          rxCount := s.rxCount + 3 * (l.length + 1)
          trace := s.trace ++
            (if s.isSpiOpen then []
             else [.beginTransaction _ADS_SPI_MAX_SPEED _ADS_SPI_BIT_ORDER _ADS_SPI_MODE,
                   .digitalWrite s.chipSelectPin .LOW]) ++
            writeFrames s.miso s.rxCount ((a, d) :: l) } := by
  rw [writeAll, writeRegister_accepted cfg s a d true hmode, Outcome.returned_bind,
    writeAll_open cfg l]
  · simp [writeFrames, writeFrame]
    omega
  · exact hmode
  · rfl

/-- Normal form of `setAllRegisterToResetValuesWithoutResetCommand` in a mode other than
ContinuousStream: the bus is opened if it was closed, the frames of the writes follow
one another, the frame of WCT2 comes last, and the bus is released unless
`keepSpiOpen`. -/
theorem setAll_eq (cfg : Config) (s : ADS129xSensor) (keepSpiOpen : Bool)
    (hmode : s.readingStatus ≠ _ADS_READING_DATA_IN_RDATAC_MODE) :
    s.setAllRegisterToResetValuesWithoutResetCommand cfg keepSpiOpen =
      .returned ()
        { s with
          isSpiOpen := keepSpiOpen
          rxCount := s.rxCount + 3 * ((resetWritesKeptOpen cfg).length + 1)
          trace := s.trace ++
            (if s.isSpiOpen then []
             else [.beginTransaction _ADS_SPI_MAX_SPEED _ADS_SPI_BIT_ORDER _ADS_SPI_MODE,
                   .digitalWrite s.chipSelectPin .LOW]) ++
            writeFrames s.miso s.rxCount (resetWritesKeptOpen cfg) ++
            writeFrame s.miso (s.rxCount + 3 * (resetWritesKeptOpen cfg).length)
              ads.registers.wct2.REG_ADDR
              (ads.registers.wct2.RESET_VALUE ||| ads.registers.wct2.RESERVED_BITS) ++
            (if keepSpiOpen then []
             else [.digitalWrite s.chipSelectPin .HIGH, .endTransaction]) } := by
  obtain ⟨p, rest, hl⟩ : ∃ p rest, resetWritesKeptOpen cfg = p :: rest := ⟨_, _, rfl⟩
  obtain ⟨a, d⟩ := p
  rw [setAll_eq_writeAll, hl, writeAll_cons cfg s a d rest hmode, Outcome.returned_bind,
    writeRegister_accepted]
  · cases keepSpiOpen <;> simp [writeFrame] <;> omega
  · exact hmode

/-- C16: starting with the bus closed and a mode other than ContinuousStream,
`setAllRegisterToResetValuesWithoutResetCommand(keepSpiOpen)` returns with a log that
opens the bus transaction once, right before the first write (opcode 0x41, CONFIG1), has
no opening or closing of a transaction and no chip-select change up to and including the
last write (WCT2: 0x59, 0x00, 0x00), and ends with one release of the transaction when
`keepSpiOpen` is false and with no release when it is true; the bus-open flag on return
is `keepSpiOpen`. -/
theorem C16_batch_reset_single_transaction (cfg : Config) (s : ADS129xSensor)
    (keepSpiOpen : Bool) (hopen : s.isSpiOpen = false)
    (hmode : s.readingStatus ≠ _ADS_READING_DATA_IN_RDATAC_MODE) :
    ∃ s1 body q0 r0 r1 r2,
      s.setAllRegisterToResetValuesWithoutResetCommand cfg keepSpiOpen = .returned () s1 ∧
      s1.trace = s.trace ++
        [.beginTransaction _ADS_SPI_MAX_SPEED _ADS_SPI_BIT_ORDER _ADS_SPI_MODE,
         .digitalWrite s.chipSelectPin .LOW,
         .transfer 0x41 q0] ++ body ++
        [.transfer 0x59 r0, .transfer 0x00 r1, .transfer 0x00 r2] ++
        (if keepSpiOpen then []
         else [.digitalWrite s.chipSelectPin .HIGH, .endTransaction]) ∧
      (∀ e ∈ body, Event.isFraming e = false) ∧
      s1.isSpiOpen = keepSpiOpen := by
  obtain ⟨rest, hl⟩ : ∃ rest, resetWritesKeptOpen cfg = (0x01, 0x06) :: rest := ⟨_, rfl⟩
  refine ⟨_, [.transfer 0x00 (s.miso (s.rxCount + 1) % 256),
      .transfer 0x06 (s.miso (s.rxCount + 2) % 256), .delay _ADS_T_CLK_18] ++
      writeFrames s.miso (s.rxCount + 3) rest, s.miso s.rxCount % 256,
    s.miso (s.rxCount + 3 * (resetWritesKeptOpen cfg).length) % 256,
    s.miso (s.rxCount + 3 * (resetWritesKeptOpen cfg).length + 1) % 256,
    s.miso (s.rxCount + 3 * (resetWritesKeptOpen cfg).length + 2) % 256,
    setAll_eq cfg s keepSpiOpen hmode, ?_, ?_, rfl⟩
  · rw [hl]
    simp [hopen, writeFrames, writeFrame, ads.registers.config1.REG_ADDR,
      ads.registers.resp.REG_ADDR, ads.registers.wct2.REG_ADDR,
      ads.registers.wct2.RESET_VALUE, ads.registers.wct2.RESERVED_BITS, ads.commands.WREG]
  · intro e he
    rcases List.mem_append.1 he with h | h
    · simp at h
      rcases h with h | h | h <;> subst h <;> rfl
    · exact writeFrames_not_framing s.miso rest _ e h

/-- Witness of C16 on the freshly constructed session, releasing the bus at the end. -/
theorem C16_batch_reset_single_transaction_witness :
    freshSession.isSpiOpen = false ∧
    freshSession.readingStatus ≠ _ADS_READING_DATA_IN_RDATAC_MODE ∧
    ∃ s1 body q0 r0 r1 r2,
      freshSession.setAllRegisterToResetValuesWithoutResetCommand shippedConfig false =
        .returned () s1 ∧
      s1.trace = freshSession.trace ++
        [.beginTransaction _ADS_SPI_MAX_SPEED _ADS_SPI_BIT_ORDER _ADS_SPI_MODE,
         .digitalWrite freshSession.chipSelectPin .LOW,
         .transfer 0x41 q0] ++ body ++
        [.transfer 0x59 r0, .transfer 0x00 r1, .transfer 0x00 r2] ++
        (if false = true then []
         else [.digitalWrite freshSession.chipSelectPin .HIGH, .endTransaction]) ∧
      (∀ e ∈ body, Event.isFraming e = false) ∧
      s1.isSpiOpen = false :=
  ⟨rfl, by decide,
    C16_batch_reset_single_transaction shippedConfig freshSession false rfl (by decide)⟩

/-- C15 (the code at the failing inputs): on a fresh session (Idle) the register writes put
on the bus by `setAllRegisterToResetValuesWithoutResetCommand(false)` are, for the
4-channel build, to the addresses 0x01, 0x02, 0x03, 0x04, 0x04, 0x05, 0x06, 0x07, 0x0D, ...
0x19: the channel loop starts at `_BASE_REG_ADDR + 0`, so LOFF (0x04) is written twice and
CH4SET (0x08) is never written. Likewise CH6SET (0x0A) is skipped in the 6-channel build
and CH8SET (0x0C) in the 8-channel build. -/
theorem C15_channel_loop_starts_at_LOFF :
    writesOf (txBytes
      (freshSession.setAllRegisterToResetValuesWithoutResetCommand shippedConfig false).state.trace)
      = [(0x01, 0x06), (0x02, 0x00), (0x03, 0x40), (0x04, 0x00),
         (0x04, 0x00), (0x05, 0x00), (0x06, 0x00), (0x07, 0x00),
         (0x0D, 0x00), (0x0E, 0x00), (0x0F, 0x00), (0x10, 0x00), (0x11, 0x00),
         (0x14, 0x0F), (0x15, 0x00), (0x16, 0x20), (0x17, 0x00), (0x18, 0x00), (0x19, 0x00)] ∧
    (writesOf (txBytes
      (freshSession.setAllRegisterToResetValuesWithoutResetCommand config1296 false).state.trace)).map
        Prod.fst
      = [0x01, 0x02, 0x03, 0x04, 0x04, 0x05, 0x06, 0x07, 0x08, 0x09,
         0x0D, 0x0E, 0x0F, 0x10, 0x11, 0x14, 0x15, 0x16, 0x17, 0x18, 0x19] ∧
    (writesOf (txBytes
      (freshSession.setAllRegisterToResetValuesWithoutResetCommand config1298 false).state.trace)).map
        Prod.fst
      = [0x01, 0x02, 0x03, 0x04, 0x04, 0x05, 0x06, 0x07, 0x08, 0x09, 0x0A, 0x0B,
         0x0D, 0x0E, 0x0F, 0x10, 0x11, 0x14, 0x15, 0x16, 0x17, 0x18, 0x19] := by
  refine ⟨?_, ?_, ?_⟩ <;> rfl

/-! ### Bring-up -/

/-- The method `begin()` cut into its parts. -/
theorem begin_parts (cfg : Config) (s : ADS129xSensor) :
    s.begin cfg =
      ((if s._ADS129xSensorPrivateInstance_ = 0 then
          Outcome.returned () { s with _ADS129xSensorPrivateInstance_ := s.this }
        else _ADS_ERROR cfg ADS129xSensor.msgDuplicate s).bind fun _ s =>
      ((s.beginPrologue cfg).beginOptionalPins cfg).bind fun _ s =>
      (s.resetADS cfg).bind fun _ s =>
      (s.sendSPICommandSDATAC cfg false).bind fun _ s =>
      (s.readRegister cfg ads.registers.id.REG_ADDR false).bind fun idRegister s =>
      (if idRegister ≠ ADS129xSensor.correctIdChip cfg then
          _ADS_ERROR cfg ADS129xSensor.msgIdentity s
        else .returned () s).bind fun _ s =>
      .returned ()
        (if cfg.ADS_LIBRARY_VERBOSE_LEVEL > 0 then
          s.emit (.serialPrintln "Power-up sequency completed")
        else s)) := by
  unfold ADS129xSensor.begin ADS129xSensor.beginOptionalPins ADS129xSensor.beginPrologue
  simp only [Outcome.bind_assoc, Outcome.returned_bind]

/-- Normal form of the first part of `begin()`. -/
theorem beginPrologue_eq (cfg : Config) (s : ADS129xSensor) :
    s.beginPrologue cfg =
      { s with trace := s.trace ++
          ([.spiBegin, .pinMode s.chipSelectPin .OUTPUT, .digitalWrite s.chipSelectPin .HIGH,
            .pinMode s.drdyPin .INPUT, .attachInterrupt s.drdyPin,
            .usingInterrupt s.drdyPin] ++
          (if cfg.ADS_LIBRARY_VERBOSE_LEVEL > 0 then
            [.serialPrintln "Starting power-up sequency"] else []) ++
          [.delay _ADS_POWER_UP_DELAY_MS]) } := by
  unfold ADS129xSensor.beginPrologue
  by_cases hv : cfg.ADS_LIBRARY_VERBOSE_LEVEL > 0 <;> simp [ADS129xSensor.emit, hv]

/-- Normal form of the configuration of the optional pins in `begin()`. -/
theorem beginOptionalPins_eq (cfg : Config) (s : ADS129xSensor) :
    s.beginOptionalPins cfg =
      .returned ()
        { s with trace := s.trace ++
            ((if s.clkselPin ≠ ADS_PIN_NOT_USED then
               [.pinMode s.clkselPin .OUTPUT, .digitalWrite s.clkselPin .LOW] else []) ++
            (if s.startPin ≠ ADS_PIN_NOT_USED then
               [.pinMode s.startPin .OUTPUT, .digitalWrite s.startPin .LOW,
                .delay _ADS_T_CLK_2]
             else []) ++
            (if s.pwdnPin ≠ ADS_PIN_NOT_USED then
               [.pinMode s.pwdnPin .OUTPUT, .digitalWrite s.pwdnPin .HIGH,
                .delayMicroseconds 150]
             else []) ++
            (if s.resetPin ≠ ADS_PIN_NOT_USED then
               [.pinMode s.resetPin .OUTPUT, .digitalWrite s.resetPin .HIGH] else [])) } := by
  unfold ADS129xSensor.beginOptionalPins
  cases s with
  | mk o n r c dr rs st pw ck buf th gi tr mi rx =>
    by_cases hc : ck = ADS_PIN_NOT_USED <;>
      by_cases hs : st = ADS_PIN_NOT_USED <;>
      by_cases hp : pw = ADS_PIN_NOT_USED <;>
      by_cases hr : rs = ADS_PIN_NOT_USED <;>
      simp [hc, hs, hp, hr, Outcome.bind, ADS129xSensor.emit,
        ADS129xSensor.enableExternalClockSource, ADS129xSensor.disableHardwareStartMode,
        ADS129xSensor.disableHardwarePowerDownMode]

/-- Normal form of `resetADS()`: it always returns, in mode RDATAC; on the software path
the bus is left open after SDATAC and RESET, on the hardware path the reset pin is pulsed
and the bus is not used. -/
theorem resetADS_eq (cfg : Config) (s : ADS129xSensor) :
    s.resetADS cfg =
      .returned ()
        { s with
          isSpiOpen := if s.resetPin = ADS_PIN_NOT_USED then true else s.isSpiOpen
          readingStatus := _ADS_READING_DATA_IN_RDATAC_MODE
          rxCount := s.rxCount + (if s.resetPin = ADS_PIN_NOT_USED then 2 else 0)
          trace := s.trace ++
            (if s.resetPin = ADS_PIN_NOT_USED then
              openingLog s ++
              [.transfer 0x11 (s.miso s.rxCount % 256)] ++ commandEcho cfg 0x11 ++
              [.delayMicroseconds _ADS_T_CLK_4] ++
              [.transfer 0x06 (s.miso (s.rxCount + 1) % 256)] ++ commandEcho cfg 0x06 ++
              [.delayMicroseconds _ADS_T_CLK_18]
            else
              [.digitalWrite s.resetPin .LOW, .delay _ADS_T_CLK_2,
               .digitalWrite s.resetPin .HIGH]) } := by
  have hidle : _ADS_NO_READING_NEW_DATA ≠ _ADS_READING_DATA_IN_RDATAC_MODE := by decide
  unfold ADS129xSensor.resetADS
  cases s with
  | mk o n r c dr rs st pw ck buf th gi tr mi rx =>
    by_cases hr : rs = ADS_PIN_NOT_USED
    · by_cases hv : cfg.ADS_LIBRARY_VERBOSE_LEVEL > 1 <;> cases o <;>
        simp [hr, hv, hidle, sendSPICommandSDATAC_eq, ADS129xSensor.sendSPICommandRESET,
          Outcome.bind, sendCommand_eq, ADS129xSensor.emit, openingLog, commandEcho,
          _ADS_T_CLK_4_eq, _ADS_T_CLK_18_eq, ads.commands.RESET]
    · simp [hr, ADS129xSensor.doHardwareReset, Outcome.bind, ADS129xSensor.emit]

/-- Normal form of `begin()` on a session with no instance registered: it reaches the
identity check in the state `afterIdentityRead`, having read `identityByte`, and then
either stops in `_ADS_ERROR` or prints the completion message and returns. -/
theorem begin_eq (cfg : Config) (s : ADS129xSensor)
    (h0 : s._ADS129xSensorPrivateInstance_ = 0) :
    s.begin cfg =
      ((if identityByte s ≠ ADS129xSensor.correctIdChip cfg then
          _ADS_ERROR cfg ADS129xSensor.msgIdentity (afterIdentityRead cfg s)
        else .returned () (afterIdentityRead cfg s)).bind fun _ s1 =>
      .returned ()
        (if cfg.ADS_LIBRARY_VERBOSE_LEVEL > 0 then
          s1.emit (.serialPrintln "Power-up sequency completed")
        else s1)) := by
  have hidle : _ADS_NO_READING_NEW_DATA ≠ _ADS_READING_DATA_IN_RDATAC_MODE := by decide
  rw [begin_parts, if_pos h0, Outcome.returned_bind, beginPrologue_eq, beginOptionalPins_eq,
    Outcome.returned_bind, resetADS_eq, Outcome.returned_bind, sendSPICommandSDATAC_eq,
    Outcome.returned_bind, readRegister_accepted cfg _ _ _ hidle, Outcome.returned_bind]
  have hstate : ∀ (v : Nat) (s1 s2 : ADS129xSensor), s1 = s2 → v = identityByte s →
      ((if v ≠ ADS129xSensor.correctIdChip cfg then
          _ADS_ERROR cfg ADS129xSensor.msgIdentity s1
        else Outcome.returned () s1).bind fun _ s3 =>
        Outcome.returned ()
          (if cfg.ADS_LIBRARY_VERBOSE_LEVEL > 0 then
            s3.emit (.serialPrintln "Power-up sequency completed")
          else s3)) =
      ((if identityByte s ≠ ADS129xSensor.correctIdChip cfg then
          _ADS_ERROR cfg ADS129xSensor.msgIdentity s2
        else Outcome.returned () s2).bind fun _ s3 =>
        Outcome.returned ()
          (if cfg.ADS_LIBRARY_VERBOSE_LEVEL > 0 then
            s3.emit (.serialPrintln "Power-up sequency completed")
          else s3)) := by
    intro v s1 s2 h1 h2
    subst h1 h2
    rfl
  apply hstate
  · cases s with
    | mk o n r c dr rs st pw ck buf th gi tr mi rx =>
      by_cases hr : rs = ADS_PIN_NOT_USED <;>
        by_cases hv : cfg.ADS_LIBRARY_VERBOSE_LEVEL > 1 <;>
        simp [afterIdentityRead, beginSetupLog, beginResetLog, identityReadLog, identityByte,
          exchangesBeforeIdentity, openingLog, commandEcho, hr, hv, _ADS_T_CLK_4_eq,
          ads.commands.RREG, ads.registers.id.REG_ADDR]
  · cases s with
    | mk o n r c dr rs st pw ck buf th gi tr mi rx =>
      by_cases hr : rs = ADS_PIN_NOT_USED <;>
        simp [identityByte, exchangesBeforeIdentity, hr]

/-- C19: `begin()` called while an instance is registered (the global pointer is not null)
never returns, at every verbosity level: the program stops in `_ADS_ERROR` in the state it
was called in, the log having gained diagnostic (Serial) entries only, so before any pin
configuration, interrupt arming or bus activity, and with the registered instance
unchanged. -/
theorem C19_duplicate_session_is_fatal (cfg : Config) (s : ADS129xSensor)
    (hreg : s._ADS129xSensorPrivateInstance_ ≠ 0) :
    ∃ log, (∀ e ∈ log, Event.isSerial e = true) ∧
      s.begin cfg = .halted { s with trace := s.trace ++ log } := by
  rw [begin_parts, if_neg hreg]
  unfold _ADS_ERROR
  split
  · refine ⟨[.serialPrint "Error: ", .serialPrintln ADS129xSensor.msgDuplicate,
      .serialPrintln "Stopping program execution"], ?_, ?_⟩
    · intro e he
      simp at he
      rcases he with h | h | h <;> subst h <;> rfl
    · simp [Outcome.bind, ADS129xSensor.emit]
  · exact ⟨[], by simp, by simp [Outcome.bind]⟩

/-- Witness of C19: `begin()` on a second session while the session at address 1 is
registered. -/
theorem C19_duplicate_session_is_fatal_witness :
    secondSession._ADS129xSensorPrivateInstance_ ≠ 0 ∧
    ∃ log, (∀ e ∈ log, Event.isSerial e = true) ∧
      secondSession.begin shippedConfig =
        .halted { secondSession with trace := secondSession.trace ++ log } :=
  ⟨by decide, C19_duplicate_session_is_fatal shippedConfig secondSession (by decide)⟩

/-- The state in which `_ADS_ERROR` stops the program differs from the state it was
called in by diagnostic log entries only. -/
theorem error_halts (cfg : Config) (msg : String) (s : ADS129xSensor) :
    ∃ log, (∀ e ∈ log, Event.isSerial e = true) ∧
      _ADS_ERROR cfg msg s = .halted { s with trace := s.trace ++ log } := by
  unfold _ADS_ERROR
  split
  · refine ⟨[.serialPrint "Error: ", .serialPrintln msg,
      .serialPrintln "Stopping program execution"], ?_, ?_⟩
    · intro e he
      simp at he
      rcases he with h | h | h <;> subst h <;> rfl
    · simp [ADS129xSensor.emit]
  · exact ⟨[], by simp, by simp⟩

/-- C17 (counterexample): `begin()` with the shipped configuration (ADS1294, expected
identity 0x90) on a fresh session at address 1 whose chip answers 5 to the identity read
does not return, and the global instance pointer holds the session's address, not null. -/
theorem C17_counterexample_instance_stays_registered :
    freshSession._ADS129xSensorPrivateInstance_ = 0 ∧
    identityByte freshSession = 5 ∧
    ADS129xSensor.correctIdChip shippedConfig = 0x90 ∧
    (freshSession.begin shippedConfig).didReturn = false ∧
    (freshSession.begin shippedConfig).state._ADS129xSensorPrivateInstance_ = 1 := by
  refine ⟨rfl, rfl, rfl, rfl, rfl⟩

/-- C17 (amended): when no instance is registered and the byte read from the identity
register differs from the identity expected for the configured chip, `begin()` fails
fatally: it never returns, the program stopping in `_ADS_ERROR` right after the identity
read (bus released, mode Idle, diagnostics only after it), and the session is still
registered as the active instance: the global pointer holds its address. -/
theorem C17_identity_mismatch_is_fatal (cfg : Config) (s : ADS129xSensor)
    (h0 : s._ADS129xSensorPrivateInstance_ = 0)
    (hid : identityByte s ≠ ADS129xSensor.correctIdChip cfg) :
    (∃ log, (∀ e ∈ log, Event.isSerial e = true) ∧
      s.begin cfg =
        .halted { afterIdentityRead cfg s with
          trace := (afterIdentityRead cfg s).trace ++ log }) ∧
    (s.begin cfg).didReturn = false ∧
    (s.begin cfg).state._ADS129xSensorPrivateInstance_ = s.this ∧
    (s.begin cfg).state.isSpiOpen = false ∧
    (s.begin cfg).state.readingStatus = _ADS_NO_READING_NEW_DATA := by
  obtain ⟨log, hlog, hE⟩ := error_halts cfg ADS129xSensor.msgIdentity (afterIdentityRead cfg s)
  have hb : s.begin cfg =
      .halted { afterIdentityRead cfg s with
        trace := (afterIdentityRead cfg s).trace ++ log } := by
    rw [begin_eq cfg s h0, if_pos hid, hE]
    rfl
  refine ⟨⟨log, hlog, hb⟩, ?_, ?_, ?_, ?_⟩ <;> rw [hb] <;> rfl

/-- Witness of C17 on the fresh session, whose chip answers 5 to the identity read. -/
theorem C17_identity_mismatch_is_fatal_witness :
    freshSession._ADS129xSensorPrivateInstance_ = 0 ∧
    identityByte freshSession ≠ ADS129xSensor.correctIdChip shippedConfig ∧
    (freshSession.begin shippedConfig).didReturn = false ∧
    (freshSession.begin shippedConfig).state._ADS129xSensorPrivateInstance_ =
      freshSession.this :=
  have h := C17_identity_mismatch_is_fatal shippedConfig freshSession rfl (by decide)
  ⟨rfl, by decide, h.2.1, h.2.2.1⟩

/-- C18: on a session with no instance registered, `begin()` reads the identity register
as its last bus action (frame 0x20, 0x00, 0x00, the third exchange receiving
`identityByte`; only diagnostics follow) and it completes (returns) if and only if that
byte equals the identity expected for the configured chip, which is 0x90 for ADS1294, 0xD0
for ADS1294R, 0x91 for ADS1296, 0xD1 for ADS1296R, 0x92 for ADS1298 and 0xD2 for ADS1298R;
two configurations with the same expected identity have the same chip, so no chip of one
variant passes the check of another. -/
theorem C18_begin_completes_iff_identity_matches (cfg : Config) (s : ADS129xSensor)
    (h0 : s._ADS129xSensorPrivateInstance_ = 0) :
    (∃ pre r0 r1 post, (∀ e ∈ post, Event.isSerial e = true) ∧
      (s.begin cfg).state.trace = s.trace ++ pre ++
        [.transfer 0x20 r0, .transfer 0x00 r1, .transfer 0x00 (identityByte s),
         .digitalWrite s.chipSelectPin .HIGH, .endTransaction] ++ post) ∧
    ((s.begin cfg).didReturn = true ↔ identityByte s = ADS129xSensor.correctIdChip cfg) ∧
    (∀ chip, ADS129xSensor.correctIdChip { cfg with ADS_CHIP_USED := chip } =
      match chip with
      | .ADS_1294 => 0x90
      | .ADS_1294R => 0xD0
      | .ADS_1296 => 0x91
      | .ADS_1296R => 0xD1
      | .ADS_1298 => 0x92
      | .ADS_1298R => 0xD2) ∧
    (∀ c1 c2 : Config, ADS129xSensor.correctIdChip c1 = ADS129xSensor.correctIdChip c2 →
      c1.ADS_CHIP_USED = c2.ADS_CHIP_USED) := by
  refine ⟨?_, ?_, ?_, ?_⟩
  · rw [begin_eq cfg s h0]
    by_cases hid : identityByte s = ADS129xSensor.correctIdChip cfg
    · refine ⟨beginSetupLog cfg s ++ beginResetLog cfg s ++
        [.beginTransaction _ADS_SPI_MAX_SPEED _ADS_SPI_BIT_ORDER _ADS_SPI_MODE,
         .digitalWrite s.chipSelectPin .LOW],
        s.miso (s.rxCount + exchangesBeforeIdentity s) % 256,
        s.miso (s.rxCount + exchangesBeforeIdentity s + 1) % 256,
        (if cfg.ADS_LIBRARY_VERBOSE_LEVEL > 0 then
          [.serialPrintln "Power-up sequency completed"] else []), ?_, ?_⟩
      · intro e he
        split at he <;> simp at he
        subst he
        rfl
      · by_cases hv : cfg.ADS_LIBRARY_VERBOSE_LEVEL > 0 <;>
          simp [hid, hv, Outcome.bind, Outcome.state, afterIdentityRead, identityReadLog,
            ADS129xSensor.emit]
    · obtain ⟨log, hlog, hE⟩ :=
        error_halts cfg ADS129xSensor.msgIdentity (afterIdentityRead cfg s)
      refine ⟨beginSetupLog cfg s ++ beginResetLog cfg s ++
        [.beginTransaction _ADS_SPI_MAX_SPEED _ADS_SPI_BIT_ORDER _ADS_SPI_MODE,
         .digitalWrite s.chipSelectPin .LOW],
        s.miso (s.rxCount + exchangesBeforeIdentity s) % 256,
        s.miso (s.rxCount + exchangesBeforeIdentity s + 1) % 256, log, hlog, ?_⟩
      rw [if_pos hid, hE]
      simp [Outcome.bind, Outcome.state, afterIdentityRead, identityReadLog]
  · rw [begin_eq cfg s h0]
    by_cases hid : identityByte s = ADS129xSensor.correctIdChip cfg
    · simp [hid, Outcome.bind, Outcome.didReturn]
    · obtain ⟨log, _, hE⟩ :=
        error_halts cfg ADS129xSensor.msgIdentity (afterIdentityRead cfg s)
      rw [if_pos hid, hE]
      simp [hid, Outcome.bind, Outcome.didReturn]
  · intro chip
    cases chip <;> rfl
  · intro c1 c2 h
    obtain ⟨chip1, b1, v1⟩ := c1
    obtain ⟨chip2, b2, v2⟩ := c2
    cases chip1 <;> cases chip2 <;>
      first
      | rfl
      | (simp only [ADS129xSensor.correctIdChip] at h
         exact absurd h (by decide))

/-- Witness of C18: `begin()` completes on `plainSession`, whose chip answers 0x90, and not
on `freshSession`, whose chip answers 5. -/
theorem C18_begin_completes_iff_identity_matches_witness :
    plainSession._ADS129xSensorPrivateInstance_ = 0 ∧
    identityByte plainSession = ADS129xSensor.correctIdChip shippedConfig ∧
    (plainSession.begin shippedConfig).didReturn = true ∧
    freshSession._ADS129xSensorPrivateInstance_ = 0 ∧
    ¬ (freshSession.begin shippedConfig).didReturn = true :=
  ⟨rfl, rfl,
    (C18_begin_completes_iff_identity_matches shippedConfig plainSession rfl).2.1.2 rfl,
    rfl,
    fun h => absurd
      ((C18_begin_completes_iff_identity_matches shippedConfig freshSession rfl).2.1.1 h)
      (by decide)⟩

/-- C20 (the code at the failing input): on `startWiredSession` (start line on pin 7),
brought up by `begin()` and so registered as the active instance, `end()` sends 0x11 and
then never returns: `sendSPICommandSTOP` stops the program in `_ADS_ERROR` because a start
pin is given, 0x0A is not sent and the global instance pointer still holds the session's
address. On `plainSession` (no start pin) `end()` returns after sending 0x11 and 0x0A,
with the global instance pointer null. -/
theorem C20_end_with_start_pin_never_returns :
    (startWiredSession.begin shippedConfig).didReturn = true ∧
    (startWiredSession.begin shippedConfig).state._ADS129xSensorPrivateInstance_ = 1 ∧
    ((startWiredSession.begin shippedConfig).state.«end» shippedConfig).didReturn = false ∧
    txBytes ((startWiredSession.begin shippedConfig).state.«end» shippedConfig).state.trace =
      txBytes (startWiredSession.begin shippedConfig).state.trace ++ [0x11] ∧
    ((startWiredSession.begin shippedConfig).state.«end»
      shippedConfig).state._ADS129xSensorPrivateInstance_ = 1 ∧
    (plainSession.begin shippedConfig).didReturn = true ∧
    ((plainSession.begin shippedConfig).state.«end» shippedConfig).didReturn = true ∧
    txBytes ((plainSession.begin shippedConfig).state.«end» shippedConfig).state.trace =
      txBytes (plainSession.begin shippedConfig).state.trace ++ [0x11, 0x0A] ∧
    ((plainSession.begin shippedConfig).state.«end»
      shippedConfig).state._ADS129xSensorPrivateInstance_ = 0 := by
  refine ⟨rfl, rfl, rfl, ?_, rfl, rfl, rfl, ?_, rfl⟩ <;> decide

/-! ### Pin guards -/

/-- A pin guard that fails: the error stops the program before the rest of the method. -/
theorem guard_fails {α : Type} (cfg : Config) (msg : String) (s : ADS129xSensor)
    (f : Unit → ADS129xSensor → Outcome α) :
    FailsFatally ((_ADS_ERROR cfg msg s).bind f) s := by
  obtain ⟨log, hlog, hE⟩ := error_halts cfg msg s
  exact ⟨log, hlog, by rw [hE]; rfl⟩

/-- C21: each hardware-pin method called when its pin is `ADS_PIN_NOT_USED` never returns,
at every verbosity level: the program stops in `_ADS_ERROR` in the state the method was
called in, the log having gained diagnostic (Serial) entries only, so no pin level was
written and no delay or bus activity took place. This holds for `doHardwareReset` (reset
pin), `enableHardwareStartMode` and `disableHardwareStartMode` (start pin),
`enableExternalClockSource` and `disableExternalClockSource` (clock-select pin),
`enableHardwarePowerDownMode` and `disableHardwarePowerDownMode` (power-down pin). -/
theorem C21_missing_pin_is_fatal (cfg : Config) (s : ADS129xSensor) :
    (s.resetPin = ADS_PIN_NOT_USED → FailsFatally (s.doHardwareReset cfg) s) ∧
    (s.startPin = ADS_PIN_NOT_USED →
      FailsFatally (s.enableHardwareStartMode cfg) s ∧
      FailsFatally (s.disableHardwareStartMode cfg) s) ∧
    (s.clkselPin = ADS_PIN_NOT_USED →
      FailsFatally (s.enableExternalClockSource cfg) s ∧
      FailsFatally (s.disableExternalClockSource cfg) s) ∧
    (s.pwdnPin = ADS_PIN_NOT_USED →
      FailsFatally (s.enableHardwarePowerDownMode cfg) s ∧
      FailsFatally (s.disableHardwarePowerDownMode cfg) s) := by
  refine ⟨fun h => ?_, fun h => ⟨?_, ?_⟩, fun h => ⟨?_, ?_⟩, fun h => ⟨?_, ?_⟩⟩
  · unfold ADS129xSensor.doHardwareReset
    rw [if_pos h]
    exact guard_fails cfg _ s _
  · unfold ADS129xSensor.enableHardwareStartMode
    rw [if_pos h]
    exact guard_fails cfg _ s _
  · unfold ADS129xSensor.disableHardwareStartMode
    rw [if_pos h]
    exact guard_fails cfg _ s _
  · unfold ADS129xSensor.enableExternalClockSource
    rw [if_pos h]
    exact guard_fails cfg _ s _
  · unfold ADS129xSensor.disableExternalClockSource
    rw [if_pos h]
    exact guard_fails cfg _ s _
  · unfold ADS129xSensor.enableHardwarePowerDownMode
    rw [if_pos h]
    exact guard_fails cfg _ s _
  · unfold ADS129xSensor.disableHardwarePowerDownMode
    rw [if_pos h]
    exact guard_fails cfg _ s _

/-- Witness of C21 on the freshly constructed session, which has no optional pin. -/
theorem C21_missing_pin_is_fatal_witness :
    freshSession.resetPin = ADS_PIN_NOT_USED ∧
    freshSession.startPin = ADS_PIN_NOT_USED ∧
    freshSession.clkselPin = ADS_PIN_NOT_USED ∧
    freshSession.pwdnPin = ADS_PIN_NOT_USED ∧
    FailsFatally (freshSession.doHardwareReset quietConfig) freshSession ∧
    FailsFatally (freshSession.enableHardwareStartMode shippedConfig) freshSession ∧
    FailsFatally (freshSession.disableExternalClockSource shippedConfig) freshSession ∧
    FailsFatally (freshSession.disableHardwarePowerDownMode shippedConfig) freshSession :=
  ⟨rfl, rfl, rfl, rfl,
    (C21_missing_pin_is_fatal quietConfig freshSession).1 rfl,
    ((C21_missing_pin_is_fatal shippedConfig freshSession).2.1 rfl).1,
    ((C21_missing_pin_is_fatal shippedConfig freshSession).2.2.1 rfl).2,
    ((C21_missing_pin_is_fatal shippedConfig freshSession).2.2.2 rfl).2⟩

/-- The bytes sent by `sendCommand` are the opcode alone. -/
theorem sendCommand_txBytes (cfg : Config) (s : ADS129xSensor) (command : Nat)
    (keepSpiOpen : Bool) :
    txBytes (s.sendCommand cfg command keepSpiOpen).trace =
      txBytes s.trace ++ [command % 256] := by
  rw [sendCommand_eq]
  by_cases hv : cfg.ADS_LIBRARY_VERBOSE_LEVEL > 1 <;> cases keepSpiOpen <;>
    cases s.isSpiOpen <;> simp [txBytes_append, hv] <;> simp [txBytes, Event.txBytes]

/-- A delay adds no byte to the bus. -/
theorem emit_delay_txBytes (s : ADS129xSensor) (us : Nat) :
    txBytes (s.emit (.delayMicroseconds us)).trace = txBytes s.trace := by
  simp [ADS129xSensor.emit, txBytes_append]
  simp [txBytes, Event.txBytes]

/-- C22: the software commands are disabled when the pin is wired. With a reset pin given,
`sendSPICommandRESET`, and with a start pin given, `sendSPICommandSTART` and
`sendSPICommandSTOP`, never return, in every mode and at every verbosity level: the
program stops in `_ADS_ERROR` in the state of the call with diagnostics only in the log,
so no byte was sent (the pin check comes before the ContinuousStream check). With the pin
unused and a mode other than ContinuousStream they return after sending exactly one byte:
0x06, 0x08 and 0x0A respectively. -/
theorem C22_software_command_disabled_by_pin (cfg : Config) (s : ADS129xSensor)
    (keepSpiOpen : Bool) :
    (s.resetPin ≠ ADS_PIN_NOT_USED → FailsFatally (s.sendSPICommandRESET cfg keepSpiOpen) s) ∧
    (s.startPin ≠ ADS_PIN_NOT_USED →
      FailsFatally (s.sendSPICommandSTART cfg keepSpiOpen) s ∧
      FailsFatally (s.sendSPICommandSTOP cfg keepSpiOpen) s) ∧
    (s.readingStatus ≠ _ADS_READING_DATA_IN_RDATAC_MODE →
      (s.resetPin = ADS_PIN_NOT_USED →
        ∃ s1, s.sendSPICommandRESET cfg keepSpiOpen = .returned () s1 ∧
          txBytes s1.trace = txBytes s.trace ++ [0x06]) ∧
      (s.startPin = ADS_PIN_NOT_USED →
        (∃ s1, s.sendSPICommandSTART cfg keepSpiOpen = .returned () s1 ∧
          txBytes s1.trace = txBytes s.trace ++ [0x08]) ∧
        (∃ s1, s.sendSPICommandSTOP cfg keepSpiOpen = .returned () s1 ∧
          txBytes s1.trace = txBytes s.trace ++ [0x0A]))) := by
  refine ⟨fun h => ?_, fun h => ⟨?_, ?_⟩, fun hmode => ?_⟩
  · unfold ADS129xSensor.sendSPICommandRESET
    rw [if_pos h]
    exact guard_fails cfg _ s _
  · unfold ADS129xSensor.sendSPICommandSTART
    rw [if_pos h]
    exact guard_fails cfg _ s _
  · unfold ADS129xSensor.sendSPICommandSTOP
    rw [if_pos h]
    exact guard_fails cfg _ s _
  · obtain ⟨_, _, _, hr, hst⟩ := accepted_commands cfg s keepSpiOpen hmode
    refine ⟨fun hpin => ⟨_, hr hpin, ?_⟩,
      fun hpin => ⟨⟨_, (hst hpin).1, ?_⟩, ⟨_, (hst hpin).2, ?_⟩⟩⟩
    · rw [emit_delay_txBytes, sendCommand_txBytes]
      rfl
    · rw [emit_delay_txBytes, sendCommand_txBytes]
      rfl
    · rw [sendCommand_txBytes]
      rfl

/-- Witness of C22: the commands stop on sessions whose pin is wired (reset pin 9, start
pin 7) and send their opcode on the fresh session. -/
theorem C22_software_command_disabled_by_pin_witness :
    resetWiredSession.resetPin ≠ ADS_PIN_NOT_USED ∧
    FailsFatally (resetWiredSession.sendSPICommandRESET shippedConfig false)
      resetWiredSession ∧
    startWiredSession.startPin ≠ ADS_PIN_NOT_USED ∧
    FailsFatally (startWiredSession.sendSPICommandSTOP quietConfig false) startWiredSession ∧
    freshSession.readingStatus ≠ _ADS_READING_DATA_IN_RDATAC_MODE ∧
    freshSession.startPin = ADS_PIN_NOT_USED ∧
    (∃ s1, freshSession.sendSPICommandSTART shippedConfig false = .returned () s1 ∧
      txBytes s1.trace = txBytes freshSession.trace ++ [0x08]) :=
  ⟨by decide,
    (C22_software_command_disabled_by_pin shippedConfig resetWiredSession false).1 (by decide),
    by decide,
    ((C22_software_command_disabled_by_pin quietConfig startWiredSession false).2.1
      (by decide)).2,
    by decide, rfl,
    (((C22_software_command_disabled_by_pin shippedConfig freshSession false).2.2
      (by decide)).2 rfl).1⟩

/-! ### Frame length -/

/-- C23: the frame length `_ADS_DATA_PACKAGE_SIZE` is 3 + channel count x bytes per word
in every build configuration: 11, 15, 19 bytes at 16 bits and 15, 21, 27 bytes at 24 bits
for the chips with 4 (ADS1294/R), 6 (ADS1296/R) and 8 (ADS1298/R) channels, at most 27
bytes in all. The zero-fill loop of the handler clears the first `_ADS_DATA_PACKAGE_SIZE`
bytes of the buffer and no other; the buffer transfer exchanges that many bytes; in both
transferring modes the handler sends `_ADS_DATA_PACKAGE_SIZE` zero bytes and stores as
many received bytes. -/
theorem C23_frame_length (cfg : Config) :
    _ADS_DATA_PACKAGE_SIZE cfg =
      3 + ADS_N_CHANNELS cfg * (cfg.ADS_BITS_PER_CHANNEL.toNat / 8) ∧
    (∀ v,
      ADS_N_CHANNELS ⟨.ADS_1294, cfg.ADS_BITS_PER_CHANNEL, v⟩ = 4 ∧
      ADS_N_CHANNELS ⟨.ADS_1294R, cfg.ADS_BITS_PER_CHANNEL, v⟩ = 4 ∧
      ADS_N_CHANNELS ⟨.ADS_1296, cfg.ADS_BITS_PER_CHANNEL, v⟩ = 6 ∧
      ADS_N_CHANNELS ⟨.ADS_1296R, cfg.ADS_BITS_PER_CHANNEL, v⟩ = 6 ∧
      ADS_N_CHANNELS ⟨.ADS_1298, cfg.ADS_BITS_PER_CHANNEL, v⟩ = 8 ∧
      ADS_N_CHANNELS ⟨.ADS_1298R, cfg.ADS_BITS_PER_CHANNEL, v⟩ = 8 ∧
      _ADS_DATA_PACKAGE_SIZE ⟨.ADS_1294, .bits16, v⟩ = 11 ∧
      _ADS_DATA_PACKAGE_SIZE ⟨.ADS_1294R, .bits16, v⟩ = 11 ∧
      _ADS_DATA_PACKAGE_SIZE ⟨.ADS_1296, .bits16, v⟩ = 15 ∧
      _ADS_DATA_PACKAGE_SIZE ⟨.ADS_1296R, .bits16, v⟩ = 15 ∧
      _ADS_DATA_PACKAGE_SIZE ⟨.ADS_1298, .bits16, v⟩ = 19 ∧
      _ADS_DATA_PACKAGE_SIZE ⟨.ADS_1298R, .bits16, v⟩ = 19 ∧
      _ADS_DATA_PACKAGE_SIZE ⟨.ADS_1294, .bits24, v⟩ = 15 ∧
      _ADS_DATA_PACKAGE_SIZE ⟨.ADS_1294R, .bits24, v⟩ = 15 ∧
      _ADS_DATA_PACKAGE_SIZE ⟨.ADS_1296, .bits24, v⟩ = 21 ∧
      _ADS_DATA_PACKAGE_SIZE ⟨.ADS_1296R, .bits24, v⟩ = 21 ∧
      _ADS_DATA_PACKAGE_SIZE ⟨.ADS_1298, .bits24, v⟩ = 27 ∧
      _ADS_DATA_PACKAGE_SIZE ⟨.ADS_1298R, .bits24, v⟩ = 27) ∧
    _ADS_DATA_PACKAGE_SIZE cfg ≤ 27 ∧
    (∀ s : ADS129xSensor, _ADS_DATA_PACKAGE_SIZE cfg ≤ s.adsData.length →
      (s.cleanBuffer cfg).adsData =
        List.replicate (_ADS_DATA_PACKAGE_SIZE cfg) 0 ++
          s.adsData.drop (_ADS_DATA_PACKAGE_SIZE cfg)) ∧
    (∀ s : ADS129xSensor,
      (SPI.transferBuf s (_ADS_DATA_PACKAGE_SIZE cfg)).trace =
        s.trace ++ [.transferBuf (s.adsData.take (_ADS_DATA_PACKAGE_SIZE cfg))
          (incoming s.miso s.rxCount (_ADS_DATA_PACKAGE_SIZE cfg))] ∧
      (incoming s.miso s.rxCount (_ADS_DATA_PACKAGE_SIZE cfg)).length =
        _ADS_DATA_PACKAGE_SIZE cfg ∧
      (SPI.transferBuf s (_ADS_DATA_PACKAGE_SIZE cfg)).rxCount =
        s.rxCount + _ADS_DATA_PACKAGE_SIZE cfg) ∧
    (∀ s : ADS129xSensor, s.adsData.length = _ADS_DATA_PACKAGE_SIZE cfg →
      (s.readingStatus = _ADS_READING_DATA_IN_RDATAC_MODE →
        txBytes (s._privateReadDataFromChip_ cfg).trace =
          txBytes s.trace ++ List.replicate (_ADS_DATA_PACKAGE_SIZE cfg) 0 ∧
        (s._privateReadDataFromChip_ cfg).adsData.length = _ADS_DATA_PACKAGE_SIZE cfg ∧
        (s._privateReadDataFromChip_ cfg).rxCount = s.rxCount + _ADS_DATA_PACKAGE_SIZE cfg) ∧
      (s.readingStatus = _ADS_READING_DATA_IN_RDATA_MODE →
        txBytes (s._privateReadDataFromChip_ cfg).trace =
          txBytes s.trace ++ 0x12 :: List.replicate (_ADS_DATA_PACKAGE_SIZE cfg) 0 ∧
        (s._privateReadDataFromChip_ cfg).adsData.length = _ADS_DATA_PACKAGE_SIZE cfg ∧
        (s._privateReadDataFromChip_ cfg).rxCount =
          s.rxCount + 1 + _ADS_DATA_PACKAGE_SIZE cfg)) := by
  refine ⟨?_, fun v => ?_, ?_, fun s hlen => ?_, fun s => ⟨rfl, incoming_length _ _ _, rfl⟩,
    fun s hlen => ⟨fun hmode => ?_, fun hmode => ?_⟩⟩
  · rcases cfg with ⟨chip, bits, v⟩
    cases chip <;> cases bits <;>
      simp [_ADS_DATA_PACKAGE_SIZE, ADS_N_CHANNELS, BitsPerChannel.toNat]
  · rcases cfg with ⟨chip, bits, v0⟩
    refine ⟨rfl, rfl, rfl, rfl, rfl, rfl, rfl, rfl, rfl, rfl, rfl, rfl, rfl, rfl, rfl, rfl,
      rfl, rfl⟩
  · rcases cfg with ⟨chip, bits, v⟩
    cases chip <;> cases bits <;> simp [_ADS_DATA_PACKAGE_SIZE, ADS_N_CHANNELS]
  · unfold ADS129xSensor.cleanBuffer
    rw [cleanLoop_eq _ _ hlen]
  · rw [handler_streaming_eq cfg s hmode hlen]
    refine ⟨?_, incoming_length _ _ _, rfl⟩
    cases s.isSpiOpen <;> simp [txBytes_append] <;> simp [txBytes, Event.txBytes]
  · rw [handler_pending_eq cfg s hmode hlen]
    refine ⟨?_, incoming_length _ _ _, rfl⟩
    by_cases hv : cfg.ADS_LIBRARY_VERBOSE_LEVEL > 1 <;> cases s.isSpiOpen <;>
      simp [txBytes_append, hv] <;> simp [txBytes, Event.txBytes]

/-- Witness of C23 with the shipped configuration (ADS1294, 24 bits: 15 bytes) on
`streamingSession` and `pendingSession`, whose buffers hold 15 bytes. -/
theorem C23_frame_length_witness :
    _ADS_DATA_PACKAGE_SIZE shippedConfig = 15 ∧
    _ADS_DATA_PACKAGE_SIZE shippedConfig ≤ freshSession.adsData.length ∧
    (freshSession.cleanBuffer shippedConfig).adsData =
      List.replicate (_ADS_DATA_PACKAGE_SIZE shippedConfig) 0 ++
        freshSession.adsData.drop (_ADS_DATA_PACKAGE_SIZE shippedConfig) ∧
    streamingSession.adsData.length = _ADS_DATA_PACKAGE_SIZE shippedConfig ∧
    streamingSession.readingStatus = _ADS_READING_DATA_IN_RDATAC_MODE ∧
    txBytes (streamingSession._privateReadDataFromChip_ shippedConfig).trace =
      txBytes streamingSession.trace ++
        List.replicate (_ADS_DATA_PACKAGE_SIZE shippedConfig) 0 ∧
    pendingSession.readingStatus = _ADS_READING_DATA_IN_RDATA_MODE ∧
    txBytes (pendingSession._privateReadDataFromChip_ shippedConfig).trace =
      txBytes pendingSession.trace ++
        0x12 :: List.replicate (_ADS_DATA_PACKAGE_SIZE shippedConfig) 0 :=
  have h := C23_frame_length shippedConfig
  ⟨rfl, by decide, h.2.2.2.1 freshSession (by decide), rfl, rfl,
    ((h.2.2.2.2.2 streamingSession rfl).1 rfl).1, rfl,
    ((h.2.2.2.2.2 pendingSession rfl).2 rfl).1⟩

/-! ### Settle delays -/

/-- The log added by `sendCommand`. -/
theorem sendCommand_trace (cfg : Config) (s : ADS129xSensor) (command : Nat)
    (keepSpiOpen : Bool) :
    (s.sendCommand cfg command keepSpiOpen).trace =
      s.trace ++ commandLog cfg s command keepSpiOpen := by
  rw [sendCommand_eq]
  simp [commandLog, openingLog, commandEcho, closingLog]

/-- The log of `sendCommand` holds no delay. -/
theorem commandLog_no_delay (cfg : Config) (s : ADS129xSensor) (command : Nat)
    (keepSpiOpen : Bool) :
    ∀ e ∈ commandLog cfg s command keepSpiOpen, Event.isDelay e = false := by
  intro e he
  unfold commandLog openingLog commandEcho closingLog at he
  simp only [List.mem_append, List.mem_singleton] at he
  rcases he with ((he | he) | he) | he
  · split at he
    · simp at he
    · simp at he
      rcases he with h | h <;> subst h <;> rfl
  · subst he
    rfl
  · split at he
    · simp at he
      rcases he with h | h <;> subst h <;> rfl
    · simp at he
  · split at he
    · simp at he
    · simp at he
      rcases he with h | h <;> subst h <;> rfl

/-- C24: with `_ADS_T_CLK` = 514/1000 microseconds, `_ADS_T_CLK_4` = 3 and `_ADS_T_CLK_18`
= 10 are the least whole numbers of microseconds not smaller than 4 and 18 clock periods
(the ceilings of 4 x 0.514 and 18 x 0.514). Every accepted command returns with, added to
the log, the log of `sendCommand` (which carries the opcode byte and no delay) followed by
its settle delay: 3 microseconds after WAKEUP (0x02), START (0x08), RDATAC (0x10) and
SDATAC (0x11), 10 microseconds after RESET (0x06), nothing after STANDBY (0x04) and
STOP (0x0A). SDATAC is accepted in every mode, the others when the mode is not
ContinuousStream and, for RESET, START and STOP, the pin is unused. -/
theorem C24_settle_delays (cfg : Config) (s : ADS129xSensor) (keepSpiOpen : Bool) :
    (_ADS_T_CLK = (514, 1000) ∧ _ADS_T_CLK_4 = 3 ∧ _ADS_T_CLK_18 = 10 ∧
      4 * _ADS_T_CLK.1 ≤ _ADS_T_CLK_4 * _ADS_T_CLK.2 ∧
      (∀ m, 4 * _ADS_T_CLK.1 ≤ m * _ADS_T_CLK.2 → _ADS_T_CLK_4 ≤ m) ∧
      18 * _ADS_T_CLK.1 ≤ _ADS_T_CLK_18 * _ADS_T_CLK.2 ∧
      (∀ m, 18 * _ADS_T_CLK.1 ≤ m * _ADS_T_CLK.2 → _ADS_T_CLK_18 ≤ m) ∧
      ⌈(4 : ℚ) * ((_ADS_T_CLK.1 : ℚ) / (_ADS_T_CLK.2 : ℚ))⌉₊ = _ADS_T_CLK_4 ∧
      ⌈(18 : ℚ) * ((_ADS_T_CLK.1 : ℚ) / (_ADS_T_CLK.2 : ℚ))⌉₊ = _ADS_T_CLK_18) ∧
    (∀ command, ∀ e ∈ commandLog cfg s command keepSpiOpen, Event.isDelay e = false) ∧
    SendsThenWaits (s.sendSPICommandSDATAC cfg keepSpiOpen) cfg s 0x11 keepSpiOpen
      [.delayMicroseconds 3] ∧
    (s.readingStatus ≠ _ADS_READING_DATA_IN_RDATAC_MODE →
      SendsThenWaits (s.sendSPICommandWAKEUP cfg keepSpiOpen) cfg s 0x02 keepSpiOpen
        [.delayMicroseconds 3] ∧
      SendsThenWaits (s.sendSPICommandRDATAC cfg keepSpiOpen) cfg s 0x10 keepSpiOpen
        [.delayMicroseconds 3] ∧
      SendsThenWaits (s.sendSPICommandSTANDBY cfg keepSpiOpen) cfg s 0x04 keepSpiOpen [] ∧
      (s.resetPin = ADS_PIN_NOT_USED →
        SendsThenWaits (s.sendSPICommandRESET cfg keepSpiOpen) cfg s 0x06 keepSpiOpen
          [.delayMicroseconds 10]) ∧
      (s.startPin = ADS_PIN_NOT_USED →
        SendsThenWaits (s.sendSPICommandSTART cfg keepSpiOpen) cfg s 0x08 keepSpiOpen
          [.delayMicroseconds 3] ∧
        SendsThenWaits (s.sendSPICommandSTOP cfg keepSpiOpen) cfg s 0x0A keepSpiOpen [])) := by
  refine ⟨⟨rfl, by decide, by decide, by decide, ?_, by decide, ?_, ?_, ?_⟩,
    fun command => commandLog_no_delay cfg s command keepSpiOpen, ?_, fun hmode => ?_⟩
  · intro m hm
    rw [_ADS_T_CLK_4_eq]
    simp only [_ADS_T_CLK] at hm
    omega
  · intro m hm
    rw [_ADS_T_CLK_18_eq]
    simp only [_ADS_T_CLK] at hm
    omega
  · rw [_ADS_T_CLK_4_eq, Nat.ceil_eq_iff (by decide)]
    simp only [_ADS_T_CLK]
    norm_num
  · rw [_ADS_T_CLK_18_eq, Nat.ceil_eq_iff (by decide)]
    simp only [_ADS_T_CLK]
    norm_num
  · refine ⟨_, rfl, ?_⟩
    show ((s.sendCommand cfg ads.commands.SDATAC keepSpiOpen).emit
      (.delayMicroseconds _ADS_T_CLK_4)).trace = _
    simp only [ADS129xSensor.emit]
    rw [sendCommand_trace, _ADS_T_CLK_4_eq]
    rfl
  · obtain ⟨hw, hsb, hrc, hr, hst⟩ := accepted_commands cfg s keepSpiOpen hmode
    refine ⟨⟨_, hw, ?_⟩, ⟨_, hrc, ?_⟩, ⟨_, hsb, ?_⟩, fun hpin => ⟨_, hr hpin, ?_⟩,
      fun hpin => ⟨⟨_, (hst hpin).1, ?_⟩, ⟨_, (hst hpin).2, ?_⟩⟩⟩
    · simp only [ADS129xSensor.emit]
      rw [sendCommand_trace, _ADS_T_CLK_4_eq]
      rfl
    · simp only [ADS129xSensor.emit]
      rw [sendCommand_trace, _ADS_T_CLK_4_eq]
      rfl
    · rw [sendCommand_trace, List.append_nil]
      rfl
    · simp only [ADS129xSensor.emit]
      rw [sendCommand_trace, _ADS_T_CLK_18_eq]
      rfl
    · simp only [ADS129xSensor.emit]
      rw [sendCommand_trace, _ADS_T_CLK_4_eq]
      rfl
    · rw [sendCommand_trace, List.append_nil]
      rfl

/-- Witness of C24 on the fresh session, which is in Idle and has no optional pin. -/
theorem C24_settle_delays_witness :
    freshSession.readingStatus ≠ _ADS_READING_DATA_IN_RDATAC_MODE ∧
    freshSession.resetPin = ADS_PIN_NOT_USED ∧
    freshSession.startPin = ADS_PIN_NOT_USED ∧
    SendsThenWaits (freshSession.sendSPICommandRESET shippedConfig false) shippedConfig
      freshSession 0x06 false [.delayMicroseconds 10] ∧
    SendsThenWaits (freshSession.sendSPICommandSTART shippedConfig false) shippedConfig
      freshSession 0x08 false [.delayMicroseconds 3] ∧
    SendsThenWaits (freshSession.sendSPICommandSTOP shippedConfig false) shippedConfig
      freshSession 0x0A false [] :=
  have h := (C24_settle_delays shippedConfig freshSession false).2.2.2 (by decide)
  ⟨by decide, rfl, rfl, h.2.2.2.1 rfl, (h.2.2.2.2 rfl).1, (h.2.2.2.2 rfl).2⟩

/-! ### Settle delay of register writes -/

/-- C25: every accepted `writeRegister(a, d, keepSpiOpen)` returns, and what it adds to the
log is: the opening of the transaction if the bus was closed, the three exchanges
`WREG | a`, 0x00, `d`, then one `delay(_ADS_T_CLK_18)` exactly when `a` is CONFIG1 (0x01)
or RESP (0x16), then the release of the transaction unless `keepSpiOpen`. The delays in
what was added are that one `delay(10)` when `a` is 0x01 or 0x16 and none for any other
address. The wait is 10 milliseconds (`delay`), which is not less than 18 clock periods of
0.514 microseconds. -/
theorem C25_settle_delay_after_register_write (cfg : Config) (s : ADS129xSensor)
    (a d : Nat) (keepSpiOpen : Bool)
    (hmode : s.readingStatus ≠ _ADS_READING_DATA_IN_RDATAC_MODE) :
    ∃ s1 added, s.writeRegister cfg a d keepSpiOpen = .returned () s1 ∧
      s1.trace = s.trace ++ added ∧
      added = openingLog s ++
        [.transfer ((ads.commands.WREG ||| a) % 256) (s.miso s.rxCount % 256),
         .transfer 0x00 (s.miso (s.rxCount + 1) % 256),
         .transfer (d % 256) (s.miso (s.rxCount + 2) % 256)] ++
        (if a = 0x01 ∨ a = 0x16 then [.delay _ADS_T_CLK_18] else []) ++
        closingLog s keepSpiOpen ∧
      added.filter Event.isDelay = (if a = 0x01 ∨ a = 0x16 then [.delay 10] else []) ∧
      ads.registers.config1.REG_ADDR = 0x01 ∧ ads.registers.resp.REG_ADDR = 0x16 ∧
      18 * _ADS_T_CLK.1 ≤ (_ADS_T_CLK_18 * 1000) * _ADS_T_CLK.2 := by
  refine ⟨_, _, writeRegister_accepted cfg s a d keepSpiOpen hmode, ?_, rfl, ?_, rfl, rfl,
    by decide⟩
  · simp only [openingLog, closingLog, ads.registers.config1.REG_ADDR,
      ads.registers.resp.REG_ADDR, List.append_assoc]
  · rw [_ADS_T_CLK_18_eq]
    by_cases hreg : a = 0x01 ∨ a = 0x16 <;> cases keepSpiOpen <;>
      cases hopen : s.isSpiOpen <;>
      simp [openingLog, closingLog, hreg, hopen, List.filter, Event.isDelay]

/-- Witness of C25: a write to CONFIG1 (0x01) on the fresh session. -/
theorem C25_settle_delay_after_register_write_witness :
    freshSession.readingStatus ≠ _ADS_READING_DATA_IN_RDATAC_MODE ∧
    ∃ s1 added, freshSession.writeRegister shippedConfig 0x01 0x06 false = .returned () s1 ∧
      s1.trace = freshSession.trace ++ added ∧
      added = openingLog freshSession ++
        [.transfer ((ads.commands.WREG ||| 0x01) % 256)
          (freshSession.miso freshSession.rxCount % 256),
         .transfer 0x00 (freshSession.miso (freshSession.rxCount + 1) % 256),
         .transfer (0x06 % 256) (freshSession.miso (freshSession.rxCount + 2) % 256)] ++
        (if (0x01 : Nat) = 0x01 ∨ (0x01 : Nat) = 0x16 then [.delay _ADS_T_CLK_18] else []) ++
        closingLog freshSession false ∧
      added.filter Event.isDelay =
        (if (0x01 : Nat) = 0x01 ∨ (0x01 : Nat) = 0x16 then [.delay 10] else []) ∧
      ads.registers.config1.REG_ADDR = 0x01 ∧ ads.registers.resp.REG_ADDR = 0x16 ∧
      18 * _ADS_T_CLK.1 ≤ (_ADS_T_CLK_18 * 1000) * _ADS_T_CLK.2 :=
  ⟨by decide,
    C25_settle_delay_after_register_write shippedConfig freshSession 0x01 0x06 false
      (by decide)⟩

/-! ### The single-read request -/

/-- C30: issued in a mode other than ContinuousStream (Idle or SinglePending),
`sendSPICommandRDATA` returns with the mode SinglePending and nothing else changed but
diagnostic (Serial) entries in the log: no byte is sent, no delay is performed, the
bus-open flag is as before, whatever `keepSpiOpen`. On a buffer of the declared size the
next data-ready event then sends the opcode 0x12 followed by the zero bytes of the frame
transfer, and leaves the mode Idle. -/
theorem C30_RDATA_only_records_the_request (cfg : Config) (s : ADS129xSensor)
    (keepSpiOpen : Bool) (hmode : s.readingStatus ≠ _ADS_READING_DATA_IN_RDATAC_MODE) :
    ∃ s1 log, s.sendSPICommandRDATA cfg keepSpiOpen = .returned () s1 ∧
      (∀ e ∈ log, Event.isSerial e = true) ∧
      s1 = { s with readingStatus := _ADS_READING_DATA_IN_RDATA_MODE,
                    trace := s.trace ++ log } ∧
      txBytes s1.trace = txBytes s.trace ∧
      (∀ e ∈ log, Event.isDelay e = false) ∧
      s1.isSpiOpen = s.isSpiOpen ∧
      s1.rxCount = s.rxCount ∧
      (s.adsData.length = _ADS_DATA_PACKAGE_SIZE cfg →
        txBytes (s1._privateReadDataFromChip_ cfg).trace =
          txBytes s.trace ++ 0x12 :: List.replicate (_ADS_DATA_PACKAGE_SIZE cfg) 0 ∧
        (s1._privateReadDataFromChip_ cfg).readingStatus = _ADS_NO_READING_NEW_DATA) := by
  have key : ∃ log, (∀ e ∈ log, Event.isSerial e = true ∧ Event.isDelay e = false) ∧
      s.sendSPICommandRDATA cfg keepSpiOpen =
        .returned () { s with readingStatus := _ADS_READING_DATA_IN_RDATA_MODE,
                              trace := s.trace ++ log } := by
    unfold ADS129xSensor.sendSPICommandRDATA
    rw [if_neg hmode]
    by_cases hv : cfg.ADS_LIBRARY_VERBOSE_LEVEL > 1
    · refine ⟨[.serialPrint "readingStatus: ",
        .serialPrintlnNum _ADS_READING_DATA_IN_RDATA_MODE 10], ?_, ?_⟩
      · intro e he
        simp at he
        rcases he with h | h <;> subst h <;> exact ⟨rfl, rfl⟩
      · simp [hv, ADS129xSensor.emit]
    · refine ⟨[], ?_, ?_⟩
      · intro e he
        simp at he
      · simp [hv]
  obtain ⟨log, hlog, hret⟩ := key
  have htx : txBytes log = [] := by
    unfold txBytes
    rw [List.flatMap_eq_nil_iff]
    intro e he
    have h := (hlog e he).1
    cases e <;> first | rfl | simp [Event.isSerial] at h
  refine ⟨_, log, hret, fun e he => (hlog e he).1, rfl, ?_, fun e he => (hlog e he).2,
    rfl, rfl, fun hlen => ?_⟩
  · show txBytes (s.trace ++ log) = txBytes s.trace
    rw [txBytes_append, htx, List.append_nil]
  · rw [handler_pending_eq cfg
      { s with readingStatus := _ADS_READING_DATA_IN_RDATA_MODE, trace := s.trace ++ log }
      rfl hlen]
    refine ⟨?_, rfl⟩
    show txBytes (s.trace ++ log ++ _ ++ _ ++ _ ++ _) = _
    by_cases hv : cfg.ADS_LIBRARY_VERBOSE_LEVEL > 1 <;> cases s.isSpiOpen <;>
      simp [txBytes_append, hv, htx] <;> simp [txBytes, Event.txBytes]

/-- Witness of C30 on the fresh session (Idle, 15-byte buffer) with the shipped
configuration. -/
theorem C30_RDATA_only_records_the_request_witness :
    freshSession.readingStatus ≠ _ADS_READING_DATA_IN_RDATAC_MODE ∧
    ∃ s1 log, freshSession.sendSPICommandRDATA shippedConfig false = .returned () s1 ∧
      (∀ e ∈ log, Event.isSerial e = true) ∧
      s1 = { freshSession with readingStatus := _ADS_READING_DATA_IN_RDATA_MODE,
                               trace := freshSession.trace ++ log } ∧
      txBytes s1.trace = txBytes freshSession.trace ∧
      (∀ e ∈ log, Event.isDelay e = false) ∧
      s1.isSpiOpen = freshSession.isSpiOpen ∧
      s1.rxCount = freshSession.rxCount ∧
      (freshSession.adsData.length = _ADS_DATA_PACKAGE_SIZE shippedConfig →
        txBytes (s1._privateReadDataFromChip_ shippedConfig).trace =
          txBytes freshSession.trace ++
            0x12 :: List.replicate (_ADS_DATA_PACKAGE_SIZE shippedConfig) 0 ∧
        (s1._privateReadDataFromChip_ shippedConfig).readingStatus =
          _ADS_NO_READING_NEW_DATA) :=
  ⟨by decide, C30_RDATA_only_records_the_request shippedConfig freshSession false (by decide)⟩

/-! ### Channel helpers -/

/-- An accepted read of register `a` followed by an accepted write to it of a value `f r`
computed from the value `r` read: one bus transaction, six exchanges. -/
theorem readModifyWrite_eq (cfg : Config) (s : ADS129xSensor) (a : Nat) (f : Nat → Nat)
    (keepSpiOpen : Bool) (hmode : s.readingStatus ≠ _ADS_READING_DATA_IN_RDATAC_MODE) :
    ((s.readRegister cfg a true).bind fun r s1 => s1.writeRegister cfg a (f r) keepSpiOpen) =
      .returned ()
        { s with
          isSpiOpen := keepSpiOpen
          rxCount := s.rxCount + 6
          trace := s.trace ++
            readModifyWriteLog s a (f (s.miso (s.rxCount + 2) % 256)) keepSpiOpen } := by
  rw [readRegister_accepted cfg s a true hmode, Outcome.returned_bind, writeRegister_accepted]
  · simp [readModifyWriteLog, writeFrame, openingLog, closingLog, Nat.add_assoc]
  · exact hmode

/-- The bytes sent by a read-modify-write of register `a`. -/
theorem txBytes_readModifyWriteLog (s : ADS129xSensor) (a d : Nat) (keepSpiOpen : Bool) :
    txBytes (readModifyWriteLog s a d keepSpiOpen) =
      [(ads.commands.RREG ||| a) % 256, 0x00, 0x00,
       (ads.commands.WREG ||| a) % 256, 0x00, d % 256] := by
  by_cases hreg : a = ads.registers.config1.REG_ADDR ∨ a = ads.registers.resp.REG_ADDR <;>
    cases keepSpiOpen <;> cases hopen : s.isSpiOpen <;>
    simp [readModifyWriteLog, writeFrame, openingLog, closingLog, hreg, hopen, txBytes,
      Event.txBytes]

/-- No chip has more than 8 channels. -/
theorem ADS_N_CHANNELS_le (cfg : Config) : ADS_N_CHANNELS cfg ≤ 8 := by
  rcases cfg with ⟨chip, bits, v⟩
  cases chip <;> simp [ADS_N_CHANNELS]

/-- Normal form of `disableChannel` in a mode other than ContinuousStream. -/
theorem disableChannel_eq (cfg : Config) (s : ADS129xSensor) (nChannel : Nat)
    (setInputAsShorted keepSpiOpen : Bool)
    (hmode : s.readingStatus ≠ _ADS_READING_DATA_IN_RDATAC_MODE) :
    s.disableChannel cfg nChannel setInputAsShorted keepSpiOpen =
      .returned ()
        { s with
          isSpiOpen := keepSpiOpen
          rxCount := s.rxCount + 6
          trace := s.trace ++
            readModifyWriteLog s ((ads.registers.chnSet._BASE_REG_ADDR + nChannel) % 256)
              ((s.miso (s.rxCount + 2) % 256) ||| ads.registers.chnSet.B_PDn) keepSpiOpen } := by
  unfold ADS129xSensor.disableChannel
  exact readModifyWrite_eq cfg s _ (fun r => r ||| ads.registers.chnSet.B_PDn) keepSpiOpen hmode

/-- Normal form of `enableChannel` for a channel number in range, in a mode other than
ContinuousStream. -/
theorem enableChannel_eq (cfg : Config) (s : ADS129xSensor) (nChannel : Nat)
    (channelInput : Int) (keepSpiOpen : Bool)
    (hn1 : 1 ≤ nChannel) (hn2 : nChannel ≤ ADS_N_CHANNELS cfg)
    (hmode : s.readingStatus ≠ _ADS_READING_DATA_IN_RDATAC_MODE) :
    s.enableChannel cfg nChannel channelInput keepSpiOpen =
      .returned ()
        { s with
          isSpiOpen := keepSpiOpen
          rxCount := s.rxCount + 6
          trace := s.trace ++
            readModifyWriteLog s (0x04 + nChannel)
              ((if channelInput ≠ -1 then
                  ((s.miso (s.rxCount + 2) % 256) &&& complementByte 0x07) |||
                    (lowByte channelInput &&& 0x07)
                else s.miso (s.rxCount + 2) % 256) &&& complementByte 0x80) keepSpiOpen } := by
  have h8 := ADS_N_CHANNELS_le cfg
  have haddr : (ads.registers.chnSet._BASE_REG_ADDR + nChannel) % 256 = 0x04 + nChannel := by
    simp only [ads.registers.chnSet._BASE_REG_ADDR]
    omega
  unfold ADS129xSensor.enableChannel
  rw [if_neg (by omega), Outcome.returned_bind, if_neg (by omega), Outcome.returned_bind]
  simp only [haddr]
  exact readModifyWrite_eq cfg s (0x04 + nChannel)
    (fun r => (if channelInput ≠ -1 then (r &&& complementByte 0x07) |||
      (lowByte channelInput &&& 0x07) else r) &&& complementByte 0x80) keepSpiOpen hmode

/-- Normal form of `enableChannelAndSetGain` for a channel number in range, in a mode other
than ContinuousStream: two read-modify-write rounds in one bus transaction. -/
theorem enableChannelAndSetGain_eq (cfg : Config) (s : ADS129xSensor) (nChannel : Nat)
    (channelGainConstant : Nat) (channelInput : Int) (keepSpiOpen : Bool)
    (hn1 : 1 ≤ nChannel) (hn2 : nChannel ≤ ADS_N_CHANNELS cfg)
    (hmode : s.readingStatus ≠ _ADS_READING_DATA_IN_RDATAC_MODE) :
    s.enableChannelAndSetGain cfg nChannel channelGainConstant channelInput keepSpiOpen =
      .returned ()
        { s with
          isSpiOpen := keepSpiOpen
          rxCount := s.rxCount + 12
          trace := s.trace ++
            readModifyWriteLog s (0x04 + nChannel)
              (((s.miso (s.rxCount + 2) % 256) &&& complementByte 0x70) |||
                channelGainConstant) true ++
            readModifyWriteLog
              { s with isSpiOpen := true, rxCount := s.rxCount + 6 } (0x04 + nChannel)
              ((if channelInput ≠ -1 then
                  ((s.miso (s.rxCount + 8) % 256) &&& complementByte 0x07) |||
                    (lowByte channelInput &&& 0x07)
                else s.miso (s.rxCount + 8) % 256) &&& complementByte 0x80) keepSpiOpen } := by
  have h8 := ADS_N_CHANNELS_le cfg
  have haddr : (ads.registers.chnSet._BASE_REG_ADDR + nChannel) % 256 = 0x04 + nChannel := by
    simp only [ads.registers.chnSet._BASE_REG_ADDR]
    omega
  unfold ADS129xSensor.enableChannelAndSetGain
  simp only [haddr]
  rw [← Outcome.bind_assoc,
    readModifyWrite_eq cfg s (0x04 + nChannel)
      (fun r => (r &&& complementByte (ads.registers.chnSet.B_GAINn0 |||
        ads.registers.chnSet.B_GAINn1 ||| ads.registers.chnSet.B_GAINn2)) |||
        channelGainConstant) true hmode,
    Outcome.returned_bind, enableChannel_eq]
  · simp [readModifyWriteLog, writeFrame, openingLog, closingLog, Nat.add_assoc,
      ads.registers.chnSet.B_GAINn0, ads.registers.chnSet.B_GAINn1,
      ads.registers.chnSet.B_GAINn2]
  · exact hn1
  · exact hn2
  · exact hmode

/-- The low byte of a channel-input constant given as a small natural number. -/
theorem lowByte_natCast (c : Nat) (hc : c < 256) : lowByte (c : Int) = c := by
  unfold lowByte
  rw [Int.emod_eq_of_lt (by omega) (by omega)]
  exact Int.toNat_natCast c

set_option maxRecDepth 1000000 in
/-- The byte written by `enableChannel`, for every byte read and every channel input. -/
theorem enable_byte : ∀ r < 256,
    (r &&& complementByte 0x80) % 256 = r &&& 0x7F ∧
    (r &&& 0x7F) &&& 0x80 = 0 ∧
    (r &&& 0x7F) &&& 0x7F = r &&& 0x7F ∧
    ∀ c < 8,
      (((r &&& complementByte 0x07) ||| (c &&& 0x07)) &&& complementByte 0x80) % 256 =
        (r &&& 0x78) ||| c ∧
      ((r &&& 0x78) ||| c) &&& 0x80 = 0 ∧
      ((r &&& 0x78) ||| c) &&& 0x07 = c ∧
      ((r &&& 0x78) ||| c) &&& 0x78 = r &&& 0x78 := by
  decide

set_option maxRecDepth 1000000 in
/-- The bytes written by `enableChannelAndSetGain`, for every gain constant within the gain
mask and every byte read. -/
theorem gain_byte : ∀ g < 256, g &&& 0x70 = g → ∀ r < 256,
    ((r &&& complementByte 0x70) ||| g) % 256 = (r &&& 0x8F) ||| g ∧
    (((r &&& 0x8F) ||| g) &&& complementByte 0x80) % 256 = (r &&& 0x0F) ||| g ∧
    ((r &&& 0x0F) ||| g) &&& 0x70 = g ∧
    ((r &&& 0x0F) ||| g) &&& 0x80 = 0 ∧
    ((r &&& 0x0F) ||| g) &&& 0x0F = r &&& 0x0F := by
  decide

/-- C26 (the code at the failing input): on the fresh session, whose chip answers 0x02 to
the read of CH1SET, `disableChannel(1, true, false)` returns after sending the read frame
0x25, 0x00, 0x00 and the write frame 0x45, 0x00, 0x82: the value written is the value read
with the power-down bit set, its multiplexer bits are those read (2), not SHORTED (1). The
call with `setInputAsShorted = false` sends the same bytes: the argument has no effect. -/
theorem C26_disableChannel_ignores_setInputAsShorted :
    freshSession.miso (freshSession.rxCount + 2) % 256 = 0x02 ∧
    (freshSession.disableChannel shippedConfig 1 true false).didReturn = true ∧
    txBytes (freshSession.disableChannel shippedConfig 1 true false).state.trace =
      [0x25, 0x00, 0x00, 0x45, 0x00, 0x82] ∧
    0x82 &&& 0x80 = 0x80 ∧
    0x82 &&& 0x07 = 0x02 ∧
    ads.registers.chnSet.SHORTED = 0x01 ∧
    txBytes (freshSession.disableChannel shippedConfig 1 false false).state.trace =
      [0x25, 0x00, 0x00, 0x45, 0x00, 0x82] ∧
    (∀ (cfg : Config) (s : ADS129xSensor) (n : Nat) (keepSpiOpen : Bool),
      s.disableChannel cfg n true keepSpiOpen = s.disableChannel cfg n false keepSpiOpen) := by
  refine ⟨rfl, rfl, ?_, by decide, by decide, by decide, ?_, fun _ _ _ _ => rfl⟩ <;> decide

/-- C27: for a channel number `n` with 1 <= n <= `ADS_N_CHANNELS`, in a mode other than
ContinuousStream, `enableChannel(n, -1, keepSpiOpen)` returns after reading register
0x04 + n (frame `0x20 | (0x04 + n)`, 0x00, 0x00) and writing to the same register (frame
`0x40 | (0x04 + n)`, 0x00, value) the value `r & 0x7F`, where `r` is the byte read: only
the power-down bit is cleared. With a channel-input constant `c` in 0..7 the value written
is `(r & 0x78) | c`: power-down bit clear, multiplexer bits equal to `c`, gain bits and bit
3 as read. -/
theorem C27_enableChannel_changes_only_requested_bits (cfg : Config) (s : ADS129xSensor)
    (n : Nat) (keepSpiOpen : Bool)
    (hn1 : 1 ≤ n) (hn2 : n ≤ ADS_N_CHANNELS cfg)
    (hmode : s.readingStatus ≠ _ADS_READING_DATA_IN_RDATAC_MODE) :
    (∃ s1, s.enableChannel cfg n (-1) keepSpiOpen = .returned () s1 ∧
      txBytes s1.trace = txBytes s.trace ++
        [0x20 ||| (0x04 + n), 0x00, 0x00, 0x40 ||| (0x04 + n), 0x00,
         (s.miso (s.rxCount + 2) % 256) &&& 0x7F]) ∧
    (∀ c : Nat, c < 8 →
      ∃ s1, s.enableChannel cfg n (c : Int) keepSpiOpen = .returned () s1 ∧
        txBytes s1.trace = txBytes s.trace ++
          [0x20 ||| (0x04 + n), 0x00, 0x00, 0x40 ||| (0x04 + n), 0x00,
           ((s.miso (s.rxCount + 2) % 256) &&& 0x78) ||| c]) ∧
    (∀ r < 256,
      (r &&& 0x7F) &&& 0x80 = 0 ∧ (r &&& 0x7F) &&& 0x7F = r &&& 0x7F ∧
      ∀ c < 8, ((r &&& 0x78) ||| c) &&& 0x80 = 0 ∧ ((r &&& 0x78) ||| c) &&& 0x07 = c ∧
        ((r &&& 0x78) ||| c) &&& 0x78 = r &&& 0x78) := by
  have h8 := ADS_N_CHANNELS_le cfg
  have hr : s.miso (s.rxCount + 2) % 256 < 256 := Nat.mod_lt _ (by decide)
  have h1 : (ads.commands.RREG ||| (0x04 + n)) % 256 = 0x20 ||| (0x04 + n) :=
    or_byte_lt 0x20 (0x04 + n) (by decide) (by omega)
  have h2 : (ads.commands.WREG ||| (0x04 + n)) % 256 = 0x40 ||| (0x04 + n) :=
    or_byte_lt 0x40 (0x04 + n) (by decide) (by omega)
  refine ⟨⟨_, enableChannel_eq cfg s n (-1) keepSpiOpen hn1 hn2 hmode, ?_⟩,
    fun c hc => ⟨_, enableChannel_eq cfg s n (c : Int) keepSpiOpen hn1 hn2 hmode, ?_⟩,
    fun r hr => ⟨(enable_byte r hr).2.1, (enable_byte r hr).2.2.1,
      fun c hc => ((enable_byte r hr).2.2.2 c hc).2⟩⟩
  · show txBytes (s.trace ++ readModifyWriteLog s _ _ _) = _
    rw [txBytes_append, txBytes_readModifyWriteLog, h1, h2,
      if_neg (by decide : ¬ ((-1 : Int) ≠ -1)), (enable_byte _ hr).1]
  · show txBytes (s.trace ++ readModifyWriteLog s _ _ _) = _
    have hne : ((c : Int) ≠ -1) := by omega
    rw [txBytes_append, txBytes_readModifyWriteLog, h1, h2, if_pos hne,
      lowByte_natCast c (by omega), ((enable_byte _ hr).2.2.2 c hc).1]

/-- Witness of C27: channel 4 of the 4-channel build on the fresh session. -/
theorem C27_enableChannel_changes_only_requested_bits_witness :
    1 ≤ 4 ∧ 4 ≤ ADS_N_CHANNELS shippedConfig ∧
    freshSession.readingStatus ≠ _ADS_READING_DATA_IN_RDATAC_MODE ∧
    (∃ s1, freshSession.enableChannel shippedConfig 4 (-1) false = .returned () s1 ∧
      txBytes s1.trace = txBytes freshSession.trace ++
        [0x20 ||| (0x04 + 4), 0x00, 0x00, 0x40 ||| (0x04 + 4), 0x00,
         (freshSession.miso (freshSession.rxCount + 2) % 256) &&& 0x7F]) :=
  ⟨by decide, by decide, by decide,
    (C27_enableChannel_changes_only_requested_bits shippedConfig freshSession 4 false
      (by decide) (by decide) (by decide)).1⟩

/-- C28: for a channel number `n` with 1 <= n <= `ADS_N_CHANNELS`, in a mode other than
ContinuousStream, a gain constant `g` within the gain mask 0x70 and `channelInput` = -1, on
a chip whose second read of register 0x04 + n returns the value written just before,
`enableChannelAndSetGain` returns after a read of register 0x04 + n, a write of
`(r & 0x8F) | g` to it, a second read and a final write of `(r & 0x0F) | g`, where `r` is
the byte first read: gain bits equal to `g`, power-down bit clear, bits 3..0 as read. -/
theorem C28_enableChannelAndSetGain_sets_gain_only (cfg : Config) (s : ADS129xSensor)
    (n g : Nat) (keepSpiOpen : Bool)
    (hn1 : 1 ≤ n) (hn2 : n ≤ ADS_N_CHANNELS cfg)
    (hmode : s.readingStatus ≠ _ADS_READING_DATA_IN_RDATAC_MODE)
    (hg : g &&& 0x70 = g)
    (hecho : s.miso (s.rxCount + 8) % 256 = ((s.miso (s.rxCount + 2) % 256) &&& 0x8F) ||| g) :
    ∃ s1, s.enableChannelAndSetGain cfg n g (-1) keepSpiOpen = .returned () s1 ∧
      txBytes s1.trace = txBytes s.trace ++
        [0x20 ||| (0x04 + n), 0x00, 0x00, 0x40 ||| (0x04 + n), 0x00,
         ((s.miso (s.rxCount + 2) % 256) &&& 0x8F) ||| g,
         0x20 ||| (0x04 + n), 0x00, 0x00, 0x40 ||| (0x04 + n), 0x00,
         ((s.miso (s.rxCount + 2) % 256) &&& 0x0F) ||| g] ∧
      (((s.miso (s.rxCount + 2) % 256) &&& 0x0F) ||| g) &&& 0x70 = g ∧
      (((s.miso (s.rxCount + 2) % 256) &&& 0x0F) ||| g) &&& 0x80 = 0 ∧
      (((s.miso (s.rxCount + 2) % 256) &&& 0x0F) ||| g) &&& 0x0F =
        (s.miso (s.rxCount + 2) % 256) &&& 0x0F := by
  have h8 := ADS_N_CHANNELS_le cfg
  have hr : s.miso (s.rxCount + 2) % 256 < 256 := Nat.mod_lt _ (by decide)
  have hg256 : g < 256 := by
    have h := @Nat.and_le_right g 0x70
    rw [hg] at h
    omega
  have h1 : (ads.commands.RREG ||| (0x04 + n)) % 256 = 0x20 ||| (0x04 + n) :=
    or_byte_lt 0x20 (0x04 + n) (by decide) (by omega)
  have h2 : (ads.commands.WREG ||| (0x04 + n)) % 256 = 0x40 ||| (0x04 + n) :=
    or_byte_lt 0x40 (0x04 + n) (by decide) (by omega)
  obtain ⟨hb1, hb2, hb3, hb4, hb5⟩ := gain_byte g hg256 hg _ hr
  refine ⟨_, enableChannelAndSetGain_eq cfg s n g (-1) keepSpiOpen hn1 hn2 hmode, ?_,
    hb3, hb4, hb5⟩
  show txBytes (s.trace ++ readModifyWriteLog s _ _ _ ++ readModifyWriteLog _ _ _ _) = _
  rw [txBytes_append, txBytes_append, txBytes_readModifyWriteLog, txBytes_readModifyWriteLog,
    h1, h2, if_neg (by decide : ¬ ((-1 : Int) ≠ -1)), hecho, hb1, hb2, List.append_assoc]
  rfl

/-- Witness of C28: gain 12 (0x60) on channel 1 of `storedSession`, whose chip answers 0x81
to the first read and 0xE1, the value then written, to the second. -/
theorem C28_enableChannelAndSetGain_sets_gain_only_witness :
    1 ≤ 1 ∧ 1 ≤ ADS_N_CHANNELS shippedConfig ∧
    storedSession.readingStatus ≠ _ADS_READING_DATA_IN_RDATAC_MODE ∧
    ads.registers.chnSet.GAIN_12X = 0x60 ∧
    0x60 &&& 0x70 = 0x60 ∧
    storedSession.miso (storedSession.rxCount + 8) % 256 =
      ((storedSession.miso (storedSession.rxCount + 2) % 256) &&& 0x8F) ||| 0x60 ∧
    ∃ s1, storedSession.enableChannelAndSetGain shippedConfig 1 0x60 (-1) false =
        .returned () s1 ∧
      txBytes s1.trace = txBytes storedSession.trace ++
        [0x20 ||| (0x04 + 1), 0x00, 0x00, 0x40 ||| (0x04 + 1), 0x00,
         ((storedSession.miso (storedSession.rxCount + 2) % 256) &&& 0x8F) ||| 0x60,
         0x20 ||| (0x04 + 1), 0x00, 0x00, 0x40 ||| (0x04 + 1), 0x00,
         ((storedSession.miso (storedSession.rxCount + 2) % 256) &&& 0x0F) ||| 0x60] ∧
      (((storedSession.miso (storedSession.rxCount + 2) % 256) &&& 0x0F) ||| 0x60) &&& 0x70 =
        0x60 ∧
      (((storedSession.miso (storedSession.rxCount + 2) % 256) &&& 0x0F) ||| 0x60) &&& 0x80 =
        0 ∧
      (((storedSession.miso (storedSession.rxCount + 2) % 256) &&& 0x0F) ||| 0x60) &&& 0x0F =
        (storedSession.miso (storedSession.rxCount + 2) % 256) &&& 0x0F :=
  ⟨by decide, by decide, by decide, by decide, by decide, by decide,
    C28_enableChannelAndSetGain_sets_gain_only shippedConfig storedSession 1 0x60 false
      (by decide) (by decide) (by decide) (by decide) (by decide)⟩

/-! ### Bytes and delays of `begin()` -/

/-- The configuration of the pins in `begin()` sends no byte. -/
theorem txBytes_beginSetupLog (cfg : Config) (s : ADS129xSensor) :
    txBytes (beginSetupLog cfg s) = [] := by
  unfold beginSetupLog
  simp only [txBytes_append]
  split_ifs <;> simp [txBytes, Event.txBytes]

/-- The bytes of the reset part of `begin()`: 0x11, 0x06, 0x11 on the software path, 0x11 on
the hardware path. -/
theorem txBytes_beginResetLog (cfg : Config) (s : ADS129xSensor) :
    txBytes (beginResetLog cfg s) =
      if s.resetPin = ADS_PIN_NOT_USED then [0x11, 0x06, 0x11] else [0x11] := by
  unfold beginResetLog openingLog commandEcho
  split_ifs <;> simp [txBytes, Event.txBytes]

/-- The bytes of the identity read of `begin()`. -/
theorem txBytes_identityReadLog (s : ADS129xSensor) :
    txBytes (identityReadLog s) = [0x20, 0x00, 0x00] := by
  simp [identityReadLog, txBytes, Event.txBytes]

/-- When the identity matches, `begin()` returns in the state `afterIdentityRead` with the
completion message added to the log at verbosity above 0. -/
theorem begin_accepted (cfg : Config) (s : ADS129xSensor)
    (h0 : s._ADS129xSensorPrivateInstance_ = 0)
    (hid : identityByte s = ADS129xSensor.correctIdChip cfg) :
    s.begin cfg =
      .returned ()
        { afterIdentityRead cfg s with
          trace := (afterIdentityRead cfg s).trace ++
            (if cfg.ADS_LIBRARY_VERBOSE_LEVEL > 0 then
              [.serialPrintln "Power-up sequency completed"] else []) } := by
  rw [begin_eq cfg s h0, if_neg (by simpa using hid), Outcome.returned_bind]
  by_cases hv : cfg.ADS_LIBRARY_VERBOSE_LEVEL > 0 <;> simp [hv, ADS129xSensor.emit]

/-- C32: on a session with no instance registered and a chip that answers the expected
identity, `begin()` returns, and the bytes it sent are exactly 0x11, 0x06, 0x11, 0x20, 0x00,
0x00 when no reset pin is given and 0x11, 0x20, 0x00, 0x00 when one is given; in the
second case the log holds the pulse on the reset pin (LOW, `delay(_ADS_T_CLK_2)`, HIGH)
before any byte is sent. On both paths the mode on return is Idle, the bus-open flag is
false, the last chip-select and transaction events are the release (chip-select HIGH,
`SPI.endTransaction`), and the global instance pointer holds the session's address. -/
theorem C32_begin_bus_bytes (cfg : Config) (s : ADS129xSensor)
    (h0 : s._ADS129xSensorPrivateInstance_ = 0)
    (hid : identityByte s = ADS129xSensor.correctIdChip cfg) :
    ∃ s1, s.begin cfg = .returned () s1 ∧
      txBytes s1.trace = txBytes s.trace ++
        (if s.resetPin = ADS_PIN_NOT_USED then [0x11, 0x06, 0x11, 0x20, 0x00, 0x00]
         else [0x11, 0x20, 0x00, 0x00]) ∧
      (s.resetPin ≠ ADS_PIN_NOT_USED →
        ∃ pre post, s1.trace = s.trace ++ pre ++
            [.digitalWrite s.resetPin .LOW, .delay _ADS_T_CLK_2,
             .digitalWrite s.resetPin .HIGH] ++ post ∧
          txBytes pre = [] ∧ txBytes post = [0x11, 0x20, 0x00, 0x00]) ∧
      (∃ pre post, s1.trace = pre ++
          [.digitalWrite s.chipSelectPin .HIGH, .endTransaction] ++ post ∧
        ∀ e ∈ post, Event.isSerial e = true) ∧
      s1.readingStatus = _ADS_NO_READING_NEW_DATA ∧
      s1.isSpiOpen = false ∧
      s1._ADS129xSensorPrivateInstance_ = s.this := by
  have hdone : ∀ e ∈ (if cfg.ADS_LIBRARY_VERBOSE_LEVEL > 0 then
      [Event.serialPrintln "Power-up sequency completed"] else []),
      Event.isSerial e = true := by
    intro e he
    split at he <;> simp at he
    subst he
    rfl
  have hdoneTx : txBytes (if cfg.ADS_LIBRARY_VERBOSE_LEVEL > 0 then
      [Event.serialPrintln "Power-up sequency completed"] else []) = [] := by
    split <;> rfl
  refine ⟨_, begin_accepted cfg s h0 hid, ?_, fun hpin => ?_, ?_, rfl, rfl, rfl⟩
  · show txBytes (s.trace ++ beginSetupLog cfg s ++ beginResetLog cfg s ++ identityReadLog s ++
      _) = _
    rw [txBytes_append, txBytes_append, txBytes_append, txBytes_append, txBytes_beginSetupLog,
      txBytes_beginResetLog, txBytes_identityReadLog, hdoneTx]
    split <;> simp
  · refine ⟨beginSetupLog cfg s,
      openingLog s ++ [.transfer 0x11 (s.miso s.rxCount % 256)] ++ commandEcho cfg 0x11 ++
        [.digitalWrite s.chipSelectPin .HIGH, .endTransaction,
         .delayMicroseconds _ADS_T_CLK_4] ++ identityReadLog s ++
        (if cfg.ADS_LIBRARY_VERBOSE_LEVEL > 0 then
          [.serialPrintln "Power-up sequency completed"] else []), ?_,
      txBytes_beginSetupLog cfg s, ?_⟩
    · show s.trace ++ beginSetupLog cfg s ++ beginResetLog cfg s ++ identityReadLog s ++ _ = _
      simp only [beginResetLog, if_neg hpin, List.append_assoc]
    · rw [txBytes_append, txBytes_append, txBytes_identityReadLog, hdoneTx]
      unfold openingLog commandEcho
      split_ifs <;> simp [txBytes, Event.txBytes]
  · refine ⟨s.trace ++ beginSetupLog cfg s ++ beginResetLog cfg s ++
        [.beginTransaction _ADS_SPI_MAX_SPEED _ADS_SPI_BIT_ORDER _ADS_SPI_MODE,
         .digitalWrite s.chipSelectPin .LOW,
         .transfer 0x20 (s.miso (s.rxCount + exchangesBeforeIdentity s) % 256),
         .transfer 0x00 (s.miso (s.rxCount + exchangesBeforeIdentity s + 1) % 256),
         .transfer 0x00 (identityByte s)], _, ?_, hdone⟩
    show s.trace ++ beginSetupLog cfg s ++ beginResetLog cfg s ++ identityReadLog s ++ _ = _
    simp only [identityReadLog, List.append_assoc, List.cons_append, List.nil_append]

/-- Witness of C32: `plainSession` (no reset pin) with the shipped configuration, on a chip
that answers 0x90. -/
theorem C32_begin_bus_bytes_witness :
    plainSession._ADS129xSensorPrivateInstance_ = 0 ∧
    identityByte plainSession = ADS129xSensor.correctIdChip shippedConfig ∧
    plainSession.resetPin = ADS_PIN_NOT_USED ∧
    ∃ s1, plainSession.begin shippedConfig = .returned () s1 ∧
      txBytes s1.trace = txBytes plainSession.trace ++
        (if plainSession.resetPin = ADS_PIN_NOT_USED then [0x11, 0x06, 0x11, 0x20, 0x00, 0x00]
         else [0x11, 0x20, 0x00, 0x00]) ∧
      (plainSession.resetPin ≠ ADS_PIN_NOT_USED →
        ∃ pre post, s1.trace = plainSession.trace ++ pre ++
            [.digitalWrite plainSession.resetPin .LOW, .delay _ADS_T_CLK_2,
             .digitalWrite plainSession.resetPin .HIGH] ++ post ∧
          txBytes pre = [] ∧ txBytes post = [0x11, 0x20, 0x00, 0x00]) ∧
      (∃ pre post, s1.trace = pre ++
          [.digitalWrite plainSession.chipSelectPin .HIGH, .endTransaction] ++ post ∧
        ∀ e ∈ post, Event.isSerial e = true) ∧
      s1.readingStatus = _ADS_NO_READING_NEW_DATA ∧
      s1.isSpiOpen = false ∧
      s1._ADS129xSensorPrivateInstance_ = plainSession.this :=
  ⟨rfl, rfl, rfl, C32_begin_bus_bytes shippedConfig plainSession rfl rfl⟩

/-- The log of `begin()` on a session with no instance registered, whether the identity
matches or not: pin configuration, reset part, identity read, then diagnostics only. -/
theorem begin_trace (cfg : Config) (s : ADS129xSensor)
    (h0 : s._ADS129xSensorPrivateInstance_ = 0) :
    ∃ tail, (∀ e ∈ tail, Event.isSerial e = true) ∧
      (s.begin cfg).state.trace =
        s.trace ++ beginSetupLog cfg s ++ beginResetLog cfg s ++ identityReadLog s ++ tail := by
  by_cases hid : identityByte s = ADS129xSensor.correctIdChip cfg
  · refine ⟨(if cfg.ADS_LIBRARY_VERBOSE_LEVEL > 0 then
      [.serialPrintln "Power-up sequency completed"] else []), ?_, ?_⟩
    · intro e he
      split at he <;> simp at he
      subst he
      rfl
    · rw [begin_accepted cfg s h0 hid]
      rfl
  · obtain ⟨log, hlog, hE⟩ :=
      error_halts cfg ADS129xSensor.msgIdentity (afterIdentityRead cfg s)
    refine ⟨log, hlog, ?_⟩
    rw [begin_eq cfg s h0, if_pos hid, hE]
    rfl

/-- The diagnostic echo of a command holds no delay. -/
theorem commandEcho_no_delay (cfg : Config) (command : Nat) :
    ∀ e ∈ commandEcho cfg command, Event.isDelay e = false := by
  intro e he
  unfold commandEcho at he
  split at he
  · simp at he
    rcases he with h | h <;> subst h <;> rfl
  · simp at he

/-- The opening of a bus transaction holds no delay. -/
theorem openingLog_no_delay (s : ADS129xSensor) :
    ∀ e ∈ openingLog s, Event.isDelay e = false := by
  intro e he
  unfold openingLog at he
  split at he
  · simp at he
  · simp at he
    rcases he with h | h <;> subst h <;> rfl

/-- C40: in `begin()` on a session with no instance registered, the two reset paths differ
in the wait that follows the reset. Without reset pin the log holds the exchange of the
RESET opcode 0x06, its diagnostic echo (no delay), `delayMicroseconds(10)` (10 =
`_ADS_T_CLK_18`, the ceiling of 18 x 0.514) and then the exchange of the SDATAC opcode
0x11. With a reset pin `doHardwareReset()` returns with the log extended by
`digitalWrite(resetPin, LOW)`, `delay(2)`, `digitalWrite(resetPin, HIGH)` only (2 =
`_ADS_T_CLK_2`), and in the log of `begin()` the write of HIGH is followed by the opening of
the bus transaction (no delay) and the exchange of 0x11: no delay stands between them. -/
theorem C40_reset_paths_differ_in_settle_time (cfg : Config) (s : ADS129xSensor)
    (h0 : s._ADS129xSensorPrivateInstance_ = 0) :
    (_ADS_T_CLK_18 = 10 ∧ ⌈(18 : ℚ) * ((_ADS_T_CLK.1 : ℚ) / (_ADS_T_CLK.2 : ℚ))⌉₊ = 10 ∧
      _ADS_T_CLK_2 = 2) ∧
    (∀ e ∈ commandEcho cfg 0x06, Event.isDelay e = false) ∧
    (∀ e ∈ openingLog s, Event.isDelay e = false) ∧
    (s.resetPin = ADS_PIN_NOT_USED →
      ∃ pre post, (s.begin cfg).state.trace = s.trace ++ pre ++
        [.transfer 0x06 (s.miso (s.rxCount + 1) % 256)] ++ commandEcho cfg 0x06 ++
        [.delayMicroseconds 10, .transfer 0x11 (s.miso (s.rxCount + 2) % 256)] ++ post) ∧
    (s.resetPin ≠ ADS_PIN_NOT_USED →
      s.doHardwareReset cfg =
        .returned () { s with trace := s.trace ++
          [.digitalWrite s.resetPin .LOW, .delay 2, .digitalWrite s.resetPin .HIGH] } ∧
      ∃ pre post, (s.begin cfg).state.trace = s.trace ++ pre ++
        [.digitalWrite s.resetPin .LOW, .delay 2, .digitalWrite s.resetPin .HIGH] ++
        openingLog s ++ [.transfer 0x11 (s.miso s.rxCount % 256)] ++ post) := by
  obtain ⟨tail, _, htrace⟩ := begin_trace cfg s h0
  refine ⟨⟨_ADS_T_CLK_18_eq, ?_, _ADS_T_CLK_2_eq⟩, commandEcho_no_delay cfg 0x06,
    openingLog_no_delay s, fun hpin => ?_, fun hpin => ⟨?_, ?_⟩⟩
  · rw [Nat.ceil_eq_iff (by decide)]
    simp only [_ADS_T_CLK]
    norm_num
  · refine ⟨beginSetupLog cfg s ++ openingLog s ++
        [.transfer 0x11 (s.miso s.rxCount % 256)] ++ commandEcho cfg 0x11 ++
        [.delayMicroseconds _ADS_T_CLK_4],
      commandEcho cfg 0x11 ++
        [.digitalWrite s.chipSelectPin .HIGH, .endTransaction,
         .delayMicroseconds _ADS_T_CLK_4] ++ identityReadLog s ++ tail, ?_⟩
    rw [htrace]
    simp only [beginResetLog, if_pos hpin, _ADS_T_CLK_18_eq, List.append_assoc,
      List.cons_append, List.nil_append]
  · unfold ADS129xSensor.doHardwareReset
    rw [if_neg hpin, Outcome.returned_bind, _ADS_T_CLK_2_eq]
    simp [ADS129xSensor.emit]
  · refine ⟨beginSetupLog cfg s,
      commandEcho cfg 0x11 ++
        [.digitalWrite s.chipSelectPin .HIGH, .endTransaction,
         .delayMicroseconds _ADS_T_CLK_4] ++ identityReadLog s ++ tail, ?_⟩
    rw [htrace]
    simp only [beginResetLog, if_neg hpin, _ADS_T_CLK_2_eq, List.append_assoc,
      List.cons_append, List.nil_append]

/-- Witness of C40: the software path on `plainSession` and the hardware path on
`resetWiredSession` (reset line on pin 9). -/
theorem C40_reset_paths_differ_in_settle_time_witness :
    plainSession._ADS129xSensorPrivateInstance_ = 0 ∧
    plainSession.resetPin = ADS_PIN_NOT_USED ∧
    (∃ pre post, (plainSession.begin shippedConfig).state.trace =
      plainSession.trace ++ pre ++
        [.transfer 0x06 (plainSession.miso (plainSession.rxCount + 1) % 256)] ++
        commandEcho shippedConfig 0x06 ++
        [.delayMicroseconds 10,
         .transfer 0x11 (plainSession.miso (plainSession.rxCount + 2) % 256)] ++ post) ∧
    resetWiredSession._ADS129xSensorPrivateInstance_ = 0 ∧
    resetWiredSession.resetPin ≠ ADS_PIN_NOT_USED ∧
    (∃ pre post, (resetWiredSession.begin shippedConfig).state.trace =
      resetWiredSession.trace ++ pre ++
        [.digitalWrite resetWiredSession.resetPin .LOW, .delay 2,
         .digitalWrite resetWiredSession.resetPin .HIGH] ++
        openingLog resetWiredSession ++
        [.transfer 0x11 (resetWiredSession.miso resetWiredSession.rxCount % 256)] ++ post) :=
  ⟨rfl, rfl,
    (C40_reset_paths_differ_in_settle_time shippedConfig plainSession rfl).2.2.2.1 rfl,
    rfl, by decide,
    ((C40_reset_paths_differ_in_settle_time shippedConfig resetWiredSession rfl).2.2.2.2
      (by decide)).2⟩

/-! ### `end()` and the bus -/

/-- Normal form of `end()` on a session without start pin: SDATAC and STOP are sent with
`keepSpiOpen = true`, so the bus transaction opened for them (or found open) is not
released. -/
theorem end_eq (cfg : Config) (s : ADS129xSensor) (hpin : s.startPin = ADS_PIN_NOT_USED) :
    s.«end» cfg =
      .returned ()
        { s with
          isSpiOpen := true
          readingStatus := _ADS_NO_READING_NEW_DATA
          _ADS129xSensorPrivateInstance_ := 0
          rxCount := s.rxCount + 2
          trace := s.trace ++ openingLog s ++
            [.transfer 0x11 (s.miso s.rxCount % 256)] ++ commandEcho cfg 0x11 ++
            [.delayMicroseconds 3] ++
            [.transfer 0x0A (s.miso (s.rxCount + 1) % 256)] ++ commandEcho cfg 0x0A } := by
  have hidle : _ADS_NO_READING_NEW_DATA ≠ _ADS_READING_DATA_IN_RDATAC_MODE := by decide
  have hstop : ∀ s1 : ADS129xSensor,
      s1.readingStatus ≠ _ADS_READING_DATA_IN_RDATAC_MODE →
      s1.startPin = ADS_PIN_NOT_USED →
      s1.sendSPICommandSTOP cfg true =
        .returned () (s1.sendCommand cfg ads.commands.STOP true) :=
    fun s1 h1 h2 => ((accepted_commands cfg s1 true h1).2.2.2.2 h2).2
  unfold ADS129xSensor.«end»
  rw [sendSPICommandSDATAC_eq, Outcome.returned_bind, hstop]
  · rw [Outcome.returned_bind, sendCommand_eq]
    simp [openingLog, commandEcho, ads.commands.STOP]
  · exact hidle
  · exact hpin

/-- C33 (the code at the failing input): on `plainSession` (no start pin), brought up by
`begin()` (which returns with the bus released), `end()` returns with the bus-open flag
true: it opened a bus transaction (`SPI.beginTransaction`, chip-select LOW), sent 0x11 and
0x0A, and neither wrote chip-select HIGH nor called `SPI.endTransaction`. The same holds on
every session without start pin: `end()` returns with the bus-open flag true and with no
release added to the log. -/
theorem C33_end_leaves_bus_open :
    (plainSession.begin shippedConfig).didReturn = true ∧
    (plainSession.begin shippedConfig).state.isSpiOpen = false ∧
    (plainSession.begin shippedConfig).state.startPin = ADS_PIN_NOT_USED ∧
    ((plainSession.begin shippedConfig).state.«end» shippedConfig).didReturn = true ∧
    ((plainSession.begin shippedConfig).state.«end» shippedConfig).state.isSpiOpen = true ∧
    ((plainSession.begin shippedConfig).state.«end» shippedConfig).state.trace =
      (plainSession.begin shippedConfig).state.trace ++
        [.beginTransaction _ADS_SPI_MAX_SPEED _ADS_SPI_BIT_ORDER _ADS_SPI_MODE,
         .digitalWrite 10 .LOW, .transfer 0x11 0x90, .delayMicroseconds 3,
         .transfer 0x0A 0x90] ∧
    (∀ (cfg : Config) (s : ADS129xSensor), s.startPin = ADS_PIN_NOT_USED →
      ∃ s1 added, s.«end» cfg = .returned () s1 ∧ s1.isSpiOpen = true ∧
        s1.trace = s.trace ++ added ∧ Event.endTransaction ∉ added ∧
        Event.digitalWrite s.chipSelectPin .HIGH ∉ added) := by
  refine ⟨rfl, rfl, rfl, rfl, rfl, by decide, fun cfg s hpin => ?_⟩
  refine ⟨_, openingLog s ++
      [.transfer 0x11 (s.miso s.rxCount % 256)] ++ commandEcho cfg 0x11 ++
      [.delayMicroseconds 3] ++
      [.transfer 0x0A (s.miso (s.rxCount + 1) % 256)] ++ commandEcho cfg 0x0A,
    end_eq cfg s hpin, rfl, ?_, ?_, ?_⟩
  · simp only [List.append_assoc]
  · unfold openingLog commandEcho
    split_ifs <;> simp
  · unfold openingLog commandEcho
    split_ifs <;> simp

/-! ### Channel helpers: range of the channel number -/

/-- With a channel number of 0 or above `ADS_N_CHANNELS`, `enableChannel` stops in
`_ADS_ERROR` before anything else. -/
theorem enableChannel_rejects (cfg : Config) (s : ADS129xSensor) (nChannel : Nat)
    (channelInput : Int) (keepSpiOpen : Bool)
    (hn : nChannel = 0 ∨ nChannel > ADS_N_CHANNELS cfg) :
    FailsFatally (s.enableChannel cfg nChannel channelInput keepSpiOpen) s := by
  unfold ADS129xSensor.enableChannel
  by_cases h0 : nChannel = 0
  · rw [if_pos h0]
    exact guard_fails cfg _ s _
  · have hbig : nChannel > ADS_N_CHANNELS cfg := hn.resolve_left h0
    rw [if_neg h0, Outcome.returned_bind, if_pos hbig]
    exact guard_fails cfg _ s _

/-- C38: for `nChannel` = 0 and for every `nChannel` above `ADS_N_CHANNELS`, `enableChannel`
never returns, at every verbosity level: the program stops in `_ADS_ERROR` in the state of
the call, the log having gained diagnostic (Serial) entries only, so no register was read
or written and the bus-open flag is as before. -/
theorem C38_enableChannel_validates_channel_first (cfg : Config) (s : ADS129xSensor)
    (nChannel : Nat) (channelInput : Int) (keepSpiOpen : Bool)
    (hn : nChannel = 0 ∨ nChannel > ADS_N_CHANNELS cfg) :
    FailsFatally (s.enableChannel cfg nChannel channelInput keepSpiOpen) s ∧
    (s.enableChannel cfg nChannel channelInput keepSpiOpen).didReturn = false ∧
    txBytes (s.enableChannel cfg nChannel channelInput keepSpiOpen).state.trace =
      txBytes s.trace ∧
    (s.enableChannel cfg nChannel channelInput keepSpiOpen).state.isSpiOpen = s.isSpiOpen ∧
    (s.enableChannel cfg nChannel channelInput keepSpiOpen).state.rxCount = s.rxCount := by
  have h := enableChannel_rejects cfg s nChannel channelInput keepSpiOpen hn
  obtain ⟨log, hlog, hE⟩ := h
  have htx : txBytes log = [] := by
    unfold txBytes
    rw [List.flatMap_eq_nil_iff]
    intro e he
    have h := hlog e he
    cases e <;> first | rfl | simp [Event.isSerial] at h
  refine ⟨⟨log, hlog, hE⟩, ?_, ?_, ?_, ?_⟩
  · rw [hE]
    rfl
  · rw [hE]
    show txBytes (s.trace ++ log) = _
    rw [txBytes_append, htx, List.append_nil]
  · rw [hE]
    rfl
  · rw [hE]
    rfl

/-- Witness of C38: channel 0 and channel 5 of the 4-channel build, on the fresh
session. -/
theorem C38_enableChannel_validates_channel_first_witness :
    ((0 : Nat) = 0 ∨ 0 > ADS_N_CHANNELS shippedConfig) ∧
    FailsFatally (freshSession.enableChannel shippedConfig 0 (-1) false) freshSession ∧
    ((5 : Nat) = 0 ∨ 5 > ADS_N_CHANNELS shippedConfig) ∧
    FailsFatally (freshSession.enableChannel quietConfig 5 1 true) freshSession :=
  ⟨Or.inl rfl,
    (C38_enableChannel_validates_channel_first shippedConfig freshSession 0 (-1) false
      (Or.inl rfl)).1,
    Or.inr (by decide),
    (C38_enableChannel_validates_channel_first quietConfig freshSession 5 1 true
      (Or.inr (by decide))).1⟩

/-! ### Channel helpers without range check -/

set_option maxRecDepth 1000000 in
/-- Setting the power-down bit of a byte gives a byte. -/
theorem disable_byte : ∀ r < 256,
    (r ||| ads.registers.chnSet.B_PDn) % 256 = r ||| 0x80 ∧
    (r ||| 0x80) &&& 0x80 = 0x80 ∧
    (r ||| 0x80) &&& 0x7F = r &&& 0x7F := by
  decide

/-- C35: in a mode other than ContinuousStream and with the bus closed,
`disableChannel(n, false, keepSpiOpen)` returns, and what it adds to the log is one bus
transaction: `SPI.beginTransaction`, chip-select LOW, the read frame `0x20 | a`, 0x00, 0x00
of register `a` = 0x04 + n (as a byte), the write frame `0x40 | a`, 0x00, `r | 0x80` to
the same register, where `r` is the byte received in the third exchange, the settle delay
when `a` is 0x01 or 0x16, and the release (chip-select HIGH, `SPI.endTransaction`) unless
`keepSpiOpen`. The value written is the value read with the power-down bit set: its other
bits are those read. -/
theorem C35_disableChannel_sets_power_down_only (cfg : Config) (s : ADS129xSensor)
    (n : Nat) (keepSpiOpen : Bool)
    (hmode : s.readingStatus ≠ _ADS_READING_DATA_IN_RDATAC_MODE)
    (hopen : s.isSpiOpen = false) :
    ∃ s1, s.disableChannel cfg n false keepSpiOpen = .returned () s1 ∧
      s1.trace = s.trace ++
        [.beginTransaction _ADS_SPI_MAX_SPEED _ADS_SPI_BIT_ORDER _ADS_SPI_MODE,
         .digitalWrite s.chipSelectPin .LOW,
         .transfer ((0x20 ||| ((0x04 + n) % 256)) % 256) (s.miso s.rxCount % 256),
         .transfer 0x00 (s.miso (s.rxCount + 1) % 256),
         .transfer 0x00 (s.miso (s.rxCount + 2) % 256),
         .transfer ((0x40 ||| ((0x04 + n) % 256)) % 256) (s.miso (s.rxCount + 3) % 256),
         .transfer 0x00 (s.miso (s.rxCount + 4) % 256),
         .transfer ((s.miso (s.rxCount + 2) % 256) ||| 0x80) (s.miso (s.rxCount + 5) % 256)] ++
        (if (0x04 + n) % 256 = 0x01 ∨ (0x04 + n) % 256 = 0x16 then [.delay 10] else []) ++
        (if keepSpiOpen then [] else [.digitalWrite s.chipSelectPin .HIGH, .endTransaction]) ∧
      s1.isSpiOpen = keepSpiOpen ∧
      ((s.miso (s.rxCount + 2) % 256) ||| 0x80) &&& 0x80 = 0x80 ∧
      ((s.miso (s.rxCount + 2) % 256) ||| 0x80) &&& 0x7F = s.miso (s.rxCount + 2) % 256 &&& 0x7F ∧
      (n ≤ 8 → (0x04 + n) % 256 = 0x04 + n ∧
        (0x20 ||| ((0x04 + n) % 256)) % 256 = 0x20 ||| (0x04 + n) ∧
        (0x40 ||| ((0x04 + n) % 256)) % 256 = 0x40 ||| (0x04 + n) ∧
        ¬ ((0x04 + n) % 256 = 0x01 ∨ (0x04 + n) % 256 = 0x16)) := by
  have hr : s.miso (s.rxCount + 2) % 256 < 256 := Nat.mod_lt _ (by decide)
  refine ⟨_, disableChannel_eq cfg s n false keepSpiOpen hmode, ?_, rfl,
    (disable_byte _ hr).2.1, (disable_byte _ hr).2.2, fun hn => ?_⟩
  · show s.trace ++ readModifyWriteLog s _ _ _ = _
    simp only [readModifyWriteLog, writeFrame, openingLog, closingLog, hopen,
      (disable_byte _ hr).1,
      ads.registers.chnSet._BASE_REG_ADDR, ads.commands.RREG, ads.commands.WREG,
      ads.registers.config1.REG_ADDR, ads.registers.resp.REG_ADDR, _ADS_T_CLK_18_eq]
    simp
  · have h4 : (0x04 + n) % 256 = 0x04 + n := by omega
    rw [h4]
    refine ⟨rfl, or_byte_lt 0x20 _ (by decide) (by omega),
      or_byte_lt 0x40 _ (by decide) (by omega), by omega⟩

/-- Witness of C35: channel 1 on the fresh session, releasing the bus. -/
theorem C35_disableChannel_sets_power_down_only_witness :
    freshSession.readingStatus ≠ _ADS_READING_DATA_IN_RDATAC_MODE ∧
    freshSession.isSpiOpen = false ∧
    (freshSession.disableChannel shippedConfig 1 false false).state.trace =
      [.beginTransaction _ADS_SPI_MAX_SPEED _ADS_SPI_BIT_ORDER _ADS_SPI_MODE,
       .digitalWrite 10 .LOW, .transfer 0x25 0, .transfer 0x00 1, .transfer 0x00 2,
       .transfer 0x45 3, .transfer 0x00 4, .transfer 0x82 5,
       .digitalWrite 10 .HIGH, .endTransaction] ∧
    ∃ s1, freshSession.disableChannel shippedConfig 1 false false = .returned () s1 ∧
      s1.isSpiOpen = false :=
  have h := C35_disableChannel_sets_power_down_only shippedConfig freshSession 1 false
    (by decide) rfl
  ⟨by decide, rfl, by decide, h.elim fun s1 hs => ⟨s1, hs.1, hs.2.2.1⟩⟩

/-- With a channel number of 0 or above `ADS_N_CHANNELS`, `enableChannelAndSetGain` runs its
own read and write of register 0x04 + nChannel and then stops in the range check of
`enableChannel`. -/
theorem enableChannelAndSetGain_rejects (cfg : Config) (s : ADS129xSensor) (nChannel : Nat)
    (channelGainConstant : Nat) (channelInput : Int) (keepSpiOpen : Bool)
    (hn : nChannel = 0 ∨ nChannel > ADS_N_CHANNELS cfg)
    (hmode : s.readingStatus ≠ _ADS_READING_DATA_IN_RDATAC_MODE) :
    ∃ log, (∀ e ∈ log, Event.isSerial e = true) ∧
      s.enableChannelAndSetGain cfg nChannel channelGainConstant channelInput keepSpiOpen =
        .halted
          { s with
            isSpiOpen := true
            rxCount := s.rxCount + 6
            trace := s.trace ++
              readModifyWriteLog s ((ads.registers.chnSet._BASE_REG_ADDR + nChannel) % 256)
                (((s.miso (s.rxCount + 2) % 256) &&& complementByte 0x70) |||
                  channelGainConstant) true ++ log } := by
  unfold ADS129xSensor.enableChannelAndSetGain
  simp only []
  rw [← Outcome.bind_assoc,
    readModifyWrite_eq cfg s _
      (fun r => (r &&& complementByte (ads.registers.chnSet.B_GAINn0 |||
        ads.registers.chnSet.B_GAINn1 ||| ads.registers.chnSet.B_GAINn2)) |||
        channelGainConstant) true hmode,
    Outcome.returned_bind]
  obtain ⟨log, hlog, hE⟩ := enableChannel_rejects cfg
    { s with
      isSpiOpen := true
      rxCount := s.rxCount + 6
      trace := s.trace ++
        readModifyWriteLog s ((ads.registers.chnSet._BASE_REG_ADDR + nChannel) % 256)
          (((s.miso (s.rxCount + 2) % 256) &&& complementByte
            (ads.registers.chnSet.B_GAINn0 ||| ads.registers.chnSet.B_GAINn1 |||
              ads.registers.chnSet.B_GAINn2)) ||| channelGainConstant) true }
    nChannel channelInput keepSpiOpen hn
  exact ⟨log, hlog, hE⟩

/-- C39: `disableChannel` and `enableChannelAndSetGain` check no channel range before
writing. In a mode other than ContinuousStream, for every channel number `n`,
`disableChannel(n, ...)` returns after the read frame and the write frame `0x40 | a`, 0x00,
`r | 0x80` to the register `a` = 0x04 + n (as a byte); for `n` = 0 or above
`ADS_N_CHANNELS`, `enableChannelAndSetGain(n, g, ...)` sends the read frame and the write
frame `0x40 | a`, 0x00, `(r & 0x8F) | g` to that register and only then never returns (the
nested `enableChannel` stops in `_ADS_ERROR`), the bus transaction being left open. For
`n` = 0 the register written is 0x04, the address of LOFF: the frames start with 0x24 and
0x44. -/
theorem C39_channel_helpers_write_without_range_check (cfg : Config) (s : ADS129xSensor)
    (n g : Nat) (shorted : Bool) (channelInput : Int) (keepSpiOpen : Bool)
    (hmode : s.readingStatus ≠ _ADS_READING_DATA_IN_RDATAC_MODE) :
    (∃ s1, s.disableChannel cfg n shorted keepSpiOpen = .returned () s1 ∧
      txBytes s1.trace = txBytes s.trace ++
        [(0x20 ||| ((0x04 + n) % 256)) % 256, 0x00, 0x00,
         (0x40 ||| ((0x04 + n) % 256)) % 256, 0x00, (s.miso (s.rxCount + 2) % 256) ||| 0x80]) ∧
    ((n = 0 ∨ n > ADS_N_CHANNELS cfg) →
      ∃ s1, s.enableChannelAndSetGain cfg n g channelInput keepSpiOpen = .halted s1 ∧
        txBytes s1.trace = txBytes s.trace ++
          [(0x20 ||| ((0x04 + n) % 256)) % 256, 0x00, 0x00,
           (0x40 ||| ((0x04 + n) % 256)) % 256, 0x00,
           (((s.miso (s.rxCount + 2) % 256) &&& 0x8F) ||| g) % 256] ∧
        s1.isSpiOpen = true) ∧
    (ads.registers.loff.REG_ADDR = 0x04 ∧ ads.registers.chnSet._BASE_REG_ADDR = 0x04 ∧
      (0x20 ||| ((0x04 + 0) % 256)) % 256 = 0x24 ∧
      (0x40 ||| ((0x04 + 0) % 256)) % 256 = 0x44 ∧
      0x44 &&& 0x1F = ads.registers.loff.REG_ADDR) := by
  have hr : s.miso (s.rxCount + 2) % 256 < 256 := Nat.mod_lt _ (by decide)
  have hserial : ∀ log : List Event, (∀ e ∈ log, Event.isSerial e = true) →
      txBytes log = [] := by
    intro log hlog
    unfold txBytes
    rw [List.flatMap_eq_nil_iff]
    intro e he
    have h := hlog e he
    cases e <;> first | rfl | simp [Event.isSerial] at h
  refine ⟨⟨_, disableChannel_eq cfg s n shorted keepSpiOpen hmode, ?_⟩, fun hn => ?_,
    by decide⟩
  · show txBytes (s.trace ++ readModifyWriteLog s _ _ _) = _
    rw [txBytes_append, txBytes_readModifyWriteLog, (disable_byte _ hr).1]
    rfl
  · obtain ⟨log, hlog, hE⟩ :=
      enableChannelAndSetGain_rejects cfg s n g channelInput keepSpiOpen hn hmode
    refine ⟨_, hE, ?_, rfl⟩
    show txBytes (s.trace ++ readModifyWriteLog s _ _ _ ++ log) = _
    rw [txBytes_append, txBytes_append, txBytes_readModifyWriteLog, hserial log hlog,
      List.append_nil]
    rfl

/-- Witness of C39: channel 0 on the fresh session. -/
theorem C39_channel_helpers_write_without_range_check_witness :
    freshSession.readingStatus ≠ _ADS_READING_DATA_IN_RDATAC_MODE ∧
    ((0 : Nat) = 0 ∨ 0 > ADS_N_CHANNELS shippedConfig) ∧
    txBytes (freshSession.disableChannel shippedConfig 0 false false).state.trace =
      [0x24, 0x00, 0x00, 0x44, 0x00, 0x82] ∧
    (freshSession.enableChannelAndSetGain shippedConfig 0 0x60 (-1) false).didReturn = false ∧
    ∃ s1, freshSession.enableChannelAndSetGain shippedConfig 0 0x60 (-1) false = .halted s1 ∧
      txBytes s1.trace = txBytes freshSession.trace ++
        [(0x20 ||| ((0x04 + 0) % 256)) % 256, 0x00, 0x00,
         (0x40 ||| ((0x04 + 0) % 256)) % 256, 0x00,
         (((freshSession.miso (freshSession.rxCount + 2) % 256) &&& 0x8F) ||| 0x60) % 256] ∧
      s1.isSpiOpen = true :=
  ⟨by decide, Or.inl rfl, by decide, rfl,
    (C39_channel_helpers_write_without_range_check shippedConfig freshSession 0 0x60 false
      (-1) false (by decide)).2.1 (Or.inl rfl)⟩

/-! ### The first byte of a frame -/

set_option maxRecDepth 1000000 in
/-- The opcode bytes of the register frames for addresses below 0x20. -/
theorem opcode_bytes_small : ∀ a < 0x20,
    0x20 ≤ (ads.commands.RREG ||| a) ∧ (ads.commands.RREG ||| a) ≤ 0x3F ∧
    0x40 ≤ (ads.commands.WREG ||| a) ∧ (ads.commands.WREG ||| a) ≤ 0x5F ∧
    (ads.commands.RREG ||| a) &&& 0x1F = a ∧ (ads.commands.WREG ||| a) &&& 0x1F = a ∧
    (ads.commands.RREG ||| a) ∉ ads.commands.systemAndReadCommands ∧
    (ads.commands.WREG ||| a) ∉ ads.commands.systemAndReadCommands ∧
    ∀ b < 0x20, (ads.commands.RREG ||| a) ≠ (ads.commands.WREG ||| b) := by
  decide

set_option maxRecDepth 1000000 in
/-- The opcode bytes of the register frames for addresses from 0x20 on: the five low bits
are not the address. -/
theorem opcode_bytes_large : ∀ a < 256, 0x20 ≤ a →
    ((ads.commands.RREG ||| a) % 256) &&& 0x1F ≠ a ∧
    ((ads.commands.WREG ||| a) % 256) &&& 0x1F ≠ a := by
  decide

/-- C36: the register frames start with `RREG | a` = `0x20 | a` (read) and `WREG | a` =
`0x40 | a` (write). For every address `a` below 0x20, which covers every address of the
register map (0x00..0x19), `0x20 | a` lies in 0x20..0x3F and `0x40 | a` in 0x40..0x5F, so
the two kinds never meet, neither is one of the command opcodes 0x02, 0x04, 0x06, 0x08,
0x0A, 0x10, 0x11, 0x12, and the address is the byte AND 0x1F. For every byte address from
0x20 on, the byte AND 0x1F is not the address; for example `readRegister(0x40)` sends 0x60,
which has the WREG bit set and is the byte `writeRegister(0x20, d)` starts with. -/
theorem C36_first_byte_identifies_frame_kind :
    (ads.commands.RREG = 0x20 ∧ ads.commands.WREG = 0x40 ∧
      ads.commands.systemAndReadCommands = [0x02, 0x04, 0x06, 0x08, 0x0A, 0x10, 0x11, 0x12]) ∧
    (∀ (cfg : Config) (s : ADS129xSensor) (a d : Nat) (keepSpiOpen : Bool),
      s.readingStatus ≠ _ADS_READING_DATA_IN_RDATAC_MODE →
      txBytes (s.readRegister cfg a keepSpiOpen).state.trace =
        txBytes s.trace ++ [(ads.commands.RREG ||| a) % 256, 0x00, 0x00] ∧
      txBytes (s.writeRegister cfg a d keepSpiOpen).state.trace =
        txBytes s.trace ++ [(ads.commands.WREG ||| a) % 256, 0x00, d % 256]) ∧
    (∀ a ∈ ads.registers.addresses, a ≤ 0x19 ∧ a < 0x20) ∧
    (∀ a < 0x20,
      0x20 ≤ (ads.commands.RREG ||| a) ∧ (ads.commands.RREG ||| a) ≤ 0x3F ∧
      0x40 ≤ (ads.commands.WREG ||| a) ∧ (ads.commands.WREG ||| a) ≤ 0x5F ∧
      (ads.commands.RREG ||| a) &&& 0x1F = a ∧ (ads.commands.WREG ||| a) &&& 0x1F = a ∧
      (ads.commands.RREG ||| a) ∉ ads.commands.systemAndReadCommands ∧
      (ads.commands.WREG ||| a) ∉ ads.commands.systemAndReadCommands ∧
      ∀ b < 0x20, (ads.commands.RREG ||| a) ≠ (ads.commands.WREG ||| b)) ∧
    (∀ a < 256, 0x20 ≤ a →
      ((ads.commands.RREG ||| a) % 256) &&& 0x1F ≠ a ∧
      ((ads.commands.WREG ||| a) % 256) &&& 0x1F ≠ a) ∧
    (txBytes (freshSession.readRegister shippedConfig 0x40 false).state.trace =
        [0x60, 0x00, 0x00] ∧
      txBytes (freshSession.writeRegister shippedConfig 0x20 0x07 false).state.trace =
        [0x60, 0x00, 0x07] ∧
      0x60 = ads.commands.WREG ||| 0x20 ∧ 0x60 &&& ads.commands.WREG = ads.commands.WREG ∧
      ¬ (0x60 ≤ 0x3F)) := by
  refine ⟨⟨rfl, rfl, rfl⟩, fun cfg s a d keepSpiOpen hmode => ⟨?_, ?_⟩, by decide,
    opcode_bytes_small, opcode_bytes_large, by decide, by decide, by decide, by decide,
    by decide⟩
  · rw [readRegister_accepted cfg s a keepSpiOpen hmode]
    show txBytes (s.trace ++ _ ++ _ ++ _) = _
    cases keepSpiOpen <;> cases hopen : s.isSpiOpen <;>
      simp [txBytes_append] <;> simp [txBytes, Event.txBytes]
  · rw [writeRegister_accepted cfg s a d keepSpiOpen hmode]
    show txBytes (s.trace ++ _ ++ _ ++ _ ++ _) = _
    by_cases hreg : a = ads.registers.config1.REG_ADDR ∨ a = ads.registers.resp.REG_ADDR <;>
      cases keepSpiOpen <;> cases hopen : s.isSpiOpen <;>
      simp [txBytes_append, hreg] <;> simp [txBytes, Event.txBytes]

/-- Witness of C36: the frames of CONFIG3 (0x03) on the fresh session. -/
theorem C36_first_byte_identifies_frame_kind_witness :
    freshSession.readingStatus ≠ _ADS_READING_DATA_IN_RDATAC_MODE ∧
    (0x03 : Nat) < 0x20 ∧
    txBytes (freshSession.readRegister shippedConfig 0x03 false).state.trace =
      txBytes freshSession.trace ++ [(ads.commands.RREG ||| 0x03) % 256, 0x00, 0x00] ∧
    (ads.commands.RREG ||| 0x03) &&& 0x1F = 0x03 ∧
    (ads.commands.WREG ||| 0x03) &&& 0x1F = 0x03 ∧
    (0x40 : Nat) < 256 ∧ (0x20 : Nat) ≤ 0x40 ∧
    ((ads.commands.RREG ||| 0x40) % 256) &&& 0x1F ≠ 0x40 :=
  have h := C36_first_byte_identifies_frame_kind
  ⟨by decide, by decide, (h.2.1 shippedConfig freshSession 0x03 0 false (by decide)).1,
    (h.2.2.2.1 0x03 (by decide)).2.2.2.2.1, (h.2.2.2.1 0x03 (by decide)).2.2.2.2.2.1,
    by decide, by decide, (h.2.2.2.2.1 0x40 (by decide) (by decide)).1⟩

/-! ### Properties kept by the steps of the foreground methods -/

/-- Sequencing keeps a property that both parts keep. -/
theorem kept_bind {I : ADS129xSensor → Prop} {α β : Type} (o : Outcome α)
    (f : α → ADS129xSensor → Outcome β)
    (ho : I o.state) (hf : ∀ v s1, I s1 → I (f v s1).state) : I (o.bind f).state := by
  cases o with
  | returned v s1 => exact hf v s1 ho
  | halted s1 => exact ho

/-- Kept by `_ADS_WARNING`. -/
theorem KeptBySteps.warning {I : ADS129xSensor → Prop} (st : KeptBySteps I) (cfg : Config)
    (msg : String) (s : ADS129xSensor) (h : I s) : I (_ADS_WARNING cfg msg s).state := by
  unfold _ADS_WARNING
  split
  · exact st.plain _ _ (st.plain _ _ (st.plain _ _ h rfl) rfl) rfl
  · exact h

/-- Kept by `_ADS_ERROR`. -/
theorem KeptBySteps.error {I : ADS129xSensor → Prop} (st : KeptBySteps I) (cfg : Config)
    (msg : String) (s : ADS129xSensor) (h : I s) : I (_ADS_ERROR cfg msg s).state := by
  unfold _ADS_ERROR
  split
  · exact st.plain _ _ (st.plain _ _ (st.plain _ _ h rfl) rfl) rfl
  · exact h

/-- Kept by a guard `if (c) _ADS_ERROR(msg);`. -/
theorem KeptBySteps.guard {I : ADS129xSensor → Prop} (st : KeptBySteps I) (cfg : Config)
    (c : Prop) [Decidable c] (msg : String) (s : ADS129xSensor) (h : I s) :
    I (if c then _ADS_ERROR cfg msg s else Outcome.returned () s).state := by
  split
  · exact st.error cfg msg s h
  · exact h

/-- Kept by the rejection of a call in RDATAC mode. -/
theorem KeptBySteps.rejection {I : ADS129xSensor → Prop} (st : KeptBySteps I) (cfg : Config)
    {α : Type} (msg : String) (v : α) (s : ADS129xSensor) (h : I s) :
    I ((_ADS_WARNING cfg msg s).bind fun _ s1 => Outcome.returned v s1).state :=
  kept_bind _ _ (st.warning cfg msg s h) (fun _ _ h1 => h1)

/-- Kept by `sendCommand`. -/
theorem KeptBySteps.sendCommand {I : ADS129xSensor → Prop} (st : KeptBySteps I)
    (cfg : Config) (s : ADS129xSensor) (command : Nat) (keepSpiOpen : Bool) (h : I s) :
    I (s.sendCommand cfg command keepSpiOpen) := by
  have h1 := st.transfer _ command (st.beginSpi s h)
  have h2 : I (if cfg.ADS_LIBRARY_VERBOSE_LEVEL > 1 then
      ((SPI.transfer s.beginSpiTransaction command).2.emit
        (.serialPrint "Command sent: ")).emit (.serialPrintlnNum command 2)
      else (SPI.transfer s.beginSpiTransaction command).2) := by
    split
    · exact st.plain _ _ (st.plain _ _ h1 rfl) rfl
    · exact h1
  unfold ADS129xSensor.sendCommand
  cases keepSpiOpen
  · exact st.endSpi _ h2
  · exact h2

/-- Kept by `readRegister`. -/
theorem KeptBySteps.readRegister {I : ADS129xSensor → Prop} (st : KeptBySteps I)
    (cfg : Config) (s : ADS129xSensor) (a : Nat) (keepSpiOpen : Bool) (h : I s) :
    I (s.readRegister cfg a keepSpiOpen).state := by
  unfold ADS129xSensor.readRegister
  split
  · exact st.rejection cfg _ _ s h
  · have h3 := st.transfer _ 0x00 (st.transfer _ 0x00
      (st.transfer _ (ads.commands.RREG ||| a) (st.beginSpi s h)))
    cases keepSpiOpen
    · exact st.endSpi _ h3
    · exact h3

/-- Kept by `writeRegister`. -/
theorem KeptBySteps.writeRegister {I : ADS129xSensor → Prop} (st : KeptBySteps I)
    (cfg : Config) (s : ADS129xSensor) (a d : Nat) (keepSpiOpen : Bool) (h : I s) :
    I (s.writeRegister cfg a d keepSpiOpen).state := by
  unfold ADS129xSensor.writeRegister
  split
  · exact st.rejection cfg _ _ s h
  · have h3 := st.transfer _ d (st.transfer _ 0x00
      (st.transfer _ (ads.commands.WREG ||| a) (st.beginSpi s h)))
    have h4 : I (if a = ads.registers.config1.REG_ADDR ∨ a = ads.registers.resp.REG_ADDR
        then (SPI.transfer (SPI.transfer (SPI.transfer s.beginSpiTransaction
          (ads.commands.WREG ||| a)).2 0x00).2 d).2.emit (.delay _ADS_T_CLK_18)
        else (SPI.transfer (SPI.transfer (SPI.transfer s.beginSpiTransaction
          (ads.commands.WREG ||| a)).2 0x00).2 d).2) := by
      split
      · exact st.plain _ _ h3 rfl
      · exact h3
    cases keepSpiOpen
    · exact st.endSpi _ h4
    · exact h4

/-- Kept by a batch of register writes. -/
theorem KeptBySteps.writeAll {I : ADS129xSensor → Prop} (st : KeptBySteps I) (cfg : Config)
    (writes : List (Nat × Nat)) :
    ∀ s : ADS129xSensor, I s → I (writeAll cfg s writes).state := by
  induction writes with
  | nil => intro s h; exact h
  | cons p rest ih =>
    intro s h
    obtain ⟨a, d⟩ := p
    exact kept_bind _ _ (st.writeRegister cfg s a d true h) (fun _ s1 h1 => ih s1 h1)

/-- Kept by `setAllRegisterToResetValuesWithoutResetCommand`. -/
theorem KeptBySteps.setAll {I : ADS129xSensor → Prop} (st : KeptBySteps I) (cfg : Config)
    (s : ADS129xSensor) (keepSpiOpen : Bool) (h : I s) :
    I (s.setAllRegisterToResetValuesWithoutResetCommand cfg keepSpiOpen).state := by
  rw [setAll_eq_writeAll]
  exact kept_bind _ _ (st.writeAll cfg _ s h)
    (fun _ s1 h1 => st.writeRegister cfg s1 _ _ keepSpiOpen h1)

/-- Kept by the eight `sendSPICommand...` methods. -/
theorem KeptBySteps.commands {I : ADS129xSensor → Prop} (st : KeptBySteps I) (cfg : Config)
    (s : ADS129xSensor) (keepSpiOpen : Bool) (h : I s) :
    I (s.sendSPICommandWAKEUP cfg keepSpiOpen).state ∧
    I (s.sendSPICommandSTANDBY cfg keepSpiOpen).state ∧
    I (s.sendSPICommandRESET cfg keepSpiOpen).state ∧
    I (s.sendSPICommandSTART cfg keepSpiOpen).state ∧
    I (s.sendSPICommandSTOP cfg keepSpiOpen).state ∧
    I (s.sendSPICommandRDATAC cfg keepSpiOpen).state ∧
    I (s.sendSPICommandSDATAC cfg keepSpiOpen).state ∧
    I (s.sendSPICommandRDATA cfg keepSpiOpen).state := by
  have hsend : ∀ (s1 : ADS129xSensor) (c : Nat), I s1 → I (s1.sendCommand cfg c keepSpiOpen) :=
    fun s1 c h1 => st.sendCommand cfg s1 c keepSpiOpen h1
  refine ⟨?_, ?_, ?_, ?_, ?_, ?_, ?_, ?_⟩
  · unfold ADS129xSensor.sendSPICommandWAKEUP
    split
    · exact st.rejection cfg _ _ s h
    · exact st.plain _ _ (hsend s _ h) rfl
  · unfold ADS129xSensor.sendSPICommandSTANDBY
    split
    · exact st.rejection cfg _ _ s h
    · exact hsend s _ h
  · unfold ADS129xSensor.sendSPICommandRESET
    refine kept_bind _ _ (st.guard cfg _ _ s h) (fun _ s1 h1 => ?_)
    split
    · exact st.rejection cfg _ _ s1 h1
    · exact st.plain _ _ (hsend s1 _ h1) rfl
  · unfold ADS129xSensor.sendSPICommandSTART
    refine kept_bind _ _ (st.guard cfg _ _ s h) (fun _ s1 h1 => ?_)
    split
    · exact st.rejection cfg _ _ s1 h1
    · exact st.plain _ _ (hsend s1 _ h1) rfl
  · unfold ADS129xSensor.sendSPICommandSTOP
    refine kept_bind _ _ (st.guard cfg _ _ s h) (fun _ s1 h1 => ?_)
    split
    · exact st.rejection cfg _ _ s1 h1
    · exact hsend s1 _ h1
  · unfold ADS129xSensor.sendSPICommandRDATAC
    split
    · exact st.rejection cfg _ _ s h
    · exact st.mode _ _ (st.plain _ _ (hsend s _ h) rfl)
  · unfold ADS129xSensor.sendSPICommandSDATAC
    exact st.mode _ _ (st.plain _ _ (hsend s _ h) rfl)
  · unfold ADS129xSensor.sendSPICommandRDATA
    split
    · exact st.rejection cfg _ _ s h
    · have h1 := st.mode s _ADS_READING_DATA_IN_RDATA_MODE h
      show I (if cfg.ADS_LIBRARY_VERBOSE_LEVEL > 1 then _ else _)
      split
      · exact st.plain _ _ (st.plain _ _ h1 rfl) rfl
      · exact h1

/-- Kept by a failed guard: the rest of the method does not run. -/
theorem KeptBySteps.errorBind {I : ADS129xSensor → Prop} (st : KeptBySteps I) (cfg : Config)
    {β : Type} (msg : String) (s : ADS129xSensor) (f : Unit → ADS129xSensor → Outcome β)
    (h : I s) : I ((_ADS_ERROR cfg msg s).bind f).state := by
  have h1 := st.error cfg msg s h
  unfold _ADS_ERROR at h1 ⊢
  split
  · rw [if_pos (by assumption)] at h1
    exact h1
  · exact h

/-- Kept by the seven hardware-pin methods. -/
theorem KeptBySteps.pinMethods {I : ADS129xSensor → Prop} (st : KeptBySteps I)
    (cfg : Config) (s : ADS129xSensor) (h : I s) :
    I (s.doHardwareReset cfg).state ∧
    I (s.enableHardwareStartMode cfg).state ∧
    I (s.disableHardwareStartMode cfg).state ∧
    I (s.enableExternalClockSource cfg).state ∧
    I (s.disableExternalClockSource cfg).state ∧
    I (s.enableHardwarePowerDownMode cfg).state ∧
    I (s.disableHardwarePowerDownMode cfg).state := by
  refine ⟨?_, ?_, ?_, ?_, ?_, ?_, ?_⟩
  · unfold ADS129xSensor.doHardwareReset
    by_cases hp : s.resetPin = ADS_PIN_NOT_USED
    · rw [if_pos hp]
      exact st.errorBind cfg _ s _ h
    · rw [if_neg hp, Outcome.returned_bind]
      exact st.resetPin _ _ (st.plain _ _ (st.resetPin s _ h hp) rfl) hp
  · unfold ADS129xSensor.enableHardwareStartMode
    by_cases hp : s.startPin = ADS_PIN_NOT_USED
    · rw [if_pos hp]
      exact st.errorBind cfg _ s _ h
    · rw [if_neg hp, Outcome.returned_bind]
      exact st.plain _ _ (st.startPin s _ h hp) rfl
  · unfold ADS129xSensor.disableHardwareStartMode
    by_cases hp : s.startPin = ADS_PIN_NOT_USED
    · rw [if_pos hp]
      exact st.errorBind cfg _ s _ h
    · rw [if_neg hp, Outcome.returned_bind]
      exact st.plain _ _ (st.startPin s _ h hp) rfl
  · unfold ADS129xSensor.enableExternalClockSource
    by_cases hp : s.clkselPin = ADS_PIN_NOT_USED
    · rw [if_pos hp]
      exact st.errorBind cfg _ s _ h
    · rw [if_neg hp, Outcome.returned_bind]
      exact st.clkselPin s _ h hp
  · unfold ADS129xSensor.disableExternalClockSource
    by_cases hp : s.clkselPin = ADS_PIN_NOT_USED
    · rw [if_pos hp]
      exact st.errorBind cfg _ s _ h
    · rw [if_neg hp, Outcome.returned_bind]
      exact st.plain _ _ (st.clkselPin s _ h hp) rfl
  · unfold ADS129xSensor.enableHardwarePowerDownMode
    by_cases hp : s.pwdnPin = ADS_PIN_NOT_USED
    · rw [if_pos hp]
      exact st.errorBind cfg _ s _ h
    · rw [if_neg hp, Outcome.returned_bind]
      exact st.pwdnPin s _ h hp
  · unfold ADS129xSensor.disableHardwarePowerDownMode
    by_cases hp : s.pwdnPin = ADS_PIN_NOT_USED
    · rw [if_pos hp]
      exact st.errorBind cfg _ s _ h
    · rw [if_neg hp, Outcome.returned_bind]
      exact st.plain _ _ (st.pwdnPin s _ h hp) rfl

/-- Kept by the three channel helpers. -/
theorem KeptBySteps.channelHelpers {I : ADS129xSensor → Prop} (st : KeptBySteps I)
    (cfg : Config) (s : ADS129xSensor) (n g : Nat) (shorted : Bool) (channelInput : Int)
    (keepSpiOpen : Bool) (h : I s) :
    I (s.disableChannel cfg n shorted keepSpiOpen).state ∧
    I (s.enableChannel cfg n channelInput keepSpiOpen).state ∧
    I (s.enableChannelAndSetGain cfg n g channelInput keepSpiOpen).state := by
  have hen : ∀ s1 : ADS129xSensor, I s1 →
      I (s1.enableChannel cfg n channelInput keepSpiOpen).state := by
    intro s1 h1
    unfold ADS129xSensor.enableChannel
    refine kept_bind _ _ (st.guard cfg _ _ s1 h1) (fun _ s2 h2 => ?_)
    refine kept_bind _ _ (st.guard cfg _ _ s2 h2) (fun _ s3 h3 => ?_)
    exact kept_bind _ _ (st.readRegister cfg s3 _ true h3)
      (fun _ s4 h4 => st.writeRegister cfg s4 _ _ keepSpiOpen h4)
  refine ⟨?_, hen s h, ?_⟩
  · unfold ADS129xSensor.disableChannel
    exact kept_bind _ _ (st.readRegister cfg s _ true h)
      (fun _ s1 h1 => st.writeRegister cfg s1 _ _ keepSpiOpen h1)
  · unfold ADS129xSensor.enableChannelAndSetGain
    refine kept_bind _ _ (st.readRegister cfg s _ true h) (fun _ s1 h1 => ?_)
    exact kept_bind _ _ (st.writeRegister cfg s1 _ _ true h1) (fun _ s2 h2 => hen s2 h2)

/-- Kept by `end()`. -/
theorem KeptBySteps.finish {I : ADS129xSensor → Prop} (st : KeptBySteps I)
    (cfg : Config) (s : ADS129xSensor) (h : I s) : I (s.«end» cfg).state := by
  unfold ADS129xSensor.«end»
  refine kept_bind _ _ (st.commands cfg s true h).2.2.2.2.2.2.1 (fun _ s1 h1 => ?_)
  exact kept_bind _ _ (st.commands cfg s1 true h1).2.2.2.2.1 (fun _ s2 h2 => st.registered s2 0 h2)

/-- Every foreground method other than `begin()` and `getData()` keeps a property that the
steps keep, whether it returns or stops the program. -/
theorem KeptBySteps.foreground {I : ADS129xSensor → Prop} (st : KeptBySteps I)
    (cfg : Config) (s : ADS129xSensor) (op : PublicOp) (hop : op.isForeground = true)
    (h : I s) : I (op.apply cfg s).state := by
  cases op with
  | begin => exact absurd hop (by decide)
  | getData => exact absurd hop (by decide)
  | dataReady => exact absurd hop (by decide)
  | «end» => exact st.finish cfg s h
  | hasNewDataAvailable => exact h
  | doHardwareReset => exact (st.pinMethods cfg s h).1
  | enableHardwareStartMode => exact (st.pinMethods cfg s h).2.1
  | disableHardwareStartMode => exact (st.pinMethods cfg s h).2.2.1
  | enableExternalClockSource => exact (st.pinMethods cfg s h).2.2.2.1
  | disableExternalClockSource => exact (st.pinMethods cfg s h).2.2.2.2.1
  | enableHardwarePowerDownMode => exact (st.pinMethods cfg s h).2.2.2.2.2.1
  | disableHardwarePowerDownMode => exact (st.pinMethods cfg s h).2.2.2.2.2.2
  | readRegister a k =>
    exact kept_bind _ _ (st.readRegister cfg s a k h) (fun _ _ h1 => h1)
  | writeRegister a d k => exact st.writeRegister cfg s a d k h
  | setAllRegisterToResetValuesWithoutResetCommand k => exact st.setAll cfg s k h
  | sendSPICommandWAKEUP k => exact (st.commands cfg s k h).1
  | sendSPICommandSTANDBY k => exact (st.commands cfg s k h).2.1
  | sendSPICommandRESET k => exact (st.commands cfg s k h).2.2.1
  | sendSPICommandSTART k => exact (st.commands cfg s k h).2.2.2.1
  | sendSPICommandSTOP k => exact (st.commands cfg s k h).2.2.2.2.1
  | sendSPICommandRDATAC k => exact (st.commands cfg s k h).2.2.2.2.2.1
  | sendSPICommandSDATAC k => exact (st.commands cfg s k h).2.2.2.2.2.2.1
  | sendSPICommandRDATA k => exact (st.commands cfg s k h).2.2.2.2.2.2.2
  | disableChannel n sh k => exact (st.channelHelpers cfg s n 0 sh 0 k h).1
  | enableChannel n c k => exact (st.channelHelpers cfg s n 0 false c k h).2.1
  | enableChannelAndSetGain n g c k => exact (st.channelHelpers cfg s n g false c k h).2.2

/-- The first part of `begin()` as a chain of platform calls. -/
theorem beginPrologue_steps (cfg : Config) (s : ADS129xSensor) :
    s.beginPrologue cfg =
      (if cfg.ADS_LIBRARY_VERBOSE_LEVEL > 0 then
        ((((((s.emit .spiBegin).emit (.pinMode s.chipSelectPin .OUTPUT)).emit
          (.digitalWrite s.chipSelectPin .HIGH)).emit (.pinMode s.drdyPin .INPUT)).emit
          (.attachInterrupt s.drdyPin)).emit (.usingInterrupt s.drdyPin)).emit
          (.serialPrintln "Starting power-up sequency")
      else
        (((((s.emit .spiBegin).emit (.pinMode s.chipSelectPin .OUTPUT)).emit
          (.digitalWrite s.chipSelectPin .HIGH)).emit (.pinMode s.drdyPin .INPUT)).emit
          (.attachInterrupt s.drdyPin)).emit (.usingInterrupt s.drdyPin)).emit
        (.delay _ADS_POWER_UP_DELAY_MS) := by
  rw [beginPrologue_eq]
  by_cases hv : cfg.ADS_LIBRARY_VERBOSE_LEVEL > 0 <;> simp [hv, ADS129xSensor.emit]

/-- Kept by the first part of `begin()`, for a property that is also kept by its write of
chip-select HIGH. -/
theorem KeptBySteps.beginPrologue {I : ADS129xSensor → Prop} (st : KeptBySteps I)
    (hcs : ∀ s, I s → I (s.emit (.digitalWrite s.chipSelectPin .HIGH)))
    (cfg : Config) (s : ADS129xSensor) (h : I s) : I (s.beginPrologue cfg) := by
  rw [beginPrologue_steps]
  have h6 := st.plain _ (.usingInterrupt s.drdyPin) (st.plain _ (.attachInterrupt s.drdyPin)
    (st.plain _ (.pinMode s.drdyPin .INPUT) (hcs _ (st.plain _ (.pinMode s.chipSelectPin .OUTPUT)
      (st.plain _ .spiBegin h rfl) rfl)) rfl) rfl) rfl
  refine st.plain _ _ ?_ rfl
  split
  · exact st.plain _ _ h6 rfl
  · exact h6

/-- Kept by the configuration of the optional pins in `begin()`. -/
theorem KeptBySteps.beginOptionalPins {I : ADS129xSensor → Prop} (st : KeptBySteps I)
    (cfg : Config) (s : ADS129xSensor) (h : I s) : I (s.beginOptionalPins cfg).state := by
  unfold ADS129xSensor.beginOptionalPins
  refine kept_bind _ _ ?_ (fun _ s2 h2 => kept_bind _ _ ?_ (fun _ s3 h3 =>
    kept_bind _ _ ?_ (fun _ s4 h4 => ?_)))
  · split
    · exact (st.pinMethods cfg _ (st.plain _ (.pinMode s.clkselPin .OUTPUT) h rfl)).2.2.2.1
    · exact h
  · split
    · exact (st.pinMethods cfg _ (st.plain _ (.pinMode s2.startPin .OUTPUT) h2 rfl)).2.2.1
    · exact h2
  · split
    · exact (st.pinMethods cfg _
        (st.plain _ (.pinMode s3.pwdnPin .OUTPUT) h3 rfl)).2.2.2.2.2.2
    · exact h3
  · show I (if s4.resetPin ≠ ADS_PIN_NOT_USED then _ else _)
    split
    · exact st.resetPin _ _ (st.plain _ _ h4 rfl) (by assumption)
    · exact h4

/-- Kept by `resetADS()`. -/
theorem KeptBySteps.resetADS {I : ADS129xSensor → Prop} (st : KeptBySteps I)
    (cfg : Config) (s : ADS129xSensor) (h : I s) : I (s.resetADS cfg).state := by
  unfold ADS129xSensor.resetADS
  refine kept_bind _ _ ?_ (fun _ s2 h2 => st.mode s2 _ h2)
  split
  · exact kept_bind _ _ (st.commands cfg s true h).2.2.2.2.2.2.1
      (fun _ s2 h2 => (st.commands cfg s2 true h2).2.2.1)
  · exact (st.pinMethods cfg s h).1

/-- Kept by the part of `begin()` that follows the registration of the instance. -/
theorem KeptBySteps.beginBody {I : ADS129xSensor → Prop} (st : KeptBySteps I)
    (hcs : ∀ s, I s → I (s.emit (.digitalWrite s.chipSelectPin .HIGH)))
    (cfg : Config) (s : ADS129xSensor) (h : I s) :
    I ((((s.beginPrologue cfg).beginOptionalPins cfg).bind fun _ s =>
      (s.resetADS cfg).bind fun _ s =>
      (s.sendSPICommandSDATAC cfg false).bind fun _ s =>
      (s.readRegister cfg ads.registers.id.REG_ADDR false).bind fun idRegister s =>
      (if idRegister ≠ ADS129xSensor.correctIdChip cfg then
          _ADS_ERROR cfg ADS129xSensor.msgIdentity s
        else .returned () s).bind fun _ s =>
      .returned ()
        (if cfg.ADS_LIBRARY_VERBOSE_LEVEL > 0 then
          s.emit (.serialPrintln "Power-up sequency completed")
        else s))).state := by
  refine kept_bind _ _ (st.beginOptionalPins cfg _ (st.beginPrologue hcs cfg s h))
    (fun _ s1 h1 => ?_)
  refine kept_bind _ _ (st.resetADS cfg s1 h1) (fun _ s2 h2 => ?_)
  refine kept_bind _ _ (st.commands cfg s2 false h2).2.2.2.2.2.2.1 (fun _ s3 h3 => ?_)
  refine kept_bind _ _ (st.readRegister cfg s3 _ false h3) (fun v s4 h4 => ?_)
  refine kept_bind _ _ (st.guard cfg _ _ s4 h4) (fun _ s5 h5 => ?_)
  show I (if cfg.ADS_LIBRARY_VERBOSE_LEVEL > 0 then _ else _)
  split
  · exact st.plain _ _ h5 rfl
  · exact h5

/-- Kept by `begin()`, for a property that is also kept by the write of chip-select HIGH of
the pin configuration. -/
theorem KeptBySteps.begin {I : ADS129xSensor → Prop} (st : KeptBySteps I)
    (hcs : ∀ s, I s → I (s.emit (.digitalWrite s.chipSelectPin .HIGH)))
    (cfg : Config) (s : ADS129xSensor) (h : I s) : I (s.begin cfg).state := by
  rw [begin_parts]
  by_cases h0 : s._ADS129xSensorPrivateInstance_ = 0
  · rw [if_pos h0, Outcome.returned_bind]
    exact st.beginBody hcs cfg _ (st.registered s s.this h)
  · rw [if_neg h0]
    exact st.errorBind cfg _ s _ h

/-! ### The sample buffer and the freshness flag -/

/-- The steps of the foreground methods leave the sample buffer and the freshness flag as
they are in a given session. -/
theorem buffer_and_flag_kept (s0 : ADS129xSensor) :
    KeptBySteps (fun s => s.adsData = s0.adsData ∧ s.hasNewData = s0.hasNewData) where
  plain := fun _ _ h _ => h
  resetPin := fun _ _ h _ => h
  startPin := fun _ _ h _ => h
  pwdnPin := fun _ _ h _ => h
  clkselPin := fun _ _ h _ => h
  beginSpi := by
    intro s h
    unfold ADS129xSensor.beginSpiTransaction
    split
    · exact h
    · exact h
  endSpi := by
    intro s h
    unfold ADS129xSensor.endSpiTransaction
    split
    · exact h
    · exact h
  transfer := fun _ _ h => h
  mode := fun _ _ h => h
  registered := fun _ _ h => h

/-- A data-ready event outside Idle sets the freshness flag. -/
theorem handler_sets_flag (cfg : Config) (s : ADS129xSensor)
    (hmode : s.readingStatus ≠ _ADS_NO_READING_NEW_DATA) :
    (s._privateReadDataFromChip_ cfg).hasNewData = true := by
  have hend : ∀ s1 : ADS129xSensor, s1.endSpiTransaction.hasNewData = s1.hasNewData := by
    intro s1
    unfold ADS129xSensor.endSpiTransaction
    split <;> rfl
  unfold ADS129xSensor._privateReadDataFromChip_
  rw [if_neg hmode]
  simp only []
  rw [hend]

/-- C34: the sample buffer and the freshness flag have one writer and one clearer. Every
public method other than `getData()` (so `begin()`, `end()`, every `sendSPICommand...`,
`readRegister`, `writeRegister`, `setAllRegisterToResetValuesWithoutResetCommand`, the
channel helpers, the hardware-pin methods, `hasNewDataAvailable()`), whether it returns or
stops the program, leaves every byte of the buffer and the flag as they were. `getData()`
hands out the buffer unchanged and clears the flag. A data-ready event in Idle changes
nothing and outside Idle sets the flag. So a flag that was false and is true after one
operation was set by a data-ready event outside Idle, and a flag that was true and is false
after one operation was cleared by `getData()`. -/
theorem C34_buffer_and_flag_single_writer (cfg : Config) (s : ADS129xSensor) :
    (∀ op : PublicOp, op ≠ .getData → op ≠ .dataReady →
      (op.apply cfg s).state.adsData = s.adsData ∧
      (op.apply cfg s).state.hasNewData = s.hasNewData) ∧
    (s.getData.1 = s.adsData ∧ s.getData.2.adsData = s.adsData ∧
      s.getData.2.hasNewData = false) ∧
    (s.readingStatus = _ADS_NO_READING_NEW_DATA → s._privateReadDataFromChip_ cfg = s) ∧
    (s.readingStatus ≠ _ADS_NO_READING_NEW_DATA →
      (s._privateReadDataFromChip_ cfg).hasNewData = true) ∧
    (∀ op : PublicOp, s.hasNewData = false → (op.apply cfg s).state.hasNewData = true →
      op = .dataReady ∧ s.readingStatus ≠ _ADS_NO_READING_NEW_DATA) ∧
    (∀ op : PublicOp, s.hasNewData = true → (op.apply cfg s).state.hasNewData = false →
      op = .getData) := by
  have hidle : s.readingStatus = _ADS_NO_READING_NEW_DATA → s._privateReadDataFromChip_ cfg = s := by
    intro hmode
    unfold ADS129xSensor._privateReadDataFromChip_
    rw [if_pos hmode]
  have hfg : ∀ op : PublicOp, op ≠ .getData → op ≠ .dataReady →
      (op.apply cfg s).state.adsData = s.adsData ∧
      (op.apply cfg s).state.hasNewData = s.hasNewData := by
    intro op h1 h2
    by_cases hb : op = .begin
    · subst hb
      exact (buffer_and_flag_kept s).begin (fun _ h => h) cfg s ⟨rfl, rfl⟩
    · refine (buffer_and_flag_kept s).foreground cfg s op ?_ ⟨rfl, rfl⟩
      cases op <;> first | rfl | exact absurd rfl hb | exact absurd rfl h1 | exact absurd rfl h2
  refine ⟨hfg, ⟨rfl, rfl, rfl⟩, hidle, handler_sets_flag cfg s, ?_, ?_⟩
  · intro op hf ht
    by_cases hd : op = .dataReady
    · refine ⟨hd, fun hmode => ?_⟩
      subst hd
      have h1 : (s._privateReadDataFromChip_ cfg).hasNewData = true := ht
      rw [hidle hmode, hf] at h1
      exact absurd h1 (by decide)
    · by_cases hg : op = .getData
      · subst hg
        exact absurd ht (Bool.false_ne_true)
      · rw [(hfg op hg hd).2, hf] at ht
        exact absurd ht (by decide)
  · intro op ht hf
    by_cases hg : op = .getData
    · exact hg
    · by_cases hd : op = .dataReady
      · subst hd
        have h1 : (s._privateReadDataFromChip_ cfg).hasNewData = false := hf
        by_cases hmode : s.readingStatus = _ADS_NO_READING_NEW_DATA
        · rw [hidle hmode, ht] at h1
          exact absurd h1 (by decide)
        · rw [handler_sets_flag cfg s hmode] at h1
          exact absurd h1 (by decide)
      · rw [(hfg op hg hd).2, ht] at hf
        exact absurd hf (by decide)

/-- Witness of C34: reading a register, a data-ready event in SinglePending and `getData()`
on the sessions of the examples. -/
theorem C34_buffer_and_flag_single_writer_witness :
    ((PublicOp.readRegister 0x03 false).apply shippedConfig freshSession).state.adsData =
      freshSession.adsData ∧
    ((PublicOp.readRegister 0x03 false).apply shippedConfig freshSession).state.hasNewData =
      freshSession.hasNewData ∧
    pendingSession.readingStatus ≠ _ADS_NO_READING_NEW_DATA ∧
    pendingSession.hasNewData = false ∧
    (pendingSession._privateReadDataFromChip_ shippedConfig).hasNewData = true ∧
    (pendingSession._privateReadDataFromChip_ shippedConfig).getData.2.hasNewData = false :=
  have h := (C34_buffer_and_flag_single_writer shippedConfig freshSession).1
    (.readRegister 0x03 false) (fun h => PublicOp.noConfusion h)
    (fun h => PublicOp.noConfusion h)
  ⟨h.1, h.2, by decide, rfl,
    (C34_buffer_and_flag_single_writer shippedConfig pendingSession).2.2.2.1 (by decide),
    (C34_buffer_and_flag_single_writer shippedConfig
      (pendingSession._privateReadDataFromChip_ shippedConfig)).2.1.2.2⟩

/-! ### Chip-select and the bus-open flag -/

/-- The pin level after one more platform call. -/
theorem pinLevel_snoc (pin : Nat) (log : List Event) (e : Event) :
    pinLevel pin (log ++ [e]) = pinStep pin (pinLevel pin log) e := by
  simp [pinLevel, List.foldl_append]

/-- The transaction scan after one more platform call. -/
theorem transactionOpen_snoc (log : List Event) (e : Event) :
    transactionOpen (log ++ [e]) = transactionStep (transactionOpen log) e := by
  simp [transactionOpen, List.foldl_append]

/-- A platform call that is neither a begin nor an end leaves the transaction scan as it
is. -/
theorem transactionStep_other (scan : Option Bool) (e : Event)
    (h1 : ∀ c o m, e ≠ .beginTransaction c o m) (h2 : e ≠ .endTransaction) :
    transactionStep scan e = scan := by
  cases e with
  | beginTransaction c o m => exact absurd rfl (h1 c o m)
  | endTransaction => exact absurd rfl h2
  | _ => rcases scan with _ | b <;> first | rfl | (cases b <;> rfl)

/-- A plain platform call changes neither the transaction scan nor a pin level. -/
theorem plain_steps (pin : Nat) (scan : Option Bool) (level : Option PinLevel) (e : Event)
    (he : Event.isPlain e = true) :
    transactionStep scan e = scan ∧ pinStep pin level e = level := by
  cases e <;> simp [Event.isPlain] at he <;>
    exact ⟨transactionStep_other _ _ (fun _ _ _ => by simp) (by simp), rfl⟩

/-- The steps of the foreground methods keep the part of the invariant that holds inside
`begin()`. -/
theorem released_means_high_kept : KeptBySteps ChipSelectHighWhenReleased where
  plain := by
    intro s e ⟨hw, ht, hl⟩ he
    refine ⟨hw, ?_, ?_⟩
    · show transactionOpen (s.trace ++ [e]) = some s.isSpiOpen
      rw [transactionOpen_snoc, (plain_steps 0 _ none e he).1, ht]
    · show s.isSpiOpen = false → pinLevel s.chipSelectPin (s.trace ++ [e]) ≠ some .LOW
      rw [pinLevel_snoc, (plain_steps _ none _ e he).2]
      exact hl
  resetPin := by
    intro s l ⟨hw, ht, hl⟩ hp
    refine ⟨hw, ?_, ?_⟩
    · show transactionOpen (s.trace ++ [_]) = some s.isSpiOpen
      rw [transactionOpen_snoc, transactionStep_other _ _ (fun _ _ _ => by simp) (by simp), ht]
    · show s.isSpiOpen = false → pinLevel s.chipSelectPin (s.trace ++ [_]) ≠ some .LOW
      rw [pinLevel_snoc]
      simp only [pinStep, if_neg (hw.1 hp)]
      exact hl
  startPin := by
    intro s l ⟨hw, ht, hl⟩ hp
    refine ⟨hw, ?_, ?_⟩
    · show transactionOpen (s.trace ++ [_]) = some s.isSpiOpen
      rw [transactionOpen_snoc, transactionStep_other _ _ (fun _ _ _ => by simp) (by simp), ht]
    · show s.isSpiOpen = false → pinLevel s.chipSelectPin (s.trace ++ [_]) ≠ some .LOW
      rw [pinLevel_snoc]
      simp only [pinStep, if_neg (hw.2.1 hp)]
      exact hl
  pwdnPin := by
    intro s l ⟨hw, ht, hl⟩ hp
    refine ⟨hw, ?_, ?_⟩
    · show transactionOpen (s.trace ++ [_]) = some s.isSpiOpen
      rw [transactionOpen_snoc, transactionStep_other _ _ (fun _ _ _ => by simp) (by simp), ht]
    · show s.isSpiOpen = false → pinLevel s.chipSelectPin (s.trace ++ [_]) ≠ some .LOW
      rw [pinLevel_snoc]
      simp only [pinStep, if_neg (hw.2.2.1 hp)]
      exact hl
  clkselPin := by
    intro s l ⟨hw, ht, hl⟩ hp
    refine ⟨hw, ?_, ?_⟩
    · show transactionOpen (s.trace ++ [_]) = some s.isSpiOpen
      rw [transactionOpen_snoc, transactionStep_other _ _ (fun _ _ _ => by simp) (by simp), ht]
    · show s.isSpiOpen = false → pinLevel s.chipSelectPin (s.trace ++ [_]) ≠ some .LOW
      rw [pinLevel_snoc]
      simp only [pinStep, if_neg (hw.2.2.2 hp)]
      exact hl
  beginSpi := by
    intro s ⟨hw, ht, hl⟩
    rw [beginSpiTransaction_eq]
    cases hopen : s.isSpiOpen
    · refine ⟨hw, ?_, ?_⟩
      · show transactionOpen (s.trace ++ _) = some true
        rw [hopen] at ht
        simp [transactionOpen, List.foldl_append] at ht ⊢
        rw [ht]
        rfl
      · intro h
        cases h
    · refine ⟨hw, ?_, ?_⟩
      · show transactionOpen (s.trace ++ _) = some true
        rw [hopen] at ht
        simpa using ht
      · intro h
        cases h
  endSpi := by
    intro s ⟨hw, ht, hl⟩
    rw [endSpiTransaction_eq]
    cases hopen : s.isSpiOpen
    · refine ⟨hw, ?_, ?_⟩
      · show transactionOpen (s.trace ++ _) = some false
        rw [hopen] at ht
        simpa using ht
      · intro _
        show pinLevel s.chipSelectPin (s.trace ++ _) ≠ some .LOW
        simpa using hl hopen
    · refine ⟨hw, ?_, ?_⟩
      · show transactionOpen (s.trace ++ _) = some false
        rw [hopen] at ht
        simp [transactionOpen, List.foldl_append] at ht ⊢
        rw [ht]
        rfl
      · intro _
        show pinLevel s.chipSelectPin (s.trace ++ _) ≠ some .LOW
        simp [pinLevel, List.foldl_append, pinStep]
  transfer := by
    intro s d ⟨hw, ht, hl⟩
    refine ⟨hw, ?_, ?_⟩
    · show transactionOpen (s.trace ++ [_]) = some s.isSpiOpen
      rw [transactionOpen_snoc, transactionStep_other _ _ (fun _ _ _ => by simp) (by simp), ht]
    · show s.isSpiOpen = false → pinLevel s.chipSelectPin (s.trace ++ [_]) ≠ some .LOW
      rw [pinLevel_snoc]
      exact hl
  mode := fun _ _ h => h
  registered := fun _ _ h => h

/-- The invariant is the part that holds inside `begin()` together with: chip-select is LOW
while the flag is true. -/
theorem tracks_iff (s : ADS129xSensor) :
    ChipSelectTracksBus s ↔
      ChipSelectHighWhenReleased s ∧
      (s.isSpiOpen = true → pinLevel s.chipSelectPin s.trace = some .LOW) := by
  constructor
  · rintro ⟨hw, ht, hl⟩
    refine ⟨⟨hw, ht, fun hf hlow => ?_⟩, hl.2⟩
    rw [hl.1 hlow] at hf
    cases hf
  · rintro ⟨⟨hw, ht, hk⟩, hl⟩
    refine ⟨hw, ht, fun hlow => ?_, hl⟩
    cases hopen : s.isSpiOpen
    · exact absurd hlow (hk hopen)
    · rfl

/-- The steps of the foreground methods keep the invariant. -/
theorem tracks_bus_kept : KeptBySteps ChipSelectTracksBus where
  plain := by
    intro s e h he
    rw [tracks_iff] at h ⊢
    refine ⟨released_means_high_kept.plain s e h.1 he, ?_⟩
    show s.isSpiOpen = true → pinLevel s.chipSelectPin (s.trace ++ [e]) = some .LOW
    rw [pinLevel_snoc, (plain_steps _ none _ e he).2]
    exact h.2
  resetPin := by
    intro s l h hp
    rw [tracks_iff] at h ⊢
    refine ⟨released_means_high_kept.resetPin s l h.1 hp, ?_⟩
    show s.isSpiOpen = true → pinLevel s.chipSelectPin (s.trace ++ [_]) = some .LOW
    rw [pinLevel_snoc]
    simp only [pinStep, if_neg (h.1.1.1 hp)]
    exact h.2
  startPin := by
    intro s l h hp
    rw [tracks_iff] at h ⊢
    refine ⟨released_means_high_kept.startPin s l h.1 hp, ?_⟩
    show s.isSpiOpen = true → pinLevel s.chipSelectPin (s.trace ++ [_]) = some .LOW
    rw [pinLevel_snoc]
    simp only [pinStep, if_neg (h.1.1.2.1 hp)]
    exact h.2
  pwdnPin := by
    intro s l h hp
    rw [tracks_iff] at h ⊢
    refine ⟨released_means_high_kept.pwdnPin s l h.1 hp, ?_⟩
    show s.isSpiOpen = true → pinLevel s.chipSelectPin (s.trace ++ [_]) = some .LOW
    rw [pinLevel_snoc]
    simp only [pinStep, if_neg (h.1.1.2.2.1 hp)]
    exact h.2
  clkselPin := by
    intro s l h hp
    rw [tracks_iff] at h ⊢
    refine ⟨released_means_high_kept.clkselPin s l h.1 hp, ?_⟩
    show s.isSpiOpen = true → pinLevel s.chipSelectPin (s.trace ++ [_]) = some .LOW
    rw [pinLevel_snoc]
    simp only [pinStep, if_neg (h.1.1.2.2.2 hp)]
    exact h.2
  beginSpi := by
    intro s h
    rw [tracks_iff] at h ⊢
    refine ⟨released_means_high_kept.beginSpi s h.1, ?_⟩
    rw [beginSpiTransaction_eq]
    intro _
    show pinLevel s.chipSelectPin (s.trace ++ _) = some .LOW
    cases hopen : s.isSpiOpen
    · simp [pinLevel, List.foldl_append, pinStep]
    · simpa using h.2 hopen
  endSpi := by
    intro s h
    rw [tracks_iff] at h ⊢
    refine ⟨released_means_high_kept.endSpi s h.1, ?_⟩
    rw [endSpiTransaction_eq]
    intro hf
    cases hf
  transfer := by
    intro s d h
    rw [tracks_iff] at h ⊢
    refine ⟨released_means_high_kept.transfer s d h.1, ?_⟩
    show s.isSpiOpen = true → pinLevel s.chipSelectPin (s.trace ++ [_]) = some .LOW
    rw [pinLevel_snoc]
    exact h.2
  mode := fun _ _ h => h
  registered := fun _ _ h => h

/-- On a session with no instance registered `begin()` ends with the bus released, whether
it returns or stops at the identity check. -/
theorem begin_releases (cfg : Config) (s : ADS129xSensor)
    (h0 : s._ADS129xSensorPrivateInstance_ = 0) : (s.begin cfg).state.isSpiOpen = false := by
  by_cases hid : identityByte s = ADS129xSensor.correctIdChip cfg
  · rw [begin_accepted cfg s h0 hid]
    rfl
  · obtain ⟨log, _, hE⟩ := error_halts cfg ADS129xSensor.msgIdentity (afterIdentityRead cfg s)
    rw [begin_eq cfg s h0, if_pos hid, hE]
    rfl

/-- The invariant is kept by `begin()`. -/
theorem tracks_bus_begin (cfg : Config) (s : ADS129xSensor) (h : ChipSelectTracksBus s) :
    ChipSelectTracksBus (s.begin cfg).state := by
  by_cases h0 : s._ADS129xSensorPrivateInstance_ = 0
  · have hk : ChipSelectHighWhenReleased (s.begin cfg).state := by
      refine released_means_high_kept.begin ?_ cfg s ((tracks_iff s).1 h).1
      intro s1 ⟨hw, ht, _⟩
      refine ⟨hw, ?_, fun _ => ?_⟩
      · show transactionOpen (s1.trace ++ [_]) = some s1.isSpiOpen
        rw [transactionOpen_snoc, transactionStep_other _ _ (fun _ _ _ => by simp) (by simp),
          ht]
      · show pinLevel s1.chipSelectPin (s1.trace ++ [_]) ≠ some .LOW
        rw [pinLevel_snoc]
        simp [pinStep]
    rw [tracks_iff]
    refine ⟨hk, fun hopen => ?_⟩
    rw [begin_releases cfg s h0] at hopen
    cases hopen
  · rw [begin_parts, if_neg h0]
    exact tracks_bus_kept.errorBind cfg _ s _ h

/-- The invariant is kept by a data-ready event. -/
theorem tracks_bus_handler (cfg : Config) (s : ADS129xSensor) (h : ChipSelectTracksBus s) :
    ChipSelectTracksBus (s._privateReadDataFromChip_ cfg) := by
  have hbuf : ∀ (s1 : ADS129xSensor) (n : Nat), ChipSelectTracksBus s1 →
      ChipSelectTracksBus { SPI.transferBuf (s1.cleanBuffer cfg) n with hasNewData := true } := by
    intro s1 n ⟨hw, ht, hl⟩
    refine ⟨hw, ?_, ?_⟩
    · show transactionOpen (s1.trace ++ [_]) = some s1.isSpiOpen
      rw [transactionOpen_snoc, transactionStep_other _ _ (fun _ _ _ => by simp) (by simp), ht]
    · show pinLevel s1.chipSelectPin (s1.trace ++ [_]) = some .LOW ↔ s1.isSpiOpen = true
      rw [pinLevel_snoc]
      exact hl
  unfold ADS129xSensor._privateReadDataFromChip_
  split
  · exact h
  · split
    · exact tracks_bus_kept.endSpi _ (hbuf _ _ (tracks_bus_kept.beginSpi s h))
    · exact tracks_bus_kept.endSpi _ (hbuf _ _
        (tracks_bus_kept.mode _ _ (tracks_bus_kept.sendCommand cfg s _ true h)))

/-- Every public operation and the data-ready event keep the invariant. -/
theorem tracks_bus_step (cfg : Config) (s : ADS129xSensor) (op : PublicOp)
    (h : ChipSelectTracksBus s) : ChipSelectTracksBus (op.apply cfg s).state := by
  cases hop : op.isForeground
  · cases op with
    | begin => exact tracks_bus_begin cfg s h
    | getData => exact h
    | dataReady => exact tracks_bus_handler cfg s h
    | _ => cases hop
  · exact tracks_bus_kept.foreground cfg s op hop h

/-- Every sequence of public operations and data-ready events keeps the invariant, up to
the state in which the run returned or stopped. -/
theorem tracks_bus_run (cfg : Config) (ops : List PublicOp) :
    ∀ s : ADS129xSensor, ChipSelectTracksBus s →
      ChipSelectTracksBus (runPublic cfg s ops).state := by
  induction ops with
  | nil => intro s h; exact h
  | cons op rest ih =>
    intro s h
    exact kept_bind _ _ (tracks_bus_step cfg s op h) (fun _ s1 h1 => ih s1 h1)

/-- C37: on a session whose optional control pins, where given, are other pins than
chip-select, chip-select tracks the bus-open flag. The invariant `ChipSelectTracksBus` says
that the level last written to the chip-select pin is LOW exactly when the bus-open flag is
true, and that the `SPI.beginTransaction` and `SPI.endTransaction` calls of the log
alternate strictly, starting with a begin, a transaction being open exactly when the flag
is true. It holds on a constructed session and after the pin configuration of `begin()`
(chip-select written HIGH, flag false); every public method with every argument and every
data-ready event keeps it, whether the method returns or stops the program; so does every
sequence of them. `beginSpiTransaction` on an open bus and `endSpiTransaction` on a closed
bus change nothing. -/
theorem C37_chip_select_tracks_bus_flag (cfg : Config) :
    (∀ s : ADS129xSensor, ChipSelectTracksBus s →
      (pinLevel s.chipSelectPin s.trace = some .LOW ↔ s.isSpiOpen = true) ∧
      transactionOpen s.trace = some s.isSpiOpen) ∧
    (∀ (chipSelectPin drdyPin resetPin startPin pwdnPin clkselPin this : Nat)
        (rawData : List Nat) (miso : Nat → Nat),
      ControlPinsApart (ADS129xSensor.new chipSelectPin drdyPin resetPin startPin pwdnPin
        clkselPin this rawData miso) →
      ChipSelectTracksBus (ADS129xSensor.new chipSelectPin drdyPin resetPin startPin pwdnPin
        clkselPin this rawData miso) ∧
      ChipSelectTracksBus ((ADS129xSensor.new chipSelectPin drdyPin resetPin startPin pwdnPin
        clkselPin this rawData miso).beginPrologue cfg) ∧
      pinLevel chipSelectPin ((ADS129xSensor.new chipSelectPin drdyPin resetPin startPin
        pwdnPin clkselPin this rawData miso).beginPrologue cfg).trace = some .HIGH ∧
      ((ADS129xSensor.new chipSelectPin drdyPin resetPin startPin pwdnPin clkselPin this
        rawData miso).beginPrologue cfg).isSpiOpen = false) ∧
    (∀ (s : ADS129xSensor) (op : PublicOp), ChipSelectTracksBus s →
      ChipSelectTracksBus (op.apply cfg s).state) ∧
    (∀ (s : ADS129xSensor) (ops : List PublicOp), ChipSelectTracksBus s →
      ChipSelectTracksBus (runPublic cfg s ops).state) ∧
    (∀ s : ADS129xSensor, s.isSpiOpen = true → s.beginSpiTransaction = s) ∧
    (∀ s : ADS129xSensor, s.isSpiOpen = false → s.endSpiTransaction = s) := by
  refine ⟨fun s h => ⟨h.2.2, h.2.1⟩, ?_, fun s op h => tracks_bus_step cfg s op h,
    fun s ops h => tracks_bus_run cfg ops s h, ?_, ?_⟩
  · intro cs drdy rst start pwdn clk this raw miso hw
    have hnew : ChipSelectTracksBus (ADS129xSensor.new cs drdy rst start pwdn clk this raw miso) :=
      ⟨hw, rfl, ⟨fun h => (by cases h), fun h => (by cases h)⟩⟩
    have hk : ChipSelectHighWhenReleased
        ((ADS129xSensor.new cs drdy rst start pwdn clk this raw miso).beginPrologue cfg) := by
      refine released_means_high_kept.beginPrologue ?_ cfg _ ((tracks_iff _).1 hnew).1
      intro s1 ⟨hw1, ht, _⟩
      refine ⟨hw1, ?_, fun _ => ?_⟩
      · show transactionOpen (s1.trace ++ [_]) = some s1.isSpiOpen
        rw [transactionOpen_snoc, transactionStep_other _ _ (fun _ _ _ => by simp) (by simp),
          ht]
      · show pinLevel s1.chipSelectPin (s1.trace ++ [_]) ≠ some .LOW
        rw [pinLevel_snoc]
        simp [pinStep]
    have hflag : ((ADS129xSensor.new cs drdy rst start pwdn clk this raw miso).beginPrologue
        cfg).isSpiOpen = false := by
      rw [beginPrologue_eq]
      rfl
    refine ⟨hnew, (tracks_iff _).2 ⟨hk, fun hopen => ?_⟩, ?_, hflag⟩
    · rw [hflag] at hopen
      cases hopen
    · rw [beginPrologue_eq]
      by_cases hv : cfg.ADS_LIBRARY_VERBOSE_LEVEL > 0 <;>
        simp [ADS129xSensor.new, pinLevel, pinStep, hv]
  · intro s h
    unfold ADS129xSensor.beginSpiTransaction
    simp [h]
  · intro s h
    unfold ADS129xSensor.endSpiTransaction
    simp [h]

/-- Witness of C37: `plainSession` (no optional pin) satisfies the invariant; after
`begin()` the bus is released and chip-select is HIGH, after `begin()`, `end()` the
transaction is open and chip-select is LOW, and after `begin()`, `end()`, `begin()` the bus
is released again; a log that starts with `SPI.endTransaction`, or holds two
`SPI.beginTransaction` in a row, does not pass the scan. -/
theorem C37_chip_select_tracks_bus_flag_witness :
    ControlPinsApart plainSession ∧
    ChipSelectTracksBus plainSession ∧
    ChipSelectTracksBus
      (runPublic shippedConfig plainSession [.begin, .«end», .begin]).state ∧
    (runPublic shippedConfig plainSession [.begin]).state.isSpiOpen = false ∧
    pinLevel 10 (runPublic shippedConfig plainSession [.begin]).state.trace = some .HIGH ∧
    (runPublic shippedConfig plainSession [.begin, .«end»]).state.isSpiOpen = true ∧
    pinLevel 10 (runPublic shippedConfig plainSession [.begin, .«end»]).state.trace =
      some .LOW ∧
    transactionOpen (runPublic shippedConfig plainSession [.begin, .«end»]).state.trace =
      some true ∧
    (runPublic shippedConfig plainSession [.begin, .«end», .begin]).state.isSpiOpen = false ∧
    transactionOpen [.endTransaction] = none ∧
    transactionOpen
      [.beginTransaction _ADS_SPI_MAX_SPEED _ADS_SPI_BIT_ORDER _ADS_SPI_MODE,
       .beginTransaction _ADS_SPI_MAX_SPEED _ADS_SPI_BIT_ORDER _ADS_SPI_MODE] = none :=
  have hw : ControlPinsApart plainSession :=
    ⟨fun h => absurd rfl h, fun h => absurd rfl h, fun h => absurd rfl h,
      fun h => absurd rfl h⟩
  have hnew := ((C37_chip_select_tracks_bus_flag shippedConfig).2.1 10 2 ADS_PIN_NOT_USED
    ADS_PIN_NOT_USED ADS_PIN_NOT_USED ADS_PIN_NOT_USED 1 (List.replicate 15 0xAA) chip1294
    hw).1
  ⟨hw, hnew,
    (C37_chip_select_tracks_bus_flag shippedConfig).2.2.2.1 plainSession
      [.begin, .«end», .begin] hnew,
    rfl, by decide, rfl, by decide, by decide, rfl, rfl, rfl⟩

/-! ### Register round trip against the simulated chip -/

set_option maxRecDepth 1000000 in
/-- The opcode bytes of the register frames, as the simulated chip decodes them. -/
theorem opcode_decoded : ∀ a < 0x20,
    (ads.commands.WREG ||| a) &&& 0xE0 ≠ ads.commands.RREG ∧
    (ads.commands.WREG ||| a) &&& 0xE0 = ads.commands.WREG ∧
    (ads.commands.WREG ||| a) &&& 0x1F = a ∧
    (ads.commands.RREG ||| a) &&& 0xE0 = ads.commands.RREG ∧
    (ads.commands.RREG ||| a) &&& 0x1F = a ∧
    (ads.commands.WREG ||| a) % 256 = ads.commands.WREG ||| a ∧
    (ads.commands.RREG ||| a) % 256 = ads.commands.RREG ||| a := by
  decide

/-- The simulated chip, waiting for an opcode, answers a write frame to a writable register
followed by a read frame of the same register with the policy value of the byte written, in
the last exchange. -/
theorem answers_write_read (m : RegisterMap) (chip : SimulatedChip) (a d : Nat)
    (ha : a < 0x20) (hw : m.readOnly a = false) (hphase : chip.phase = .opcode) :
    chip.answers m [ads.commands.WREG ||| a, 0x00, d, ads.commands.RREG ||| a, 0x00, 0x00] =
      [0x00, 0x00, 0x00, 0x00, 0x00, m.policy a d] := by
  obtain ⟨h1, h2, h3, h4, h5, _, _⟩ := opcode_decoded a ha
  obtain ⟨regs, phase⟩ := chip
  simp only at hphase
  subst hphase
  simp only [ads.commands.WREG, ads.commands.RREG] at h1 h2 h3 h4 h5 ⊢
  simp [SimulatedChip.answers, SimulatedChip.exchange, ads.commands.WREG, ads.commands.RREG,
    h1, h2, h3, h4, h5, hw]

/-- C31: against the simulated chip (at the start of a frame) with any register map, in a
mode other than ContinuousStream, for every writable address `a` below 0x20 and every data
byte `d`: when the bytes received in the six exchanges are the answers of the simulated
chip to the bytes `0x40 | a`, 0x00, `d`, `0x20 | a`, 0x00, 0x00, then `writeRegister(a, d)`
followed immediately by `readRegister(a)` sends exactly those bytes and returns the policy
value of `d`: `d` with the reserved bits of the register replaced by their documented
values. -/
theorem C31_write_then_read_returns_policy_value (cfg : Config) (s : ADS129xSensor)
    (m : RegisterMap) (chip : SimulatedChip) (a d : Nat) (keepWrite keepRead : Bool)
    (hmode : s.readingStatus ≠ _ADS_READING_DATA_IN_RDATAC_MODE)
    (ha : a < 0x20) (hd : d < 256) (hwritable : m.readOnly a = false)
    (hphase : chip.phase = .opcode)
    (hchip : incoming s.miso s.rxCount 6 =
      chip.answers m [ads.commands.WREG ||| a, 0x00, d, ads.commands.RREG ||| a, 0x00, 0x00]) :
    ∃ s1, ((s.writeRegister cfg a d keepWrite).bind fun _ s1 =>
        s1.readRegister cfg a keepRead) = .returned (m.policy a d) s1 ∧
      txBytes s1.trace = txBytes s.trace ++
        [ads.commands.WREG ||| a, 0x00, d, ads.commands.RREG ||| a, 0x00, 0x00] ∧
      s1.isSpiOpen = keepRead ∧
      m.policy a d =
        (d &&& complementByte (m.reservedMask a)) |||
          (m.reservedValue a &&& m.reservedMask a) := by
  obtain ⟨_, _, _, _, _, hwb, hrb⟩ := opcode_decoded a ha
  rw [answers_write_read m chip a d ha hwritable hphase] at hchip
  have h6 : s.miso (s.rxCount + 5) % 256 = m.policy a d := by
    have h := congrArg (fun l => l.getD 5 0) hchip
    simpa [incoming, List.range_succ] using h
  rw [writeRegister_accepted cfg s a d keepWrite hmode, Outcome.returned_bind,
    readRegister_accepted]
  · have h6b : s.miso (s.rxCount + 3 + 2) % 256 = m.policy a d := h6
    simp only [h6b]
    refine ⟨_, rfl, ?_, rfl, rfl⟩
    · show txBytes (s.trace ++ _ ++ _ ++ _ ++ _ ++ _ ++ _ ++ _) = _
      rw [hwb, hrb, Nat.mod_eq_of_lt hd]
      by_cases hreg : a = ads.registers.config1.REG_ADDR ∨ a = ads.registers.resp.REG_ADDR <;>
        cases keepWrite <;> cases keepRead <;> cases hopen : s.isSpiOpen <;>
        simp [txBytes_append, hreg] <;> simp [txBytes, Event.txBytes]
  · exact hmode

/-- Witness of C31: 0x0C written to CONFIG3 (0x03), whose bit 0x40 is reserved as 1, reads
back as 0x4C on `roundTripSession`. -/
theorem C31_write_then_read_returns_policy_value_witness :
    roundTripSession.readingStatus ≠ _ADS_READING_DATA_IN_RDATAC_MODE ∧
    (0x03 : Nat) < 0x20 ∧ (0x0C : Nat) < 256 ∧
    headerRegisterMap.readOnly 0x03 = false ∧
    simulatedChipAtRest.phase = .opcode ∧
    incoming roundTripSession.miso roundTripSession.rxCount 6 =
      simulatedChipAtRest.answers headerRegisterMap
        [ads.commands.WREG ||| 0x03, 0x00, 0x0C, ads.commands.RREG ||| 0x03, 0x00, 0x00] ∧
    headerRegisterMap.policy 0x03 0x0C = 0x4C ∧
    ∃ s1, ((roundTripSession.writeRegister shippedConfig 0x03 0x0C false).bind fun _ s1 =>
        s1.readRegister shippedConfig 0x03 false) =
          .returned (headerRegisterMap.policy 0x03 0x0C) s1 ∧
      txBytes s1.trace = txBytes roundTripSession.trace ++
        [ads.commands.WREG ||| 0x03, 0x00, 0x0C, ads.commands.RREG ||| 0x03, 0x00, 0x00] ∧
      s1.isSpiOpen = false ∧
      headerRegisterMap.policy 0x03 0x0C =
        (0x0C &&& complementByte (headerRegisterMap.reservedMask 0x03)) |||
          (headerRegisterMap.reservedValue 0x03 &&& headerRegisterMap.reservedMask 0x03) :=
  ⟨by decide, by decide, by decide, by decide, rfl, by decide, by decide,
    C31_write_then_read_returns_policy_value shippedConfig roundTripSession headerRegisterMap
      simulatedChipAtRest 0x03 0x0C false false (by decide) (by decide) (by decide)
      (by decide) rfl (by decide)⟩

end ADS129x
